import Mathlib

/-!
# FADEC engine control of the A339X: a shallow embedding of `EngineControl.h`

The C++ class `EngineControl` (file `src/wasm/fadec_a330/src/EngineControl.h`)
is embedded as pure functions on an explicit state.

Modelling conventions:

* a C++ `double` is an exact rational (`ℚ`): rounding, infinities and NaN are
  not modelled, and a division is only meaningful where its divisor is not
  zero (Lean gives `x / 0 = 0`); where a zero divisor matters the division is
  embedded a second time as a fallible one (`divChecked`, `updateFuelChecked`),
  and the two embeddings are proved to agree wherever the divisor is not zero;
* the filter step of `updateEGT` is also given over an arbitrary field
  (`egtFilter`), so that `expFBW` can be taken as the real exponential;
* a C++ `int` is an `ℤ`; the conversion `double → int` truncates towards zero;
* the host variable bus behind `simVars->get…/set…` is the record `SimVars`:
  a setter followed by the matching getter returns the value set;
* data pushed with `SimConnect_SetDataOnSimObject` is recorded in `SimObject`;
* a `Timer` is represented by the reading of `elapsed()` (milliseconds) during
  the tick, `reset()` sets that reading to `0`;
* headers that are not part of the sources at hand (`RegPolynomials.h`,
  `ThrustLimits.h`, `Tables.h`, `common.h`) are taken as parameters, gathered
  in the record `Library`;
* the configuration file is an `INIStructure` (section, key, text); a text with
  six decimals, as `std::to_string` writes it, is represented by the number of
  millionths it spells.
-/

set_option linter.unusedVariables false

namespace A339x

/-! ## Data model -/

/-- The host variable bus, as read and written through `simVars`. -/
structure SimVars where
  animDeltaTime : ℚ
  mach : ℚ
  pressureAltitude : ℚ
  ambientTemperature : ℚ
  ambientPressure : ℚ
  simOnGround : ℚ
  engineImbalance : ℚ
  packsState1 : ℚ
  packsState2 : ℚ
  nai : ℤ → ℚ
  wai : ℚ
  engineStarter : ℤ → ℚ
  engineIgniter : ℤ → ℚ
  cn1 : ℤ → ℚ
  n1 : ℤ → ℚ
  n2 : ℤ → ℚ
  thrust : ℤ → ℚ
  engineIdleN1 : ℚ
  engineIdleN3 : ℚ
  engineIdleFF : ℚ
  engineIdleEGT : ℚ
  engine1State : ℚ
  engine2State : ℚ
  engine1Timer : ℚ
  engine2Timer : ℚ
  engine1EGT : ℚ
  engine2EGT : ℚ
  engine1N1 : ℚ
  engine2N1 : ℚ
  engine1N2 : ℚ
  engine2N2 : ℚ
  engine1N3 : ℚ
  engine2N3 : ℚ
  engine1FF : ℚ
  engine2FF : ℚ
  engine1PreFF : ℚ
  engine2PreFF : ℚ
  fuelUsedEngine1 : ℚ
  fuelUsedEngine2 : ℚ
  fuelWeightGallon : ℚ
  fuelLeftPre : ℚ
  fuelRightPre : ℚ
  fuelAuxLeftPre : ℚ
  fuelAuxRightPre : ℚ
  fuelCenterPre : ℚ
  fuelTrimPre : ℚ
  fuelTankQuantity : ℤ → ℚ
  valve : ℤ → ℚ
  pump : ℤ → ℚ
  lineFlow : ℤ → ℚ
  junctionSetting : ℤ → ℚ
  refuelRate : ℚ
  refuelStartedByUser : ℚ
  pumpStateEngine1 : ℚ
  pumpStateEngine2 : ℚ
  isReady : ℚ
  developerState : ℚ
  flexTemp : ℚ
  thrustLimitType : ℚ
  thrustLimitIdle : ℚ
  thrustLimitToga : ℚ
  thrustLimitFlex : ℚ
  thrustLimitClimb : ℚ
  thrustLimitMct : ℚ

/-- Last values pushed to the host with `SimConnect_SetDataOnSimObject`, one
field per `DataTypesID` used by the class (`none`: never written). -/
structure SimObject where
  startCN3Engine1 : Option ℚ
  startCN3Engine2 : Option ℚ
  oilTempEngine1 : Option ℚ
  oilTempEngine2 : Option ℚ
  fuelCenterMain : Option ℚ
  fuelLeftMain : Option ℚ
  fuelRightMain : Option ℚ
  fuelLeftAux : Option ℚ
  fuelRightAux : Option ℚ

/-- Values in gallons: `struct Configuration`. -/
structure Configuration where
  fuelCenter : ℚ
  fuelLeft : ℚ
  fuelRight : ℚ
  fuelLeftAux : ℚ
  fuelRightAux : ℚ
  fuelTrim : ℚ

/-- The object state of `class EngineControl`: the bus, the data pushed to the
host, the three timers, the configuration store and the member variables. -/
structure EngineControl where
  simVars : SimVars
  simObject : SimObject
  timerEngine1 : ℚ
  timerEngine2 : ℚ
  timerFuel : ℚ
  confStore : Option Configuration
  simPaused : Bool
  animationDeltaTime : ℚ
  timer : ℚ
  ambientTemp : ℚ
  ambientPressure : ℚ
  simOnGround : ℚ
  devState : ℚ
  isReady : ℚ
  engine : ℤ
  egtImbalance : ℤ
  ffImbalance : ℤ
  n3Imbalance : ℤ
  engineState : ℚ
  engineStarter : ℚ
  engineIgniter : ℚ
  packs : ℚ
  nai : ℚ
  wai : ℚ
  simCN1 : ℚ
  simN1 : ℚ
  simN3 : ℚ
  thrust : ℚ
  simN3Engine1Pre : ℚ
  simN3Engine2Pre : ℚ
  deltaN3 : ℚ
  oilTemperature : ℚ
  oilTemperatureEngine1Pre : ℚ
  oilTemperatureEngine2Pre : ℚ
  idleN1 : ℚ
  idleN3 : ℚ
  idleFF : ℚ
  idleEGT : ℚ
  mach : ℚ
  pressAltitude : ℚ
  correctedEGT : ℚ
  correctedFuelFlow : ℚ
  cFbwFF : ℚ
  imbalance : ℚ
  engineImbalanced : ℤ
  paramImbalance : ℚ
  isFlexActive : Bool
  prevThrustLimitType : ℚ
  prevFlexTemperature : ℚ
  isTransitionActive : Bool
  transitionFactor : ℚ
  transitionStartTime : ℚ

/-- `const double LBS_TO_KGS = 0.4535934`. -/
def LBS_TO_KGS : ℚ := 4535934 / 10000000

/-- `const double KGS_TO_LBS = 1 / 0.4535934`. -/
def KGS_TO_LBS : ℚ := 1 / (4535934 / 10000000)

/-- `const double FUEL_THRESHOLD = 661` (the source comments it as lbs/sec). -/
def FUEL_THRESHOLD : ℚ := 661

/-- `const double waitTime = 10`. -/
def waitTime : ℚ := 10

/-- `const double transitionTime = 30`. -/
def transitionTime : ℚ := 30

/-! ## Engine state machine

`0` engine OFF, `1` engine ON, `2` engine starting, `3` engine re-starting,
`4` engine shutting; `+10` while the simulation is paused. -/

/-- The local variables of `engineStateMachine` that its body assigns, together
with the members `engineState` and `simPaused`. -/
structure EsmVars where
  engineState : ℚ
  resetTimer : ℤ
  simPaused : Bool

/-- Block `// Present State OFF`. -/
def presentStateOff (engineIgniter engineStarter simN3 : ℚ) (v : EsmVars) : EsmVars :=
  if v.engineState = 0 ∨ v.engineState = 10 then
    if engineIgniter = 1 ∧ engineStarter = 1 ∧ simN3 > 20 then
      { v with engineState := 1 }
    else if engineIgniter = 2 ∧ engineStarter = 1 then
      { v with engineState := 2 }
    else
      { v with engineState := 0 }
  else v

/-- Block `// Present State ON`. -/
def presentStateOn (engineStarter : ℚ) (v : EsmVars) : EsmVars :=
  if v.engineState = 1 ∨ v.engineState = 11 then
    if engineStarter = 1 then
      { v with engineState := 1 }
    else
      { v with engineState := 4 }
  else v

/-- Block `// Present State Starting.` -/
def presentStateStarting (engineStarter simN3 idleN3 : ℚ) (v : EsmVars) : EsmVars :=
  if v.engineState = 2 ∨ v.engineState = 12 then
    if engineStarter = 1 ∧ simN3 ≥ idleN3 - 1 / 10 then
      { v with engineState := 1, resetTimer := 1 }
    else if engineStarter = 0 then
      { v with engineState := 4, resetTimer := 1 }
    else
      { v with engineState := 2 }
  else v

/-- Block `// Present State Re-Starting.` -/
def presentStateRestarting (engineStarter simN3 idleN3 : ℚ) (v : EsmVars) : EsmVars :=
  if v.engineState = 3 ∨ v.engineState = 13 then
    if engineStarter = 1 ∧ simN3 ≥ idleN3 - 1 / 10 then
      { v with engineState := 1, resetTimer := 1 }
    else if engineStarter = 0 then
      { v with engineState := 4, resetTimer := 1 }
    else
      { v with engineState := 3 }
  else v

/-- Block `// Present State Shutting`. -/
def presentStateShutting (engineIgniter engineStarter simN3 egtFbw ambientTemp : ℚ)
    (v : EsmVars) : EsmVars :=
  if v.engineState = 4 ∨ v.engineState = 14 then
    if engineIgniter = 2 ∧ engineStarter = 1 then
      { v with engineState := 3, resetTimer := 1 }
    else if engineStarter = 0 ∧ simN3 < 5 / 100 ∧ egtFbw ≤ ambientTemp then
      { v with engineState := 0, resetTimer := 1 }
    else if engineStarter = 1 ∧ simN3 > 50 then
      { v with engineState := 3, resetTimer := 1 }
    else
      { v with engineState := 4 }
  else v

/-- The body of `engineStateMachine` between the two `switch (engine)`
statements: the pause test, then the five blocks one after the other (they are
separate `if` statements, so a block sees the state assigned by the blocks
before it). -/
def esmBody (engineIgniter engineStarter simN3 idleN3 ambientTemp deltaTimeDiff egtFbw : ℚ)
    (v : EsmVars) : EsmVars :=
  if deltaTimeDiff = 0 ∧ v.engineState < 10 then
    { v with engineState := v.engineState + 10, simPaused := true }
  else if deltaTimeDiff = 0 ∧ v.engineState ≥ 10 then
    { v with simPaused := true }
  else
    presentStateShutting engineIgniter engineStarter simN3 egtFbw ambientTemp
      (presentStateRestarting engineStarter simN3 idleN3
        (presentStateStarting engineStarter simN3 idleN3
          (presentStateOn engineStarter
            (presentStateOff engineIgniter engineStarter simN3
              { v with simPaused := false }))))

/-- The first `switch (engine)`: the member `engineState` and the local `egtFbw`
after it (`egtFbw` is initialised to `0`; with an engine number other than 1
and 2 the member keeps its value). -/
def esmRead (ec : EngineControl) (engine : ℤ) : ℚ × ℚ :=
  if engine = 1 then (ec.simVars.engine1State, ec.simVars.engine1EGT)
  else if engine = 2 then (ec.simVars.engine2State, ec.simVars.engine2EGT)
  else (ec.engineState, 0)

/-- The second `switch (engine)`: write the state back, zero the timer when
`resetTimer == 1`. -/
def esmWrite (sv : SimVars) (engine : ℤ) (v : EsmVars) : SimVars :=
  if engine = 1 then
    let sv1 := { sv with engine1State := v.engineState }
    if v.resetTimer = 1 then { sv1 with engine1Timer := 0 } else sv1
  else if engine = 2 then
    let sv1 := { sv with engine2State := v.engineState }
    if v.resetTimer = 1 then { sv1 with engine2Timer := 0 } else sv1
  else sv

/-- `void engineStateMachine(int engine, double engineIgniter, double engineStarter,
double simN3, double idleN3, double pressAltitude, double ambientTemp,
double deltaTimeDiff)`. -/
def engineStateMachine (ec : EngineControl) (engine : ℤ)
    (engineIgniter engineStarter simN3 idleN3 pressAltitude ambientTemp deltaTimeDiff : ℚ) :
    EngineControl :=
  let r := esmRead ec engine
  let v := esmBody engineIgniter engineStarter simN3 idleN3 ambientTemp deltaTimeDiff r.2
    { engineState := r.1, resetTimer := 0, simPaused := ec.simPaused }
  { ec with
    simVars := esmWrite ec.simVars engine v
    engineState := v.engineState
    simPaused := v.simPaused }

/-- The state of engine `engine` on the bus (`getEngine1State` / `getEngine2State`). -/
def engineStateOf (sv : SimVars) (engine : ℤ) : ℚ :=
  if engine = 1 then sv.engine1State else sv.engine2State

/-- The timer of engine `engine` on the bus (`getEngine1Timer` / `getEngine2Timer`). -/
def engineTimerOf (sv : SimVars) (engine : ℤ) : ℚ :=
  if engine = 1 then sv.engine1Timer else sv.engine2Timer

/-- The EGT of engine `engine` on the bus (`getEngine1EGT` / `getEngine2EGT`). -/
def engineEGTOf (sv : SimVars) (engine : ℤ) : ℚ :=
  if engine = 1 then sv.engine1EGT else sv.engine2EGT

/-! ## External numeric library -/

/-- Functions declared in headers outside the sources at hand (`RegPolynomials.h`:
`poly->…`; `common.h`: `ratios->…`, `imbalanceExtractor`, `expFBW`; `Tables.h`:
`iCN1`, `iCN3`; `ThrustLimits.h`: `limitN1`) and `sqrt` of the C library. They are
parameters of the embedding; `imbalanceExtractor` is taken as returning a `double`. -/
structure Library where
  iCN1 : ℚ → ℚ → ℚ → ℚ
  iCN3 : ℚ → ℚ → ℚ
  theta : ℚ → ℚ
  theta2 : ℚ → ℚ → ℚ
  delta2 : ℚ → ℚ → ℚ
  sqrt : ℚ → ℚ
  expFBW : ℚ → ℚ
  imbalanceExtractor : ℚ → ℤ → ℚ
  correctedEGT : ℚ → ℚ → ℚ → ℚ → ℚ
  correctedFuelFlow : ℚ → ℚ → ℚ → ℚ
  startN3 : ℚ → ℚ → ℚ → ℚ
  startN1 : ℚ → ℚ → ℚ → ℚ
  startFF : ℚ → ℚ → ℚ → ℚ
  startEGT : ℚ → ℚ → ℚ → ℚ → ℚ
  startOilTemp : ℚ → ℚ → ℚ → ℚ
  shutdownN1 : ℚ → ℚ → ℚ
  shutdownN3 : ℚ → ℚ → ℚ
  shutdownEGT : ℚ → ℚ → ℚ → ℚ
  limitN1 : ℤ → ℚ → ℚ → ℚ → ℚ → ℚ → ℚ → ℚ → ℚ

/-- Conversion `double → int`: truncation towards zero. -/
def truncInt (q : ℚ) : ℤ := if 0 ≤ q then ⌊q⌋ else ⌈q⌉

/-! ## Idle parameters, start, shutdown and steady-state procedures -/

/-- `void generateIdleParameters(double pressAltitude, double mach, double ambientTemp,
double ambientPressure)`. -/
def generateIdleParameters (lib : Library) (ec : EngineControl)
    (pressAltitude mach ambientTemp ambientPressure : ℚ) : EngineControl :=
  let idleCN1 := lib.iCN1 pressAltitude mach ambientTemp
  let idleN1 := idleCN1 * lib.sqrt (lib.theta2 0 ambientTemp)
  let idleN3 := lib.iCN3 pressAltitude mach * lib.sqrt (lib.theta ambientTemp)
  let idleCFF := lib.correctedFuelFlow idleCN1 0 pressAltitude
  let idleFF := idleCFF * LBS_TO_KGS * lib.delta2 0 ambientPressure
    * lib.sqrt (lib.theta2 0 ambientTemp)
  let idleEGT := lib.correctedEGT idleCN1 idleCFF 0 pressAltitude * lib.theta2 0 ambientTemp
  { ec with
    idleN1 := idleN1
    idleN3 := idleN3
    idleFF := idleFF
    idleEGT := idleEGT
    simVars := { ec.simVars with
      engineIdleN1 := idleN1
      engineIdleN3 := idleN3
      engineIdleFF := idleFF
      engineIdleEGT := idleEGT } }

/-- `void engineStartProcedure(int engine, double engineState, double imbalance,
double deltaTime, double timer, double simN3, double pressAltitude, double ambientTemp)`. -/
def engineStartProcedure (lib : Library) (ec : EngineControl) (engine : ℤ)
    (engineState imbalance deltaTime timer simN3 pressAltitude ambientTemp : ℚ) :
    EngineControl :=
  let sv := ec.simVars
  let idleN3 := sv.engineIdleN3
  let idleN1 := sv.engineIdleN1
  let idleFF := sv.engineIdleFF
  let idleEGT := sv.engineIdleEGT
  let engineImbalanced := truncInt (lib.imbalanceExtractor imbalance 1)
  let afflicted : Bool := decide (engineImbalanced = engine)
  let ec0 : EngineControl :=
    { ec with
      n3Imbalance := if afflicted then truncInt (lib.imbalanceExtractor imbalance 4 / 100) else 0
      ffImbalance := if afflicted then truncInt (lib.imbalanceExtractor imbalance 3) else 0
      egtImbalance := if afflicted then truncInt (lib.imbalanceExtractor imbalance 2) else 0
      idleN3 := idleN3
      idleN1 := idleN1
      idleFF := idleFF
      idleEGT := idleEGT
      engineImbalanced := engineImbalanced }
  if engine = 1 then
    -- Delay between Engine Master ON and Start Valve Open
    if timer < 17 / 10 then
      let sv1 := if ec.simOnGround = 1 then { sv with fuelUsedEngine1 := 0 } else sv
      { ec0 with
        simVars := { sv1 with engine1Timer := timer + deltaTime }
        simObject := { ec.simObject with startCN3Engine1 := some 0 } }
    else
      let preN3Fbw := sv.engine1N3
      let preEgtFbw := sv.engine1EGT
      let newN3Fbw := lib.startN3 simN3 preN3Fbw idleN3
      let startEgtFbw := lib.startEGT newN3Fbw idleN3 ambientTemp idleEGT
      let shutdownEgtFbw := lib.shutdownEGT preEgtFbw ambientTemp deltaTime
      let sv1 := { sv with
        engine1N3 := newN3Fbw
        engine1N2 := newN3Fbw + 7 / 10
        engine1N1 := lib.startN1 newN3Fbw idleN3 idleN1
        engine1FF := lib.startFF newN3Fbw idleN3 idleFF }
      let sv2 : SimVars :=
        if engineState = 3 then
          if |startEgtFbw - preEgtFbw| ≤ 3 / 2 then
            { sv1 with engine1EGT := startEgtFbw, engine1State := 2 }
          else if startEgtFbw > preEgtFbw then
            { sv1 with engine1EGT := preEgtFbw + (3 / 4 * deltaTime * (idleN3 - newN3Fbw)) }
          else
            { sv1 with engine1EGT := shutdownEgtFbw }
        else
          { sv1 with engine1EGT := startEgtFbw }
      let oilTemperature := lib.startOilTemp newN3Fbw idleN3 ambientTemp
      { ec0 with
        simVars := sv2
        oilTemperature := oilTemperature
        oilTemperatureEngine1Pre := oilTemperature
        simObject := { ec.simObject with oilTempEngine1 := some oilTemperature } }
  else
    if timer < 17 / 10 then
      let sv1 := if ec.simOnGround = 1 then { sv with fuelUsedEngine2 := 0 } else sv
      { ec0 with
        simVars := { sv1 with engine2Timer := timer + deltaTime }
        simObject := { ec.simObject with startCN3Engine2 := some 0 } }
    else
      let preN3Fbw := sv.engine2N3
      let preEgtFbw := sv.engine2EGT
      let newN3Fbw := lib.startN3 simN3 preN3Fbw idleN3
      let startEgtFbw := lib.startEGT newN3Fbw idleN3 ambientTemp idleEGT
      let shutdownEgtFbw := lib.shutdownEGT preEgtFbw ambientTemp deltaTime
      let sv1 := { sv with
        engine2N3 := newN3Fbw
        engine2N2 := newN3Fbw + 7 / 10
        engine2N1 := lib.startN1 newN3Fbw idleN3 idleN1
        engine2FF := lib.startFF newN3Fbw idleN3 idleFF }
      let sv2 : SimVars :=
        if engineState = 3 then
          if |startEgtFbw - preEgtFbw| ≤ 3 / 2 then
            { sv1 with engine2EGT := startEgtFbw, engine2State := 2 }
          else if startEgtFbw > preEgtFbw then
            { sv1 with engine2EGT := preEgtFbw + (3 / 4 * deltaTime * (idleN3 - newN3Fbw)) }
          else
            { sv1 with engine2EGT := shutdownEgtFbw }
        else
          { sv1 with engine2EGT := startEgtFbw }
      let oilTemperature := lib.startOilTemp newN3Fbw idleN3 ambientTemp
      { ec0 with
        simVars := sv2
        oilTemperature := oilTemperature
        oilTemperatureEngine2Pre := oilTemperature
        simObject := { ec.simObject with oilTempEngine2 := some oilTemperature } }

/-- `void engineShutdownProcedure(int engine, double ambientTemp, double simN1,
double deltaTime, double timer)`. -/
def engineShutdownProcedure (lib : Library) (ec : EngineControl) (engine : ℤ)
    (ambientTemp simN1 deltaTime timer : ℚ) : EngineControl :=
  let sv := ec.simVars
  if engine = 1 then
    if timer < 18 / 10 then
      { ec with simVars := { sv with engine1Timer := timer + deltaTime } }
    else
      let preN1Fbw := sv.engine1N1
      let preN3Fbw := sv.engine1N3
      let preEgtFbw := sv.engine1EGT
      let newN1Fbw0 := lib.shutdownN1 preN1Fbw deltaTime
      -- Takes care of windmilling
      let newN1Fbw := if simN1 < 5 ∧ simN1 > newN1Fbw0 then simN1 else newN1Fbw0
      let newN3Fbw := lib.shutdownN3 preN3Fbw deltaTime
      let newEgtFbw := lib.shutdownEGT preEgtFbw ambientTemp deltaTime
      { ec with simVars := { sv with
          engine1N1 := newN1Fbw
          engine1N2 := newN3Fbw + 7 / 10
          engine1N3 := newN3Fbw
          engine1EGT := newEgtFbw } }
  else if engine = 2 then
    if timer < 18 / 10 then
      { ec with simVars := { sv with engine2Timer := timer + deltaTime } }
    else
      let preN1Fbw := sv.engine2N1
      let preN3Fbw := sv.engine2N3
      let preEgtFbw := sv.engine2EGT
      let newN1Fbw0 := lib.shutdownN1 preN1Fbw deltaTime
      let newN1Fbw := if simN1 < 5 ∧ simN1 > newN1Fbw0 then simN1 else newN1Fbw0
      let newN3Fbw := lib.shutdownN3 preN3Fbw deltaTime
      let newEgtFbw := lib.shutdownEGT preEgtFbw ambientTemp deltaTime
      { ec with simVars := { sv with
          engine2N1 := newN1Fbw
          engine2N2 := newN3Fbw + 7 / 10
          engine2N3 := newN3Fbw
          engine2EGT := newEgtFbw } }
  else ec

/-- `void updatePrimaryParameters(int engine, double imbalance, double simN1,
double simN2)`; the N3 written is the member `simN3`. -/
def updatePrimaryParameters (lib : Library) (ec : EngineControl) (engine : ℤ)
    (imbalance simN1 simN2 : ℚ) : EngineControl :=
  let engineImbalanced := truncInt (lib.imbalanceExtractor imbalance 1)
  let paramImbalance : ℚ :=
    if engineImbalanced ≠ engine then 0 else lib.imbalanceExtractor imbalance 4 / 100
  let sv := ec.simVars
  { ec with
    engineImbalanced := engineImbalanced
    paramImbalance := paramImbalance
    simVars :=
      if engine = 1 then
        { sv with
          engine1N1 := simN1
          engine1N2 := max 0 (simN2 - paramImbalance)
          engine1N3 := ec.simN3 }
      else
        { sv with
          engine2N1 := simN1
          engine2N2 := max 0 (simN2 - paramImbalance)
          engine2N3 := ec.simN3 } }

/-- `void updateEGT(int engine, double imbalance, double deltaTime, double simOnGround,
double engineState, double simCN1, double cFbwFF, double mach, double pressAltitude,
double ambientTemp)`. -/
def updateEGT (lib : Library) (ec : EngineControl) (engine : ℤ)
    (imbalance deltaTime simOnGround engineState simCN1 cFbwFF mach pressAltitude
      ambientTemp : ℚ) : EngineControl :=
  let engineImbalanced := truncInt (lib.imbalanceExtractor imbalance 1)
  let correctedEGT := lib.correctedEGT simCN1 cFbwFF mach pressAltitude
  let paramImbalance : ℚ :=
    if engineImbalanced ≠ engine then 0 else lib.imbalanceExtractor imbalance 2
  let sv := ec.simVars
  { ec with
    engineImbalanced := engineImbalanced
    paramImbalance := paramImbalance
    correctedEGT := correctedEGT
    simVars :=
      if engine = 1 then
        if simOnGround = 1 ∧ engineState = 0 then
          { sv with engine1EGT := ambientTemp }
        else
          let egtFbwPreviousEng1 := sv.engine1EGT
          let egtFbwActualEng1 := (correctedEGT * lib.theta2 mach ambientTemp) - paramImbalance
          { sv with engine1EGT :=
              egtFbwActualEng1
                + (egtFbwPreviousEng1 - egtFbwActualEng1) * lib.expFBW (-(1 / 10) * deltaTime) }
      else
        if simOnGround = 1 ∧ engineState = 0 then
          { sv with engine2EGT := ambientTemp }
        else
          let egtFbwPreviousEng2 := sv.engine2EGT
          let egtFbwActualEng2 := (correctedEGT * lib.theta2 mach ambientTemp) - paramImbalance
          { sv with engine2EGT :=
              egtFbwActualEng2
                + (egtFbwPreviousEng2 - egtFbwActualEng2) * lib.expFBW (-(1 / 10) * deltaTime) } }

/-- `double updateFF(int engine, double imbalance, double simCN1, double mach,
double pressAltitude, double ambientTemp, double ambientPressure)`: the state after
the call and the value returned. -/
def updateFF (lib : Library) (ec : EngineControl) (engine : ℤ)
    (imbalance simCN1 mach pressAltitude ambientTemp ambientPressure : ℚ) :
    EngineControl × ℚ :=
  let engineImbalanced := truncInt (lib.imbalanceExtractor imbalance 1)
  let correctedFuelFlow := lib.correctedFuelFlow simCN1 mach pressAltitude
  let paramImbalance : ℚ :=
    if engineImbalanced ≠ engine ∨ correctedFuelFlow < 1 then 0
    else lib.imbalanceExtractor imbalance 3
  let outFlow : ℚ :=
    if correctedFuelFlow < 1 then 0
    else max 0 ((correctedFuelFlow * LBS_TO_KGS * lib.delta2 mach ambientPressure
      * lib.sqrt (lib.theta2 mach ambientTemp)) - paramImbalance)
  let sv := ec.simVars
  ({ ec with
      engineImbalanced := engineImbalanced
      paramImbalance := paramImbalance
      correctedFuelFlow := correctedFuelFlow
      simVars := if engine = 1 then { sv with engine1FF := outFlow }
        else { sv with engine2FF := outFlow } },
   correctedFuelFlow)

/-! ## Fuel network: `updateFuel` -/

/-- `leftQuantity`: host quantity of tank 2 in pounds. -/
def leftQuantity (sv : SimVars) : ℚ := sv.fuelTankQuantity 2 * sv.fuelWeightGallon

/-- `rightQuantity`: host quantity of tank 3 in pounds. -/
def rightQuantity (sv : SimVars) : ℚ := sv.fuelTankQuantity 3 * sv.fuelWeightGallon

/-- `leftAuxQuantity`: host quantity of tank 4 in pounds. -/
def leftAuxQuantity (sv : SimVars) : ℚ := sv.fuelTankQuantity 4 * sv.fuelWeightGallon

/-- `rightAuxQuantity`: host quantity of tank 5 in pounds. -/
def rightAuxQuantity (sv : SimVars) : ℚ := sv.fuelTankQuantity 5 * sv.fuelWeightGallon

/-- `centerQuantity`: host quantity of tank 1 in pounds. -/
def centerQuantity (sv : SimVars) : ℚ := sv.fuelTankQuantity 1 * sv.fuelWeightGallon

/-- `trimQuantity`: host quantity of tank 6 in pounds. -/
def trimQuantity (sv : SimVars) : ℚ := sv.fuelTankQuantity 6 * sv.fuelWeightGallon

/-- `fuelTotalActual` (the trim tank is commented out in the source). -/
def fuelTotalActual (sv : SimVars) : ℚ :=
  leftQuantity sv + rightQuantity sv + leftAuxQuantity sv + rightAuxQuantity sv
    + centerQuantity sv

/-- `fuelTotalPre` (the trim tank is commented out in the source). -/
def fuelTotalPre (sv : SimVars) : ℚ :=
  sv.fuelLeftPre + sv.fuelRightPre + sv.fuelAuxLeftPre + sv.fuelAuxRightPre + sv.fuelCenterPre

/-- `deltaFuelRate = abs(fuelTotalActual - fuelTotalPre) / (fuelWeightGallon * deltaTimeSeconds)`. -/
def deltaFuelRate (sv : SimVars) (deltaTimeSeconds : ℚ) : ℚ :=
  |fuelTotalActual sv - fuelTotalPre sv| / (sv.fuelWeightGallon * deltaTimeSeconds)

/-- `xfrCenterLeftManual`. -/
def xfrCenterLeftManual (sv : SimVars) : Bool := decide (sv.junctionSetting 4 > 3 / 2)

/-- `xfrCenterRightManual`. -/
def xfrCenterRightManual (sv : SimVars) : Bool := decide (sv.junctionSetting 5 > 3 / 2)

/-- `xfrCenterLeftAuto`. -/
def xfrCenterLeftAuto (sv : SimVars) : Bool :=
  decide (sv.valve 11 > 0) && !xfrCenterLeftManual sv

/-- `xfrCenterRightAuto`. -/
def xfrCenterRightAuto (sv : SimVars) : Bool :=
  decide (sv.valve 12 > 0) && !xfrCenterRightManual sv

/-- `xfrValveCenterLeftOpen`. -/
def xfrValveCenterLeftOpen (sv : SimVars) : Bool :=
  decide (sv.valve 9 > 0) && (xfrCenterLeftAuto sv || xfrCenterLeftManual sv)

/-- `xfrValveCenterRightOpen`. -/
def xfrValveCenterRightOpen (sv : SimVars) : Bool :=
  decide (sv.valve 10 > 0) && (xfrCenterRightAuto sv || xfrCenterRightManual sv)

/-- Pump state logic of one wing: the reading of the wing's timer and the pump
state on the bus after the block (`reset()` gives the reading `0`). -/
def pumpStateLogic (pumpState elapsed fuelPre quantity : ℚ) : ℚ × ℚ :=
  if pumpState = 0 ∧ (elapsed = 0 ∨ elapsed ≥ 1000) then
    if fuelPre - quantity > 0 ∧ quantity = 0 then (0, 1)
    else if fuelPre = 0 ∧ quantity - fuelPre > 0 then (0, 2)
    else (elapsed, 0)
  else if pumpState = 1 ∧ elapsed ≥ 2100 then (0, 0)
  else if pumpState = 2 ∧ elapsed ≥ 2700 then (0, 0)
  else (elapsed, pumpState)

/-- `uiFuelTamper` after the block `// Checking for in-game UI Fuel tampering`. -/
def uiFuelTamper (sv : SimVars) (deltaTimeSeconds : ℚ) : Bool :=
  decide ((sv.isReady = 1 ∧ sv.refuelStartedByUser = 0
      ∧ deltaFuelRate sv deltaTimeSeconds > FUEL_THRESHOLD)
    ∨ (sv.isReady = 1 ∧ sv.refuelStartedByUser = 1
      ∧ deltaFuelRate sv deltaTimeSeconds > FUEL_THRESHOLD ∧ sv.refuelRate < 2))

/-- Cross-feed logic: `isTankClosed`. -/
def crossFeedLogic (xFeedValve leftPump1 leftPump2 rightPump1 rightPump2 : ℚ) : ℤ :=
  if xFeedValve > 0 then
    if leftPump1 = 0 ∧ leftPump2 = 0 ∧ rightPump1 = 0 ∧ rightPump2 = 0 then 3
    else if leftPump1 = 0 ∧ leftPump2 = 0 then 1
    else if rightPump1 = 0 ∧ rightPump2 = 0 then 2
    else 4
  else 0

/-- Cycle fuel burn of one engine: `m = (FF - PreFF) / deltaTime; b = PreFF;
fuelBurn = (m * pow(deltaTime, 2) / 2) + (b * deltaTime)`, in kg, `deltaTime` in hours. -/
def cycleFuelBurn (engineFF enginePreFF deltaTime : ℚ) : ℚ :=
  let m := (engineFF - enginePreFF) / deltaTime
  let b := enginePreFF
  (m * deltaTime ^ 2 / 2) + (b * deltaTime)

/-- The four burn variables the cross-feed `switch` rewrites. -/
structure BurnVars where
  fuelBurn1 : ℚ
  fuelBurn2 : ℚ
  apuBurn1 : ℚ
  apuBurn2 : ℚ

/-- Cross-feed fuel burn routine: `switch (isTankClosed)`. -/
def crossFeedBurn (isTankClosed : ℤ) (apuFuelConsumption : ℚ) (v : BurnVars) : BurnVars :=
  if isTankClosed = 1 then
    { fuelBurn2 := v.fuelBurn1 + v.fuelBurn2, fuelBurn1 := 0, apuBurn1 := 0,
      apuBurn2 := apuFuelConsumption }
  else if isTankClosed = 2 then
    { v with fuelBurn1 := v.fuelBurn1 + v.fuelBurn2, fuelBurn2 := 0 }
  else if isTankClosed = 3 then
    { fuelBurn1 := 0, fuelBurn2 := 0, apuBurn1 := apuFuelConsumption * (1 / 2),
      apuBurn2 := apuFuelConsumption * (1 / 2) }
  else if isTankClosed = 4 then
    { v with apuBurn1 := apuFuelConsumption * (1 / 2), apuBurn2 := apuFuelConsumption * (1 / 2) }
  else v

/-- Center tank transfer routine: `(xfrCenterToLeft, xfrCenterToRight)`. -/
def centerTransfer (leftOpen rightOpen : Bool)
    (lineLeftToCenterFlow lineRightToCenterFlow fuelCenterPre centerQuantity : ℚ) : ℚ × ℚ :=
  if leftOpen && rightOpen then
    let lineFlowRatio : ℚ :=
      if lineLeftToCenterFlow < 1 / 10 ∧ lineRightToCenterFlow < 1 / 10 then 1 / 2
      else lineLeftToCenterFlow / (lineLeftToCenterFlow + lineRightToCenterFlow)
    ((fuelCenterPre - centerQuantity) * lineFlowRatio,
     (fuelCenterPre - centerQuantity) * (1 - lineFlowRatio))
  else if leftOpen then (fuelCenterPre - centerQuantity, 0)
  else if rightOpen then (0, fuelCenterPre - centerQuantity)
  else (0, 0)

/-- The values the conservation branch (the final `else` of `updateFuel`)
computes before it writes them. -/
structure FuelStep where
  fuelLeft : ℚ
  fuelRight : ℚ
  fuelUsedEngine1 : ℚ
  fuelUsedEngine2 : ℚ
  fuelBurn1 : ℚ
  fuelBurn2 : ℚ
  apuBurn1 : ℚ
  apuBurn2 : ℚ
  xfrAuxLeft : ℚ
  xfrAuxRight : ℚ
  xfrCenterToLeft : ℚ
  xfrCenterToRight : ℚ

/-- The computation of the conservation branch, from the values read at the top
of `updateFuel` (`sv`), the flag `tamper` (`uiFuelTamper`) and `devState`. -/
def conservationStep (sv : SimVars) (tamper : Bool) (devState deltaTimeSeconds : ℚ) : FuelStep :=
  let deltaTime := deltaTimeSeconds / 3600
  -- `if (uiFuelTamper == 1)`: the committed quantities are replaced by the host's
  let fuelLeftPre0 := if tamper then leftQuantity sv else sv.fuelLeftPre
  let fuelRightPre0 := if tamper then rightQuantity sv else sv.fuelRightPre
  let fuelAuxLeftPre := if tamper then leftAuxQuantity sv else sv.fuelAuxLeftPre
  let fuelAuxRightPre := if tamper then rightAuxQuantity sv else sv.fuelAuxRightPre
  let fuelCenterPre := if tamper then centerQuantity sv else sv.fuelCenterPre
  let isTankClosed := crossFeedLogic (sv.valve 3) (sv.pump 2) (sv.pump 5) (sv.pump 3) (sv.pump 6)
  -- Left Engine and Wing routine
  let fuelBurn1 : ℚ :=
    if fuelLeftPre0 > 0 then
      (if devState ≠ 2 then cycleFuelBurn sv.engine1FF sv.engine1PreFF deltaTime else 0)
    else 0
  let xfrAuxLeft : ℚ :=
    if fuelLeftPre0 > 0 then
      (if sv.valve 6 > 0 ∨ sv.valve 4 > 0 then fuelAuxLeftPre - leftAuxQuantity sv else 0)
    else 0
  let fuelLeftPre : ℚ := if fuelLeftPre0 > 0 then fuelLeftPre0 else 0
  -- Right Engine and Wing routine
  let fuelBurn2 : ℚ :=
    if fuelRightPre0 > 0 then
      (if devState ≠ 2 then cycleFuelBurn sv.engine2FF sv.engine2PreFF deltaTime else 0)
    else 0
  let xfrAuxRight : ℚ :=
    if fuelRightPre0 > 0 then
      (if sv.valve 7 > 0 ∨ sv.valve 5 > 0 then fuelAuxRightPre - rightAuxQuantity sv else 0)
    else 0
  let fuelRightPre : ℚ := if fuelRightPre0 > 0 then fuelRightPre0 else 0
  -- apu fuel consumption for this frame in pounds
  let apuFuelConsumption := sv.lineFlow 18 * sv.fuelWeightGallon * deltaTime
  -- Fuel used accumulators
  let fuelUsedEngine1 := sv.fuelUsedEngine1 + fuelBurn1
  let fuelUsedEngine2 := sv.fuelUsedEngine2 + fuelBurn2
  -- Cross-feed fuel burn routine
  let v := crossFeedBurn isTankClosed apuFuelConsumption
    { fuelBurn1 := fuelBurn1, fuelBurn2 := fuelBurn2, apuBurn1 := apuFuelConsumption,
      apuBurn2 := 0 }
  -- Center Tank transfer routine
  let x := centerTransfer (xfrValveCenterLeftOpen sv) (xfrValveCenterRightOpen sv)
    (sv.lineFlow 27) (sv.lineFlow 28) fuelCenterPre (centerQuantity sv)
  -- Final Fuel levels for left and right inner tanks
  { fuelLeft := (fuelLeftPre - (v.fuelBurn1 * KGS_TO_LBS)) + xfrAuxLeft + x.1 - v.apuBurn1
    fuelRight := (fuelRightPre - (v.fuelBurn2 * KGS_TO_LBS)) + xfrAuxRight + x.2 - v.apuBurn2
    fuelUsedEngine1 := fuelUsedEngine1
    fuelUsedEngine2 := fuelUsedEngine2
    fuelBurn1 := v.fuelBurn1
    fuelBurn2 := v.fuelBurn2
    apuBurn1 := v.apuBurn1
    apuBurn2 := v.apuBurn2
    xfrAuxLeft := xfrAuxLeft
    xfrAuxRight := xfrAuxRight
    xfrCenterToLeft := x.1
    xfrCenterToRight := x.2 }

/-- The three-way branch of `updateFuel` on the bus and on the data pushed to the
host: pause or tamper (the committed quantities are written again and pushed to
the host in gallons), refuelling from the EFB (the committed quantities are
replaced by the host's), otherwise the conservation step. -/
def fuelBranch (sv : SimVars) (so : SimObject) (simPaused : Bool) (deltaTimeSeconds : ℚ) :
    SimVars × SimObject :=
  let tamper := uiFuelTamper sv deltaTimeSeconds
  let devState := sv.developerState
  if simPaused || (tamper && decide (devState = 0)) then
    ({ sv with
        fuelLeftPre := sv.fuelLeftPre
        fuelRightPre := sv.fuelRightPre
        fuelAuxLeftPre := sv.fuelAuxLeftPre
        fuelAuxRightPre := sv.fuelAuxRightPre
        fuelCenterPre := sv.fuelCenterPre
        fuelTrimPre := sv.fuelTrimPre },
     { so with
        fuelCenterMain := some (sv.fuelCenterPre / sv.fuelWeightGallon)
        fuelLeftMain := some (sv.fuelLeftPre / sv.fuelWeightGallon)
        fuelRightMain := some (sv.fuelRightPre / sv.fuelWeightGallon)
        fuelLeftAux := some (sv.fuelAuxLeftPre / sv.fuelWeightGallon)
        fuelRightAux := some (sv.fuelAuxRightPre / sv.fuelWeightGallon) })
  else if !tamper && decide (sv.refuelStartedByUser = 1) then
    ({ sv with
        fuelLeftPre := leftQuantity sv
        fuelRightPre := rightQuantity sv
        fuelAuxLeftPre := leftAuxQuantity sv
        fuelAuxRightPre := rightAuxQuantity sv
        fuelCenterPre := centerQuantity sv
        fuelTrimPre := trimQuantity sv }, so)
  else
    let r := conservationStep sv tamper devState deltaTimeSeconds
    ({ sv with
        engine1PreFF := sv.engine1FF
        engine2PreFF := sv.engine2FF
        fuelUsedEngine1 := r.fuelUsedEngine1
        fuelUsedEngine2 := r.fuelUsedEngine2
        fuelAuxLeftPre := leftAuxQuantity sv
        fuelAuxRightPre := rightAuxQuantity sv
        fuelCenterPre := centerQuantity sv
        fuelLeftPre := r.fuelLeft
        fuelRightPre := r.fuelRight },
     { so with
        fuelLeftMain := some (r.fuelLeft / sv.fuelWeightGallon)
        fuelRightMain := some (r.fuelRight / sv.fuelWeightGallon) })

/-- The condition of the block that saves the fuel quantities: fuel timer at
1000 ms or more, on the ground (`getSimOnGround()` used as a truth value), and
one of the two engine states read at the top of `updateFuel` in {0, 10, 4, 14}. -/
def saveCondition (timerFuel simOnGround engine1State engine2State : ℚ) : Prop :=
  timerFuel ≥ 1000 ∧ simOnGround ≠ 0
    ∧ (engine1State = 0 ∨ engine1State = 10 ∨ engine1State = 4 ∨ engine1State = 14
      ∨ engine2State = 0 ∨ engine2State = 10 ∨ engine2State = 4 ∨ engine2State = 14)

instance (a b c d : ℚ) : Decidable (saveCondition a b c d) := by
  unfold saveCondition; infer_instance

/-- The `Configuration` built by the saving block from the bus. -/
def configurationOf (sv : SimVars) : Configuration :=
  { fuelLeft := sv.fuelLeftPre / sv.fuelWeightGallon
    fuelRight := sv.fuelRightPre / sv.fuelWeightGallon
    fuelCenter := sv.fuelCenterPre / sv.fuelWeightGallon
    fuelLeftAux := sv.fuelAuxLeftPre / sv.fuelWeightGallon
    fuelRightAux := sv.fuelAuxRightPre / sv.fuelWeightGallon
    fuelTrim := sv.fuelTrimPre / sv.fuelWeightGallon }

/-- `void updateFuel(double deltaTimeSeconds)`. The call
`saveFuelInConfiguration(configuration)` is recorded by storing its argument in
`confStore`; the text it writes is the subject of `saveFuelInConfiguration` below. -/
def updateFuel (ec : EngineControl) (deltaTimeSeconds : ℚ) : EngineControl :=
  let sv := ec.simVars
  -- Pump State Logic for Left Wing, then for Right Wing
  let p1 := pumpStateLogic sv.pumpStateEngine1 ec.timerEngine1 sv.fuelLeftPre (leftQuantity sv)
  let p2 := pumpStateLogic sv.pumpStateEngine2 ec.timerEngine2 sv.fuelRightPre (rightQuantity sv)
  -- the three-way branch, on the values read at the top
  let b := fuelBranch sv ec.simObject ec.simPaused deltaTimeSeconds
  let sv1 := { b.1 with pumpStateEngine1 := p1.2, pumpStateEngine2 := p2.2 }
  let save : Bool :=
    decide (saveCondition ec.timerFuel sv1.simOnGround sv.engine1State sv.engine2State)
  { ec with
    simVars := sv1
    simObject := b.2
    timerEngine1 := p1.1
    timerEngine2 := p2.1
    isReady := sv.isReady
    devState := sv.developerState
    confStore := if save then some (configurationOf sv1) else ec.confStore
    timerFuel := if save then 0 else ec.timerFuel }

/-! ## Thrust limits and the update cycle -/

/-- `void updateThrustLimits(double simulationTime, double altitude, double ambientTemp,
double ambientPressure, double mach, double simN1highest, double packs, double nai,
double wai)`. The calls of `limitN1` use the member `pressAltitude`, the blending
factors use the parameter `altitude`. -/
def updateThrustLimits (lib : Library) (ec : EngineControl)
    (simulationTime altitude ambientTemp ambientPressure mach simN1highest packs nai wai : ℚ) :
    EngineControl :=
  let sv := ec.simVars
  let idle := sv.engineIdleN1
  let flexTemp := sv.flexTemp
  let thrustLimitType := sv.thrustLimitType
  -- Write all N1 Limits (`toLimit` is the local `to` of the source)
  let toLimit := lib.limitN1 0 (min 16600 ec.pressAltitude) ambientTemp ambientPressure 0 packs nai wai
  let ga := lib.limitN1 1 (min 16600 ec.pressAltitude) ambientTemp ambientPressure 0 packs nai wai
  let flex_to : ℚ :=
    if flexTemp > 0 then
      lib.limitN1 0 (min 16600 ec.pressAltitude) ambientTemp ambientPressure flexTemp packs nai wai
    else 0
  let flex_ga : ℚ :=
    if flexTemp > 0 then
      lib.limitN1 1 (min 16600 ec.pressAltitude) ambientTemp ambientPressure flexTemp packs nai wai
    else 0
  let clb0 := lib.limitN1 2 ec.pressAltitude ambientTemp ambientPressure 0 packs nai wai
  let mct0 := lib.limitN1 3 ec.pressAltitude ambientTemp ambientPressure 0 packs nai wai
  -- transition between TO and GA limit
  let machFactorLow : ℚ := max 0 (min 1 ((mach - 4 / 100) / (4 / 100)))
  let toga0 := toLimit + (ga - toLimit) * machFactorLow
  let flex := flex_to + (flex_ga - flex_to) * machFactorLow
  -- adaption of CLB due to FLX limit if necessary
  let isFlexActive1 : Bool :=
    if (ec.prevThrustLimitType ≠ 3 ∧ thrustLimitType = 3)
        ∨ (ec.prevFlexTemperature = 0 ∧ flexTemp > 0) then true
    else if flexTemp = 0 ∨ thrustLimitType = 4 then false
    else ec.isFlexActive
  let startTransition : Bool :=
    isFlexActive1 && !ec.isTransitionActive && decide (thrustLimitType = 1)
  let isTransitionActive1 : Bool :=
    if startTransition then true else if !isFlexActive1 then false else ec.isTransitionActive
  let transitionStartTime : ℚ :=
    if startTransition then simulationTime else if !isFlexActive1 then 0
    else ec.transitionStartTime
  let transitionFactor : ℚ :=
    if startTransition then 2 / 10 else if !isFlexActive1 then 0 else ec.transitionFactor
  let timeDifference : ℚ := max 0 ((simulationTime - transitionStartTime) - waitTime)
  let deltaThrust : ℚ :=
    if isTransitionActive1 then
      (if timeDifference > 0 ∧ clb0 > flex then min (clb0 - flex) (timeDifference * transitionFactor)
        else 0)
    else 0
  let reached : Bool := isTransitionActive1 && decide (flex + deltaThrust ≥ clb0)
  let isFlexActive2 : Bool := if reached then false else isFlexActive1
  let isTransitionActive2 : Bool := if reached then false else isTransitionActive1
  let clb : ℚ := if isFlexActive2 then min clb0 flex + deltaThrust else clb0
  -- thrust transitions for MCT and TOGA
  let machFactor : ℚ := max 0 (min 1 ((mach - 37 / 100) / (5 / 100)))
  let altitudeFactorLow : ℚ := max 0 (min 1 ((altitude - 16600) / 500))
  let altitudeFactorHigh : ℚ := max 0 (min 1 ((altitude - 25000) / 500))
  let mct : ℚ :=
    if altitude ≥ 25000 then max clb (mct0 + (clb - mct0) * altitudeFactorHigh)
    else if mct0 > toga0 then toga0 + (mct0 - toga0) * min 1 (altitudeFactorLow + machFactor)
    else mct0
  let toga : ℚ :=
    if altitude ≥ 25000 then mct
    else if mct0 > toga0 then mct
    else toga0 + (mct0 - toga0) * min 1 (altitudeFactorLow + machFactor)
  { ec with
    isFlexActive := isFlexActive2
    isTransitionActive := isTransitionActive2
    transitionStartTime := transitionStartTime
    transitionFactor := transitionFactor
    prevThrustLimitType := thrustLimitType
    prevFlexTemperature := flexTemp
    simVars := { sv with
      thrustLimitIdle := idle
      thrustLimitToga := toga
      thrustLimitFlex := flex
      thrustLimitClimb := clb
      thrustLimitMct := mct } }

/-- Loop body of `update`, part 1: the members read from the bus for engine
number `engine`. -/
def updateEngineRead (ec : EngineControl) (engine : ℤ) : EngineControl :=
  { ec with
    engine := engine
    engineStarter := ec.simVars.engineStarter engine
    engineIgniter := ec.simVars.engineIgniter engine
    simCN1 := ec.simVars.cn1 engine
    simN1 := ec.simVars.n1 engine
    simN3 := ec.simVars.n2 engine
    thrust := ec.simVars.thrust engine }

/-- Loop body of `update`, part 2: the `if (engine == 1) … else …` after the call
of the state machine. -/
def updateEngineState (ec : EngineControl) (engine : ℤ) : EngineControl :=
  if engine = 1 then
    { ec with
      engineState := ec.simVars.engine1State
      deltaN3 := ec.simN3 - ec.simN3Engine1Pre
      simN3Engine1Pre := ec.simN3
      timer := ec.simVars.engine1Timer }
  else
    { ec with
      engineState := ec.simVars.engine2State
      deltaN3 := ec.simN3 - ec.simN3Engine2Pre
      simN3Engine2Pre := ec.simN3
      timer := ec.simVars.engine2Timer }

/-- The statement `cFbwFF = updateFF(engine, imbalance, simCN1, mach, pressAltitude,
ambientTemp, ambientPressure);` of `update`: the arguments are the members, the
value returned is stored in the member `cFbwFF`. -/
def callUpdateFF (lib : Library) (ec : EngineControl) (engine : ℤ) : EngineControl :=
  { (updateFF lib ec engine ec.imbalance ec.simCN1 ec.mach ec.pressAltitude ec.ambientTemp
      ec.ambientPressure).1 with
    cFbwFF := (updateFF lib ec engine ec.imbalance ec.simCN1 ec.mach ec.pressAltitude
      ec.ambientTemp ec.ambientPressure).2 }

/-- The statement `updateEGT(engine, imbalance, deltaTime, simOnGround, engineState,
simCN1, cFbwFF, mach, pressAltitude, ambientTemp);` of `update`. -/
def callUpdateEGT (lib : Library) (ec : EngineControl) (engine : ℤ) (deltaTime : ℚ) :
    EngineControl :=
  updateEGT lib ec engine ec.imbalance deltaTime ec.simOnGround ec.engineState ec.simCN1
    ec.cFbwFF ec.mach ec.pressAltitude ec.ambientTemp

/-- Loop body of `update`, `case 4` of the `switch`: shutdown procedure, then
`cFbwFF = updateFF(…)`. -/
def caseShutdown (lib : Library) (ec : EngineControl) (engine : ℤ) (deltaTime : ℚ) :
    EngineControl :=
  callUpdateFF lib
    (engineShutdownProcedure lib ec engine ec.ambientTemp ec.simN1 deltaTime ec.timer) engine

/-- Loop body of `update`, `default` of the `switch`: `updatePrimaryParameters`,
`cFbwFF = updateFF(…)`, `updateEGT` (`updateOil` is commented out in the source). -/
def caseDefault (lib : Library) (ec : EngineControl) (engine : ℤ) (deltaTime : ℚ) :
    EngineControl :=
  callUpdateEGT lib
    (callUpdateFF lib
      (updatePrimaryParameters lib ec engine ec.imbalance ec.simN1 ec.simN3) engine)
    engine deltaTime

/-- Loop body of `update`, part 3: `switch (int(engineState))`, cases 2 and 3
(start procedure), case 4, default. -/
def updateEngineDispatch (lib : Library) (ec : EngineControl) (engine : ℤ) (deltaTime : ℚ) :
    EngineControl :=
  if truncInt ec.engineState = 2 ∨ truncInt ec.engineState = 3 then
    engineStartProcedure lib ec engine ec.engineState ec.imbalance deltaTime ec.timer
      ec.simN3 ec.pressAltitude ec.ambientTemp
  else if truncInt ec.engineState = 4 then
    caseShutdown lib ec engine deltaTime
  else
    caseDefault lib ec engine deltaTime

/-- The body of the `for` loop of `update` for engine number `engine`;
`prevAnimationDeltaTime` and `simN1highest` are locals of `update`. The result is
the state and the new `simN1highest`. -/
def updateEngine (lib : Library) (ec : EngineControl) (engine : ℤ)
    (deltaTime prevAnimationDeltaTime simN1highest : ℚ) : EngineControl × ℚ :=
  let ec1 := updateEngineRead ec engine
  -- Set & Check Engine Status for this Cycle
  let ec2 := engineStateMachine ec1 engine ec1.engineIgniter ec1.engineStarter ec1.simN3
    ec1.idleN3 ec1.pressAltitude ec1.ambientTemp (ec1.animationDeltaTime - prevAnimationDeltaTime)
  let ec3 := updateEngineState ec2 engine
  let ec4 := updateEngineDispatch lib ec3 engine deltaTime
  -- set highest N1 from either engine
  (ec4, max simN1highest ec4.simN1)

/-- `update`, first part: the members assigned from the bus before the call of
`generateIdleParameters` (`packs` and `nai` are set to 1 when one of the two
switches reads above 0.5). -/
def updateRead (ec : EngineControl) : EngineControl :=
  { ec with
    animationDeltaTime := ec.simVars.animDeltaTime
    mach := ec.simVars.mach
    pressAltitude := ec.simVars.pressureAltitude
    ambientTemp := ec.simVars.ambientTemperature
    ambientPressure := ec.simVars.ambientPressure
    simOnGround := ec.simVars.simOnGround
    imbalance := ec.simVars.engineImbalance
    packs := if ec.simVars.packsState1 > 1 / 2 ∨ ec.simVars.packsState2 > 1 / 2 then 1 else 0
    nai := if ec.simVars.nai 1 > 1 / 2 ∨ ec.simVars.nai 2 > 1 / 2 then 1 else 0
    wai := ec.simVars.wai }

/-- The statement `generateIdleParameters(pressAltitude, mach, ambientTemp,
ambientPressure);` of `update`. -/
def callGenerateIdleParameters (lib : Library) (ec : EngineControl) : EngineControl :=
  generateIdleParameters lib ec ec.pressAltitude ec.mach ec.ambientTemp ec.ambientPressure

/-- `update` up to the end of the `for` loop: the state (the loop leaves the member
`engine` at 3) and the local `simN1highest`. `prevAnimationDeltaTime` is the member
`animationDeltaTime` on entry. -/
def updateLoop (lib : Library) (ec : EngineControl) (deltaTime : ℚ) : EngineControl × ℚ :=
  let prevAnimationDeltaTime := ec.animationDeltaTime
  let r1 := updateEngine lib (callGenerateIdleParameters lib (updateRead ec)) 1 deltaTime
    prevAnimationDeltaTime 0
  let r2 := updateEngine lib r1.1 2 deltaTime prevAnimationDeltaTime r1.2
  ({ r2.1 with engine := 3 }, r2.2)

/-- The statement `updateThrustLimits(simulationTime, pressAltitude, ambientTemp,
ambientPressure, mach, simN1highest, packs, nai, wai);` of `update`. -/
def callUpdateThrustLimits (lib : Library) (ec : EngineControl)
    (simulationTime simN1highest : ℚ) : EngineControl :=
  updateThrustLimits lib ec simulationTime ec.pressAltitude ec.ambientTemp ec.ambientPressure
    ec.mach simN1highest ec.packs ec.nai ec.wai

/-- `void update(double deltaTime, double simulationTime)`: the loop over the two
engines, then `updateFuel(deltaTime)`, then `updateThrustLimits`. -/
def update (lib : Library) (ec : EngineControl) (deltaTime simulationTime : ℚ) : EngineControl :=
  callUpdateThrustLimits lib (updateFuel (updateLoop lib ec deltaTime).1 deltaTime)
    simulationTime (updateLoop lib ec deltaTime).2

/-- The local `to` of `updateThrustLimits`: the takeoff-curve value
`limitN1(0, min(16600.0, pressAltitude), ambientTemp, ambientPressure, 0, packs, nai, wai)`. -/
def limitTo (lib : Library) (ec : EngineControl) (ambientTemp ambientPressure packs nai wai : ℚ) :
    ℚ :=
  lib.limitN1 0 (min 16600 ec.pressAltitude) ambientTemp ambientPressure 0 packs nai wai

/-- The local `ga` of `updateThrustLimits`: the go-around-curve value
`limitN1(1, min(16600.0, pressAltitude), ambientTemp, ambientPressure, 0, packs, nai, wai)`. -/
def limitGa (lib : Library) (ec : EngineControl) (ambientTemp ambientPressure packs nai wai : ℚ) :
    ℚ :=
  lib.limitN1 1 (min 16600 ec.pressAltitude) ambientTemp ambientPressure 0 packs nai wai

/-- The local `clb` of `updateThrustLimits` as first computed: the climb-curve value
`limitN1(2, pressAltitude, ambientTemp, ambientPressure, 0, packs, nai, wai)`. -/
def limitClb (lib : Library) (ec : EngineControl) (ambientTemp ambientPressure packs nai wai : ℚ) :
    ℚ :=
  lib.limitN1 2 ec.pressAltitude ambientTemp ambientPressure 0 packs nai wai

/-- The local `machFactorLow` of `updateThrustLimits`. -/
def machFactorLow (mach : ℚ) : ℚ := max 0 (min 1 ((mach - 4 / 100) / (4 / 100)))

/-- The local `flex` of `updateThrustLimits`: the blend of the two flex curves
(both 0 unless the flex temperature on the bus is > 0). -/
def limitFlex (lib : Library) (ec : EngineControl)
    (ambientTemp ambientPressure mach packs nai wai : ℚ) : ℚ :=
  (if ec.simVars.flexTemp > 0 then
      lib.limitN1 0 (min 16600 ec.pressAltitude) ambientTemp ambientPressure ec.simVars.flexTemp
        packs nai wai
    else 0)
  + ((if ec.simVars.flexTemp > 0 then
        lib.limitN1 1 (min 16600 ec.pressAltitude) ambientTemp ambientPressure
          ec.simVars.flexTemp packs nai wai
      else 0)
    - (if ec.simVars.flexTemp > 0 then
        lib.limitN1 0 (min 16600 ec.pressAltitude) ambientTemp ambientPressure
          ec.simVars.flexTemp packs nai wai
      else 0)) * machFactorLow mach

/-- Block `adaption of CLB due to FLX limit`, first `if`: `isFlexActive` after it. -/
def flexActiveStep (ec : EngineControl) : Bool :=
  if (ec.prevThrustLimitType ≠ 3 ∧ ec.simVars.thrustLimitType = 3)
      ∨ (ec.prevFlexTemperature = 0 ∧ ec.simVars.flexTemp > 0) then true
  else if ec.simVars.flexTemp = 0 ∨ ec.simVars.thrustLimitType = 4 then false
  else ec.isFlexActive

/-- The condition of the second `if` of the block:
`isFlexActive && !isTransitionActive && thrustLimitType == 1`. -/
def transitionStarts (ec : EngineControl) : Bool :=
  flexActiveStep ec && !ec.isTransitionActive && decide (ec.simVars.thrustLimitType = 1)

/-- The second `if` of the block: `isTransitionActive` after it. -/
def transitionActiveStep (ec : EngineControl) : Bool :=
  if transitionStarts ec then true else if !flexActiveStep ec then false
  else ec.isTransitionActive

/-- The second `if` of the block: `transitionStartTime` after it. -/
def transitionStartStep (ec : EngineControl) (simulationTime : ℚ) : ℚ :=
  if transitionStarts ec then simulationTime else if !flexActiveStep ec then 0
  else ec.transitionStartTime

/-- The second `if` of the block: `transitionFactor` after it. -/
def transitionFactorStep (ec : EngineControl) : ℚ :=
  if transitionStarts ec then 2 / 10 else if !flexActiveStep ec then 0
  else ec.transitionFactor

/-- The local `deltaThrust` after `if (isTransitionActive) { … }`, for the climb
value `clb` and the flex value `flex` of the tick. -/
def deltaThrustOf (ec : EngineControl) (simulationTime clb flex : ℚ) : ℚ :=
  if transitionActiveStep ec then
    (if max 0 ((simulationTime - transitionStartStep ec simulationTime) - waitTime) > 0
        ∧ clb > flex then
      min (clb - flex)
        (max 0 ((simulationTime - transitionStartStep ec simulationTime) - waitTime)
          * transitionFactorStep ec)
    else 0)
  else 0

/-- Whether the block deactivates flex and the transition on this tick:
the transition is active and `flex + deltaThrust >= clb`. -/
def flexReached (ec : EngineControl) (simulationTime clb flex : ℚ) : Bool :=
  transitionActiveStep ec && decide (flex + deltaThrustOf ec simulationTime clb flex ≥ clb)

/-- The climb limit after `if (isFlexActive) clb = min(clb, flex) + deltaThrust;`. -/
def climbAdapted (ec : EngineControl) (simulationTime clb flex : ℚ) : ℚ :=
  if (if flexReached ec simulationTime clb flex then false else flexActiveStep ec) then
    min clb flex + deltaThrustOf ec simulationTime clb flex
  else clb

/-! ## Configuration file -/

/-- `#define CONFIGURATION_SECTION_FUEL "FUEL"`. -/
def CONFIGURATION_SECTION_FUEL : String := "FUEL"

/-- `#define CONFIGURATION_SECTION_FUEL_CENTER_QUANTITY "FUEL_CENTER_QUANTITY"`. -/
def CONFIGURATION_SECTION_FUEL_CENTER_QUANTITY : String := "FUEL_CENTER_QUANTITY"

/-- `#define CONFIGURATION_SECTION_FUEL_LEFT_QUANTITY "FUEL_LEFT_QUANTITY"`. -/
def CONFIGURATION_SECTION_FUEL_LEFT_QUANTITY : String := "FUEL_LEFT_QUANTITY"

/-- `#define CONFIGURATION_SECTION_FUEL_RIGHT_QUANTITY "FUEL_RIGHT_QUANTITY"`. -/
def CONFIGURATION_SECTION_FUEL_RIGHT_QUANTITY : String := "FUEL_RIGHT_QUANTITY"

/-- `#define CONFIGURATION_SECTION_FUEL_LEFT_AUX_QUANTITY "FUEL_LEFT_AUX_QUANTITY"`. -/
def CONFIGURATION_SECTION_FUEL_LEFT_AUX_QUANTITY : String := "FUEL_LEFT_AUX_QUANTITY"

/-- `#define CONFIGURATION_SECTION_FUEL_RIGHT_AUX_QUANTITY "FUEL_RIGHT_AUX_QUANTITY"`. -/
def CONFIGURATION_SECTION_FUEL_RIGHT_AUX_QUANTITY : String := "FUEL_RIGHT_AUX_QUANTITY"

/-- `#define CONFIGURATION_SECTION_FUEL_TRIM_QUANTITY "FUEL_TRIM_QUANTITY"`. -/
def CONFIGURATION_SECTION_FUEL_TRIM_QUANTITY : String := "FUEL_TRIM_QUANTITY"

/-- Rounding to the nearest integer, ties to the even one (the rounding of `printf`). -/
def roundHalfEven (q : ℚ) : ℤ :=
  if q - ⌊q⌋ < 1 / 2 then ⌊q⌋
  else if q - ⌊q⌋ > 1 / 2 then ⌊q⌋ + 1
  else if ⌊q⌋ % 2 = 0 then ⌊q⌋ else ⌊q⌋ + 1

/-- The text `std::to_string(double)` produces (format `%f`: integer part, a point
and six decimals, the value rounded to the nearest millionth). A text of that form
is represented by the number of millionths it spells: `12.500000` is `12500000`. -/
def to_string (x : ℚ) : ℤ := roundHalfEven (x * 1000000)

/-- The value a text with six decimals spells. -/
def textValue (millionths : ℤ) : ℚ := (millionths : ℚ) / 1000000

/-- The content of the configuration file as `mINI::INIStructure` holds it:
section, then key, then the text of the value if the key is present. Only texts of
the form written by `to_string` are represented. -/
def INIStructure : Type := String → String → Option ℤ

/-- The assignment `structure[section][key] = text`. -/
def iniSet (st : INIStructure) (sec key : String) (text : ℤ) : INIStructure :=
  fun s k => if s = sec ∧ k = key then some text else st s k

/-- `Configuration loadConfiguration(const mINI::INIStructure& structure)` (the
parameter is named `iniStructure` here); the
function `mINI::INITypeConversion::getDouble(structure, section, key, default)` of
`ini_type_conversion.h` is the parameter `getDouble`. -/
def loadConfiguration (getDouble : INIStructure → String → String → ℚ → ℚ)
    (iniStructure : INIStructure) : Configuration :=
  { fuelCenter := getDouble iniStructure CONFIGURATION_SECTION_FUEL
      CONFIGURATION_SECTION_FUEL_CENTER_QUANTITY 0
    fuelLeft := getDouble iniStructure CONFIGURATION_SECTION_FUEL
      CONFIGURATION_SECTION_FUEL_LEFT_QUANTITY 1645
    fuelRight := getDouble iniStructure CONFIGURATION_SECTION_FUEL
      CONFIGURATION_SECTION_FUEL_RIGHT_QUANTITY 1645
    fuelLeftAux := getDouble iniStructure CONFIGURATION_SECTION_FUEL
      CONFIGURATION_SECTION_FUEL_LEFT_AUX_QUANTITY 228
    fuelRightAux := getDouble iniStructure CONFIGURATION_SECTION_FUEL
      CONFIGURATION_SECTION_FUEL_RIGHT_AUX_QUANTITY 228
    fuelTrim := getDouble iniStructure CONFIGURATION_SECTION_FUEL
      CONFIGURATION_SECTION_FUEL_TRIM_QUANTITY 1617 }

/-- `void saveFuelInConfiguration(Configuration configuration)`: the structure
written to the file, from the structure read from it (`stInitStructure`); the six
assignments are in the order of the source. Reading and writing the file itself
are taken to succeed. -/
def saveFuelInConfiguration (stInitStructure : INIStructure) (configuration : Configuration) :
    INIStructure :=
  iniSet
    (iniSet
      (iniSet
        (iniSet
          (iniSet
            (iniSet stInitStructure CONFIGURATION_SECTION_FUEL
              CONFIGURATION_SECTION_FUEL_CENTER_QUANTITY (to_string configuration.fuelCenter))
            CONFIGURATION_SECTION_FUEL CONFIGURATION_SECTION_FUEL_LEFT_QUANTITY
            (to_string configuration.fuelLeft))
          CONFIGURATION_SECTION_FUEL CONFIGURATION_SECTION_FUEL_RIGHT_QUANTITY
          (to_string configuration.fuelRight))
        CONFIGURATION_SECTION_FUEL CONFIGURATION_SECTION_FUEL_LEFT_AUX_QUANTITY
        (to_string configuration.fuelLeftAux))
      CONFIGURATION_SECTION_FUEL CONFIGURATION_SECTION_FUEL_RIGHT_AUX_QUANTITY
      (to_string configuration.fuelRightAux))
    CONFIGURATION_SECTION_FUEL CONFIGURATION_SECTION_FUEL_TRIM_QUANTITY
    (to_string configuration.fuelTrim)

/-- Modelled from the spec: `mINI::INITypeConversion::getDouble` of
`ini_type_conversion.h`, which is not among the sources. The spec has the six
numeric keys read with "defaults supplied per key if missing or unreadable": the
value the text spells when the key is present, the default otherwise. -/
def getDouble (iniStructure : INIStructure) (sec key : String) (default : ℚ) : ℚ :=
  match iniStructure sec key with
  | some text => textValue text
  | none => default

/-- A division of the source with the zero divisor made visible: `none` when the
divisor is zero, the quotient otherwise. -/
def divChecked (a b : ℚ) : Option ℚ := if b = 0 then none else some (a / b)

/-- `deltaFuelRate = abs(fuelTotalActual - fuelTotalPre) / (fuelWeightGallon *
deltaTimeSeconds)` with its division checked. The statement stands at the top of
`updateFuel`, outside every `if`. -/
def deltaFuelRateChecked (sv : SimVars) (deltaTimeSeconds : ℚ) : Option ℚ :=
  divChecked |fuelTotalActual sv - fuelTotalPre sv| (sv.fuelWeightGallon * deltaTimeSeconds)

/-- The test of the block `// Checking for in-game UI Fuel tampering` on a given
value of `deltaFuelRate`. -/
def uiFuelTamperOf (sv : SimVars) (deltaFuelRate : ℚ) : Bool :=
  decide ((sv.isReady = 1 ∧ sv.refuelStartedByUser = 0 ∧ deltaFuelRate > FUEL_THRESHOLD)
    ∨ (sv.isReady = 1 ∧ sv.refuelStartedByUser = 1 ∧ deltaFuelRate > FUEL_THRESHOLD
      ∧ sv.refuelRate < 2))

/-- Cycle fuel burn of one engine with the division of the slope checked:
`m = (FF - PreFF) / deltaTime; b = PreFF;
fuelBurn = (m * pow(deltaTime, 2) / 2) + (b * deltaTime)`. -/
def cycleFuelBurnChecked (engineFF enginePreFF deltaTime : ℚ) : Option ℚ :=
  match divChecked (engineFF - enginePreFF) deltaTime with
  | none => none
  | some m => some ((m * deltaTime ^ 2 / 2) + (enginePreFF * deltaTime))

/-- The burn of one engine in the `Engine and Wing routine` of its wing, with the
division checked: the cycle fuel burn is computed under `if (fuelPre > 0)` and
`if (devState != 2)` only, and the burn is `0` otherwise. -/
def wingBurnChecked (fuelPre devState engineFF enginePreFF deltaTime : ℚ) : Option ℚ :=
  if fuelPre > 0 then
    (if devState ≠ 2 then cycleFuelBurnChecked engineFF enginePreFF deltaTime else some 0)
  else some 0

/-- The computation of the conservation branch from the two burns of the `Engine
and Wing` routines on: aux transfers, APU consumption, fuel-used accumulators,
cross-feed routine, centre transfer and final levels. -/
def conservationRest (sv : SimVars) (tamper : Bool) (deltaTimeSeconds fuelBurn1 fuelBurn2 : ℚ) :
    FuelStep :=
  let deltaTime := deltaTimeSeconds / 3600
  let fuelLeftPre0 := if tamper then leftQuantity sv else sv.fuelLeftPre
  let fuelRightPre0 := if tamper then rightQuantity sv else sv.fuelRightPre
  let fuelAuxLeftPre := if tamper then leftAuxQuantity sv else sv.fuelAuxLeftPre
  let fuelAuxRightPre := if tamper then rightAuxQuantity sv else sv.fuelAuxRightPre
  let fuelCenterPre := if tamper then centerQuantity sv else sv.fuelCenterPre
  let isTankClosed := crossFeedLogic (sv.valve 3) (sv.pump 2) (sv.pump 5) (sv.pump 3) (sv.pump 6)
  let xfrAuxLeft : ℚ :=
    if fuelLeftPre0 > 0 then
      (if sv.valve 6 > 0 ∨ sv.valve 4 > 0 then fuelAuxLeftPre - leftAuxQuantity sv else 0)
    else 0
  let fuelLeftPre : ℚ := if fuelLeftPre0 > 0 then fuelLeftPre0 else 0
  let xfrAuxRight : ℚ :=
    if fuelRightPre0 > 0 then
      (if sv.valve 7 > 0 ∨ sv.valve 5 > 0 then fuelAuxRightPre - rightAuxQuantity sv else 0)
    else 0
  let fuelRightPre : ℚ := if fuelRightPre0 > 0 then fuelRightPre0 else 0
  let apuFuelConsumption := sv.lineFlow 18 * sv.fuelWeightGallon * deltaTime
  let fuelUsedEngine1 := sv.fuelUsedEngine1 + fuelBurn1
  let fuelUsedEngine2 := sv.fuelUsedEngine2 + fuelBurn2
  let v := crossFeedBurn isTankClosed apuFuelConsumption
    { fuelBurn1 := fuelBurn1, fuelBurn2 := fuelBurn2, apuBurn1 := apuFuelConsumption,
      apuBurn2 := 0 }
  let x := centerTransfer (xfrValveCenterLeftOpen sv) (xfrValveCenterRightOpen sv)
    (sv.lineFlow 27) (sv.lineFlow 28) fuelCenterPre (centerQuantity sv)
  { fuelLeft := (fuelLeftPre - (v.fuelBurn1 * KGS_TO_LBS)) + xfrAuxLeft + x.1 - v.apuBurn1
    fuelRight := (fuelRightPre - (v.fuelBurn2 * KGS_TO_LBS)) + xfrAuxRight + x.2 - v.apuBurn2
    fuelUsedEngine1 := fuelUsedEngine1
    fuelUsedEngine2 := fuelUsedEngine2
    fuelBurn1 := v.fuelBurn1
    fuelBurn2 := v.fuelBurn2
    apuBurn1 := v.apuBurn1
    apuBurn2 := v.apuBurn2
    xfrAuxLeft := xfrAuxLeft
    xfrAuxRight := xfrAuxRight
    xfrCenterToLeft := x.1
    xfrCenterToRight := x.2 }

/-- The computation of the conservation branch with the divisions by the delta
time checked: the burn of the left engine, then the burn of the right engine, then
the rest of the branch on the two burns. -/
def conservationStepChecked (sv : SimVars) (tamper : Bool) (devState deltaTimeSeconds : ℚ) :
    Option FuelStep :=
  let deltaTime := deltaTimeSeconds / 3600
  let fuelLeftPre0 := if tamper then leftQuantity sv else sv.fuelLeftPre
  let fuelRightPre0 := if tamper then rightQuantity sv else sv.fuelRightPre
  match wingBurnChecked fuelLeftPre0 devState sv.engine1FF sv.engine1PreFF deltaTime with
  | none => none
  | some fuelBurn1 =>
    match wingBurnChecked fuelRightPre0 devState sv.engine2FF sv.engine2PreFF deltaTime with
    | none => none
    | some fuelBurn2 => some (conservationRest sv tamper deltaTimeSeconds fuelBurn1 fuelBurn2)

/-- The three-way branch of `updateFuel` with the divisions by the delta time
checked: `deltaFuelRate` is evaluated first, on every call; the tamper flag is
computed from it; the conservation step is evaluated in the last branch only. -/
def fuelBranchChecked (sv : SimVars) (so : SimObject) (simPaused : Bool)
    (deltaTimeSeconds : ℚ) : Option (SimVars × SimObject) :=
  match deltaFuelRateChecked sv deltaTimeSeconds with
  | none => none
  | some rate =>
    let tamper := uiFuelTamperOf sv rate
    let devState := sv.developerState
    if simPaused || (tamper && decide (devState = 0)) then
      some ({ sv with
          fuelLeftPre := sv.fuelLeftPre
          fuelRightPre := sv.fuelRightPre
          fuelAuxLeftPre := sv.fuelAuxLeftPre
          fuelAuxRightPre := sv.fuelAuxRightPre
          fuelCenterPre := sv.fuelCenterPre
          fuelTrimPre := sv.fuelTrimPre },
        { so with
          fuelCenterMain := some (sv.fuelCenterPre / sv.fuelWeightGallon)
          fuelLeftMain := some (sv.fuelLeftPre / sv.fuelWeightGallon)
          fuelRightMain := some (sv.fuelRightPre / sv.fuelWeightGallon)
          fuelLeftAux := some (sv.fuelAuxLeftPre / sv.fuelWeightGallon)
          fuelRightAux := some (sv.fuelAuxRightPre / sv.fuelWeightGallon) })
    else if !tamper && decide (sv.refuelStartedByUser = 1) then
      some ({ sv with
          fuelLeftPre := leftQuantity sv
          fuelRightPre := rightQuantity sv
          fuelAuxLeftPre := leftAuxQuantity sv
          fuelAuxRightPre := rightAuxQuantity sv
          fuelCenterPre := centerQuantity sv
          fuelTrimPre := trimQuantity sv }, so)
    else
      match conservationStepChecked sv tamper devState deltaTimeSeconds with
      | none => none
      | some r =>
        some ({ sv with
            engine1PreFF := sv.engine1FF
            engine2PreFF := sv.engine2FF
            fuelUsedEngine1 := r.fuelUsedEngine1
            fuelUsedEngine2 := r.fuelUsedEngine2
            fuelAuxLeftPre := leftAuxQuantity sv
            fuelAuxRightPre := rightAuxQuantity sv
            fuelCenterPre := centerQuantity sv
            fuelLeftPre := r.fuelLeft
            fuelRightPre := r.fuelRight },
          { so with
            fuelLeftMain := some (r.fuelLeft / sv.fuelWeightGallon)
            fuelRightMain := some (r.fuelRight / sv.fuelWeightGallon) })

/-- `void updateFuel(double deltaTimeSeconds)` with the divisions by the delta time
checked: `none` when one of them is evaluated with a zero divisor, the state after
the call otherwise. The other divisions (by `3600`, by the fuel weight per gallon,
by the sum of the two centre line flows) are not divisions by the delta time and
are left as in `updateFuel`. -/
def updateFuelChecked (ec : EngineControl) (deltaTimeSeconds : ℚ) : Option EngineControl :=
  let sv := ec.simVars
  let p1 := pumpStateLogic sv.pumpStateEngine1 ec.timerEngine1 sv.fuelLeftPre (leftQuantity sv)
  let p2 := pumpStateLogic sv.pumpStateEngine2 ec.timerEngine2 sv.fuelRightPre (rightQuantity sv)
  match fuelBranchChecked sv ec.simObject ec.simPaused deltaTimeSeconds with
  | none => none
  | some b =>
    let sv1 := { b.1 with pumpStateEngine1 := p1.2, pumpStateEngine2 := p2.2 }
    let save : Bool :=
      decide (saveCondition ec.timerFuel sv1.simOnGround sv.engine1State sv.engine2State)
    some { ec with
      simVars := sv1
      simObject := b.2
      timerEngine1 := p1.1
      timerEngine2 := p2.1
      isReady := sv.isReady
      devState := sv.developerState
      confStore := if save then some (configurationOf sv1) else ec.confStore
      timerFuel := if save then 0 else ec.timerFuel }

/-- The fuel flow of engine `engine` on the bus (`getEngine1FF` / `getEngine2FF`). -/
def engineFFOf (sv : SimVars) (engine : ℤ) : ℚ :=
  if engine = 1 then sv.engine1FF else sv.engine2FF

/-- The N1 of engine `engine` on the bus (`getEngine1N1` / `getEngine2N1`). -/
def engineN1Of (sv : SimVars) (engine : ℤ) : ℚ :=
  if engine = 1 then sv.engine1N1 else sv.engine2N1

/-- The N2 of engine `engine` on the bus (`getEngine1N2` / `getEngine2N2`). -/
def engineN2Of (sv : SimVars) (engine : ℤ) : ℚ :=
  if engine = 1 then sv.engine1N2 else sv.engine2N2

/-- The N3 of engine `engine` on the bus (`getEngine1N3` / `getEngine2N3`). -/
def engineN3Of (sv : SimVars) (engine : ℤ) : ℚ :=
  if engine = 1 then sv.engine1N3 else sv.engine2N3

/-- The fuel-used accumulator of engine `engine` on the bus
(`getFuelUsedEngine1` / `getFuelUsedEngine2`). -/
def fuelUsedOf (sv : SimVars) (engine : ℤ) : ℚ :=
  if engine = 1 then sv.fuelUsedEngine1 else sv.fuelUsedEngine2

/-- The start command pushed to the host for engine `engine`
(`DataTypesID::StartCN3Engine1` / `StartCN3Engine2`), if any. -/
def startCN3Of (so : SimObject) (engine : ℤ) : Option ℚ :=
  if engine = 1 then so.startCN3Engine1 else so.startCN3Engine2

/-- The ten state codes of `engineStateMachine`: `0` to `4`, and `10` to `14`
while the simulation is paused. -/
def definedStates : List ℚ := [0, 1, 2, 3, 4, 10, 11, 12, 13, 14]

/-- The five state codes without the pause offset. -/
def runningStates : List ℚ := [0, 1, 2, 3, 4]

/-- The bus with the state of engine `engine` replaced by `s`. -/
def withEngineState (ec : EngineControl) (engine : ℤ) (s : ℚ) : EngineControl :=
  if engine = 1 then { ec with simVars := { ec.simVars with engine1State := s } }
  else { ec with simVars := { ec.simVars with engine2State := s } }

/-- The local `mct` of `updateThrustLimits` as first computed: the
max-continuous-curve value
`limitN1(3, pressAltitude, ambientTemp, ambientPressure, 0, packs, nai, wai)`. -/
def limitMct (lib : Library) (ec : EngineControl) (ambientTemp ambientPressure packs nai wai : ℚ) :
    ℚ :=
  lib.limitN1 3 ec.pressAltitude ambientTemp ambientPressure 0 packs nai wai

/-- The local `toga` of `updateThrustLimits` after the transition between the TO
and GA limit: `to + (ga - to) * machFactorLow`. -/
def togaBlend (lib : Library) (ec : EngineControl)
    (ambientTemp ambientPressure mach packs nai wai : ℚ) : ℚ :=
  limitTo lib ec ambientTemp ambientPressure packs nai wai
    + (limitGa lib ec ambientTemp ambientPressure packs nai wai
        - limitTo lib ec ambientTemp ambientPressure packs nai wai) * machFactorLow mach

/-- Block `thrust transitions for MCT and TOGA` of `updateThrustLimits`: the locals
`mct` and `toga` after it, from the parameters `altitude` and `mach` and the locals
`clb`, `mct` and `toga` before it. -/
def adaptMctToga (altitude mach clb mct toga : ℚ) : ℚ × ℚ :=
  let machFactor : ℚ := max 0 (min 1 ((mach - 37 / 100) / (5 / 100)))
  let altitudeFactorLow : ℚ := max 0 (min 1 ((altitude - 16600) / 500))
  let altitudeFactorHigh : ℚ := max 0 (min 1 ((altitude - 25000) / 500))
  if altitude ≥ 25000 then
    (max clb (mct + (clb - mct) * altitudeFactorHigh),
     max clb (mct + (clb - mct) * altitudeFactorHigh))
  else if mct > toga then
    (toga + (mct - toga) * min 1 (altitudeFactorLow + machFactor),
     toga + (mct - toga) * min 1 (altitudeFactorLow + machFactor))
  else
    (mct, toga + (mct - toga) * min 1 (altitudeFactorLow + machFactor))

/-- What one call of `updateThrustLimits` in a sequence of calls reads besides the
flex members of the object: the bus and the member `pressAltitude` as they are
when the call is made, and the arguments of the call. -/
structure LimitsCall where
  simVars : SimVars
  pressAltitude : ℚ
  simulationTime : ℚ
  altitude : ℚ
  ambientTemp : ℚ
  ambientPressure : ℚ
  mach : ℚ
  simN1highest : ℚ
  packs : ℚ
  nai : ℚ
  wai : ℚ

/-- One call of `updateThrustLimits` in a sequence: the flex members are those left
by the call before, the bus and `pressAltitude` are those of the call. -/
def limitsCall (lib : Library) (ec : EngineControl) (c : LimitsCall) : EngineControl :=
  updateThrustLimits lib { ec with simVars := c.simVars, pressAltitude := c.pressAltitude }
    c.simulationTime c.altitude c.ambientTemp c.ambientPressure c.mach c.simN1highest c.packs
    c.nai c.wai

/-- Consecutive calls of `updateThrustLimits`, one per element of the list. -/
def limitsRun (lib : Library) : EngineControl → List LimitsCall → EngineControl
  | ec, [] => ec
  | ec, c :: cs => limitsRun lib (limitsCall lib ec c) cs

/-- Whether the transition is active after each of the consecutive calls of the
list. -/
def staysActive (lib : Library) : EngineControl → List LimitsCall → Bool
  | _, [] => true
  | ec, c :: cs =>
    (limitsCall lib ec c).isTransitionActive && staysActive lib (limitsCall lib ec c) cs

/-- Consecutive calls of `updateEGT` for one engine with the same inputs except
the delta time, one call per delta time of the list. -/
def egtRun (lib : Library) (engine : ℤ)
    (imbalance simOnGround engineState simCN1 cFbwFF mach pressAltitude ambientTemp : ℚ) :
    EngineControl → List ℚ → EngineControl
  | ec, [] => ec
  | ec, dt :: dts =>
    egtRun lib engine imbalance simOnGround engineState simCN1 cFbwFF mach pressAltitude
      ambientTemp
      (updateEGT lib ec engine imbalance dt simOnGround engineState simCN1 cFbwFF mach
        pressAltitude ambientTemp) dts

/-- The filter step of `updateEGT`,
`egtFbwActual + (egtFbwPrevious - egtFbwActual) * expFBW(-0.1 * deltaTime)`, as an
expression over a field `K`: over `ℚ` with the `expFBW` of the library it is what
`updateEGT` writes, over `ℝ` the function `expFBW` can be taken as the exponential
function. -/
def egtFilter {K : Type} [Field K] (expFBW : K → K) (target prev deltaTime : K) : K :=
  target + (prev - target) * expFBW (-(1 / 10) * deltaTime)

/-- Consecutive filter steps towards a fixed target, one per delta time of the
list. -/
def egtFilterRun {K : Type} [Field K] (expFBW : K → K) (target : K) : K → List K → K
  | prev, [] => prev
  | prev, dt :: dts => egtFilterRun expFBW target (egtFilter expFBW target prev dt) dts

/-- The inputs of one call of `engineStateMachine`: its arguments and the EGT
of the engine that the call reads from the bus. -/
structure EsmInput where
  engineIgniter : ℚ
  engineStarter : ℚ
  simN3 : ℚ
  idleN3 : ℚ
  pressAltitude : ℚ
  ambientTemp : ℚ
  egt : ℚ

/-- The bus with the EGT of engine `engine` replaced by `egt` (what happens to
that variable between two calls of the state machine). -/
def withEngineEGT (ec : EngineControl) (engine : ℤ) (egt : ℚ) : EngineControl :=
  if engine = 1 then { ec with simVars := { ec.simVars with engine1EGT := egt } }
  else { ec with simVars := { ec.simVars with engine2EGT := egt } }

/-- Consecutive calls of `engineStateMachine` for one engine, all with a
delta-time difference of `0`, one call per element of the list. -/
def pausedTicks (engine : ℤ) : List EsmInput → EngineControl → EngineControl
  | [], ec => ec
  | i :: rest, ec =>
    pausedTicks engine rest
      (engineStateMachine (withEngineEGT ec engine i.egt) engine i.engineIgniter
        i.engineStarter i.simN3 i.idleN3 i.pressAltitude i.ambientTemp 0)

/-- The fields of the bus that the pause claims look at after a tick: the two
engine states, the six committed quantities and the fuel weight per gallon. -/
def pauseView (sv : SimVars) : ℚ × ℚ × ℚ × ℚ × ℚ × ℚ × ℚ × ℚ × ℚ :=
  (sv.engine1State, sv.engine2State, sv.fuelLeftPre, sv.fuelRightPre, sv.fuelAuxLeftPre,
    sv.fuelAuxRightPre, sv.fuelCenterPre, sv.fuelTrimPre, sv.fuelWeightGallon)

/-! ## Concrete states used to evaluate the code -/

/-- A library whose functions all return `0`. -/
def libZero : Library :=
  { iCN1 := fun _ _ _ => 0, iCN3 := fun _ _ => 0, theta := fun _ => 0, theta2 := fun _ _ => 0,
    delta2 := fun _ _ => 0, sqrt := fun _ => 0, expFBW := fun _ => 0,
    imbalanceExtractor := fun _ _ => 0, correctedEGT := fun _ _ _ _ => 0,
    correctedFuelFlow := fun _ _ _ => 0, startN3 := fun _ _ _ => 0, startN1 := fun _ _ _ => 0,
    startFF := fun _ _ _ => 0, startEGT := fun _ _ _ _ => 0, startOilTemp := fun _ _ _ => 0,
    shutdownN1 := fun _ _ => 0, shutdownN3 := fun _ _ => 0, shutdownEGT := fun _ _ _ => 0,
    limitN1 := fun _ _ _ _ _ _ _ _ => 0 }


/-- A library whose limit curves depend on the limit type only: takeoff 90,
go-around 95, climb 80, max-continuous 85; every other function returns `0`. -/
def libLimits : Library :=
  { libZero with
    limitN1 := fun t _ _ _ _ _ _ _ =>
      if t = 0 then 90 else if t = 1 then 95 else if t = 2 then 80 else 85 }

/-- A library whose limit curves give 70 with a flex temperature > 0 and otherwise
80 for the climb curve and 90 for the other limit types; every other function
returns `0`. -/
def libFlex : Library :=
  { libZero with
    limitN1 := fun t _ _ _ flexTemp _ _ _ =>
      if flexTemp > 0 then 70 else if t = 2 then 80 else 90 }

/-- A library for the steady-state and start procedures: the imbalance word `0`
decodes to no affliction, every other word to engine 1 afflicted with an EGT
imbalance of 15, a fuel-flow imbalance of 20 and an N3 imbalance code of 300; the
corrected fuel flow is 1000, the corrected EGT 500, `theta2` and `delta2` are 1,
`sqrt` is the identity, `expFBW x` is `1 / (1 - x)` (1 at 0, within `(0, 1]` for
`x ≤ 0`); the start curves give N3 20, N1 10, the idle fuel flow passed to them as
fuel flow and the idle EGT passed to them as EGT; the shutdown curve gives EGT 50. -/
def libSteady : Library :=
  { libZero with
    imbalanceExtractor := fun w k =>
      if w = 0 then 0 else if k = 1 then 1 else if k = 2 then 15 else if k = 3 then 20
      else if k = 4 then 300 else 0
    correctedFuelFlow := fun _ _ _ => 1000
    correctedEGT := fun _ _ _ _ => 500
    theta2 := fun _ _ => 1
    delta2 := fun _ _ => 1
    sqrt := fun x => x
    expFBW := fun x => 1 / (1 - x)
    startN3 := fun _ _ _ => 20
    startN1 := fun _ _ _ => 10
    startFF := fun _ _ idleFF => idleFF
    startEGT := fun _ _ _ idleEGT => idleEGT
    shutdownEGT := fun _ _ _ => 50 }

/-- A bus on which every variable reads `0`. -/
def svZero : SimVars :=
  { animDeltaTime := 0, mach := 0, pressureAltitude := 0, ambientTemperature := 0,
    ambientPressure := 0, simOnGround := 0, engineImbalance := 0, packsState1 := 0,
    packsState2 := 0, nai := fun _ => 0, wai := 0, engineStarter := fun _ => 0,
    engineIgniter := fun _ => 0, cn1 := fun _ => 0, n1 := fun _ => 0, n2 := fun _ => 0,
    thrust := fun _ => 0, engineIdleN1 := 0, engineIdleN3 := 0, engineIdleFF := 0,
    engineIdleEGT := 0, engine1State := 0, engine2State := 0, engine1Timer := 0,
    engine2Timer := 0, engine1EGT := 0, engine2EGT := 0, engine1N1 := 0, engine2N1 := 0,
    engine1N2 := 0, engine2N2 := 0, engine1N3 := 0, engine2N3 := 0, engine1FF := 0,
    engine2FF := 0, engine1PreFF := 0, engine2PreFF := 0, fuelUsedEngine1 := 0,
    fuelUsedEngine2 := 0, fuelWeightGallon := 0, fuelLeftPre := 0, fuelRightPre := 0,
    fuelAuxLeftPre := 0, fuelAuxRightPre := 0, fuelCenterPre := 0, fuelTrimPre := 0,
    fuelTankQuantity := fun _ => 0, valve := fun _ => 0, pump := fun _ => 0,
    lineFlow := fun _ => 0, junctionSetting := fun _ => 0, refuelRate := 0,
    refuelStartedByUser := 0, pumpStateEngine1 := 0, pumpStateEngine2 := 0, isReady := 0,
    developerState := 0, flexTemp := 0, thrustLimitType := 0, thrustLimitIdle := 0,
    thrustLimitToga := 0, thrustLimitFlex := 0, thrustLimitClimb := 0, thrustLimitMct := 0 }

/-- Nothing pushed to the host yet. -/
def soNone : SimObject :=
  { startCN3Engine1 := none, startCN3Engine2 := none, oilTempEngine1 := none,
    oilTempEngine2 := none, fuelCenterMain := none, fuelLeftMain := none,
    fuelRightMain := none, fuelLeftAux := none, fuelRightAux := none }

/-- An object whose members are all `0` / `false`, over the bus `sv`. -/
def ecOver (sv : SimVars) : EngineControl :=
  { simVars := sv, simObject := soNone, timerEngine1 := 0, timerEngine2 := 0, timerFuel := 0,
    confStore := none, simPaused := false, animationDeltaTime := 0, timer := 0,
    ambientTemp := 0, ambientPressure := 0, simOnGround := 0, devState := 0, isReady := 0,
    engine := 0, egtImbalance := 0, ffImbalance := 0, n3Imbalance := 0, engineState := 0,
    engineStarter := 0, engineIgniter := 0, packs := 0, nai := 0, wai := 0, simCN1 := 0,
    simN1 := 0, simN3 := 0, thrust := 0, simN3Engine1Pre := 0, simN3Engine2Pre := 0,
    deltaN3 := 0, oilTemperature := 0, oilTemperatureEngine1Pre := 0,
    oilTemperatureEngine2Pre := 0, idleN1 := 0, idleN3 := 0, idleFF := 0, idleEGT := 0,
    mach := 0, pressAltitude := 0, correctedEGT := 0, correctedFuelFlow := 0, cFbwFF := 0,
    imbalance := 0, engineImbalanced := 0, paramImbalance := 0, isFlexActive := false,
    prevThrustLimitType := 0, prevFlexTemperature := 0, isTransitionActive := false,
    transitionFactor := 0, transitionStartTime := 0 }

/-- Engine 1 in state `s` with timer `t` and EGT `egt`, everything else `0`. -/
def ecEngine1 (s t egt : ℚ) : EngineControl :=
  ecOver { svZero with engine1State := s, engine1Timer := t, engine1EGT := egt }

/-- A bus for the fuel claims: one pound per gallon, committed quantities 1000
(left), 1000 (right), 100 (left aux), 100 (right aux), 0 (centre), 50 (trim); the
host reports the same quantities except the left aux tank, which it reports at
`hostLeftAux` gallons. `ready` and `dev` are the ready flag and the developer state. -/
def svFuel (hostLeftAux ready dev : ℚ) : SimVars :=
  { svZero with
    fuelWeightGallon := 1
    fuelLeftPre := 1000
    fuelRightPre := 1000
    fuelAuxLeftPre := 100
    fuelAuxRightPre := 100
    fuelCenterPre := 0
    fuelTrimPre := 50
    fuelTankQuantity := fun i =>
      if i = 1 then 0 else if i = 2 then 1000 else if i = 3 then 1000
      else if i = 4 then hostLeftAux else if i = 5 then 100 else 50
    engine1FF := 3600
    engine1PreFF := 1800
    engine2FF := 3600
    engine2PreFF := 3600
    lineFlow := fun i => if i = 18 then 36 else 0
    isReady := ready
    developerState := dev }

/-- The bus `svFuel 100 0 0` (ready flag 0, hence never classified as tamper) with
every valve other than the cross-feed valve open (the aux transfer valves 4 to 7
and the centre valves 9 to 12 read 1), the cross-feed valve 3 reading `xFeed`, the
left boost pumps 2 and 5 reading `pumpLeft` and the right boost pumps 3 and 6
reading `pumpRight`. -/
def svFuelValves (xFeed pumpLeft pumpRight : ℚ) : SimVars :=
  { svFuel 100 0 0 with
    valve := fun i => if i = 3 then xFeed else 1
    pump := fun i => if i = 2 ∨ i = 5 then pumpLeft else pumpRight }

/-- The object over the bus `svFuelValves 1 1 1`: cross-feed open with all four
boost pumps on (topology 4). -/
def ecValves : EngineControl := ecOver (svFuelValves 1 1 1)

/-- The object over the bus `svFuel 100 0 0`: ready flag 0, host quantities equal
to the committed ones, every valve closed. -/
def ecFuel0 : EngineControl := ecOver (svFuel 100 0 0)

/-- An object over the all-zero bus with the member `pressAltitude` at `alt`. -/
def ecAltitude (alt : ℚ) : EngineControl := { ecOver svZero with pressAltitude := alt }

/-- An object in the middle of a flex transition: flex temperature 50 on this tick
and on the previous one, limit type 1, flex and transition active since simulation
time 100 with the ramp factor 0.2. -/
def ecFlex : EngineControl :=
  { ecOver { svZero with flexTemp := 50, thrustLimitType := 1 } with
    isFlexActive := true
    prevThrustLimitType := 1
    prevFlexTemperature := 50
    isTransitionActive := true
    transitionFactor := 2 / 10
    transitionStartTime := 100 }

/-- An empty configuration file. -/
def iniEmpty : INIStructure := fun _ _ => none

/-- A configuration whose six quantities are all `x`. -/
def cfgAll (x : ℚ) : Configuration :=
  { fuelCenter := x, fuelLeft := x, fuelRight := x, fuelLeftAux := x, fuelRightAux := x,
    fuelTrim := x }

/-- The object `ecFuel0` on the ground with the fuel timer at 1500 ms (both engines
are OFF on that bus). -/
def ecGround : EngineControl :=
  { ecOver { svFuel 100 0 0 with simOnGround := 1 } with timerFuel := 1500 }

/-- A ready bus with a fuel weight of 2 lbs per gallon: the committed quantities
are those of `svFuel` (2200 lbs over the five tanks of the total), the host
reports 500 gallons in each of the tanks 2, 3 and 4, 50 gallons in tank 5 and
none in tank 1, that is 3100 lbs: 900 lbs more than committed, all of it in the
left aux tank. -/
def svFuelHeavy : SimVars :=
  { svFuel 0 1 0 with
    fuelWeightGallon := 2
    fuelTankQuantity := fun i =>
      if i = 1 then 0 else if i = 4 then 500 else if i = 5 then 50
      else if i = 6 then 25 else 500 }

/-- The bus `svFuelValves 0 1 1` (every centre valve open, no junction in manual
setting) with 400 lbs committed in the centre tank, 300 gallons at 1 lbs per
gallon reported by the host in tank 1, a flow of 3 on line 27 and of 1 on
line 28. -/
def svFuelFlows : SimVars :=
  { svFuelValves 0 1 1 with
    fuelCenterPre := 400
    fuelTankQuantity := fun i =>
      if i = 1 then 300 else if i = 2 then 1000 else if i = 3 then 1000
      else if i = 4 then 100 else if i = 5 then 100 else 50
    lineFlow := fun i => if i = 27 then 3 else if i = 28 then 1 else 0 }

/-- An object on the ground over a bus with engine 1 RESTARTING (3), its EGT at
101, its timer at 2, an idle N3 of 60, an idle fuel flow of 200 and an idle EGT
of 100. -/
def ecRestart : EngineControl :=
  { ecOver { svZero with
      engine1State := 3, engine1EGT := 101, engine1Timer := 2, engineIdleN3 := 60,
      engineIdleFF := 200, engineIdleEGT := 100 } with
    simOnGround := 1 }

/-- A call of `updateThrustLimits` at simulation time `t` over a bus with a flex
temperature of 50 and the thrust limit type 1, every other input `0`. -/
def callFlex (t : ℚ) : LimitsCall :=
  { simVars := { svZero with flexTemp := 50, thrustLimitType := 1 }
    pressAltitude := 0, simulationTime := t, altitude := 0, ambientTemp := 0,
    ambientPressure := 0, mach := 0, simN1highest := 0, packs := 0, nai := 0, wai := 0 }

/-- The object over the bus `svFuel 100 1 0` with the state of engine 1 at `-7` and
its timer at 2; the animation delta time is 0 on the bus and in the member, so that
the next tick is a paused one. -/
def ecNegative : EngineControl :=
  ecOver { svFuel 100 1 0 with engine1State := -7, engine1Timer := 2 }

/-- The object over the bus `svFuel 100 1 0`: ready, developer state 0, host
quantities equal to the committed ones, both engines OFF, animation delta time 0. -/
def ecFuel : EngineControl := ecOver (svFuel 100 1 0)

/-! ## Theorems -/

/-- On engine 1 or 2 the state written back is the state computed by the body
from the state and EGT read from the bus. -/
theorem esm_state_written (ec : EngineControl) (engine : ℤ) (he : engine = 1 ∨ engine = 2)
    (ig st n3 idle alt amb dtd : ℚ) :
    engineStateOf (engineStateMachine ec engine ig st n3 idle alt amb dtd).simVars engine
      = (esmBody ig st n3 idle amb dtd (engineEGTOf ec.simVars engine)
          { engineState := engineStateOf ec.simVars engine, resetTimer := 0,
            simPaused := ec.simPaused }).engineState := by
  rcases he with rfl | rfl
  · simp only [engineStateMachine, esmRead, esmWrite, engineStateOf, engineEGTOf]
    split_ifs <;> rfl
  · simp only [engineStateMachine, esmRead, esmWrite, engineStateOf, engineEGTOf]
    split_ifs <;> rfl

/-- On engine 1 or 2 the timer after the call is `0` when the body set
`resetTimer` to `1`, and the timer before the call otherwise. -/
theorem esm_timer_written (ec : EngineControl) (engine : ℤ) (he : engine = 1 ∨ engine = 2)
    (ig st n3 idle alt amb dtd : ℚ) :
    engineTimerOf (engineStateMachine ec engine ig st n3 idle alt amb dtd).simVars engine
      = if (esmBody ig st n3 idle amb dtd (engineEGTOf ec.simVars engine)
          { engineState := engineStateOf ec.simVars engine, resetTimer := 0,
            simPaused := ec.simPaused }).resetTimer = 1
        then 0 else engineTimerOf ec.simVars engine := by
  rcases he with rfl | rfl
  · simp only [engineStateMachine, esmRead, esmWrite, engineStateOf, engineEGTOf, engineTimerOf]
    split_ifs <;> rfl
  · simp only [engineStateMachine, esmRead, esmWrite, engineStateOf, engineEGTOf, engineTimerOf]
    split_ifs <;> rfl

/-- Closed form of the body on an unpaused tick from OFF (`0` or `10`). -/
theorem esmBody_off (ig st n3 idle amb dtd egt : ℚ) (v : EsmVars) (hd : dtd ≠ 0)
    (hs : v.engineState = 0 ∨ v.engineState = 10) :
    esmBody ig st n3 idle amb dtd egt v =
      if ig = 1 ∧ st = 1 ∧ n3 > 20 then
        { engineState := 1, resetTimer := v.resetTimer, simPaused := false }
      else if ig = 2 ∧ st = 1 then
        if n3 ≥ idle - 1 / 10 then { engineState := 1, resetTimer := 1, simPaused := false }
        else { engineState := 2, resetTimer := v.resetTimer, simPaused := false }
      else { engineState := 0, resetTimer := v.resetTimer, simPaused := false } := by
  obtain ⟨s, r, p⟩ := v
  simp only at hs
  rcases hs with rfl | rfl
  all_goals
    by_cases hA : ig = 1 <;> by_cases hB : st = 1 <;> by_cases hC : n3 > 20 <;>
    by_cases hD : ig = 2 <;> by_cases hE : n3 ≥ idle - 1 / 10 <;>
    simp only [esmBody, presentStateOff, presentStateOn, presentStateStarting,
      presentStateRestarting, presentStateShutting, hA, hB, hC, hD, hE, hd, true_and, and_true,
      false_and, and_false, if_true, if_false, true_or, or_true, or_false, false_or, and_self] <;>
    norm_num

/-- Closed form of the body on an unpaused tick from ON (`1` or `11`). -/
theorem esmBody_on (ig st n3 idle amb dtd egt : ℚ) (v : EsmVars) (hd : dtd ≠ 0)
    (hs : v.engineState = 1 ∨ v.engineState = 11) :
    esmBody ig st n3 idle amb dtd egt v =
      if st = 1 then { engineState := 1, resetTimer := v.resetTimer, simPaused := false }
      else if st = 0 ∧ n3 < 5 / 100 ∧ egt ≤ amb then
        { engineState := 0, resetTimer := 1, simPaused := false }
      else { engineState := 4, resetTimer := v.resetTimer, simPaused := false } := by
  obtain ⟨s, r, p⟩ := v
  simp only at hs
  rcases hs with rfl | rfl
  all_goals
    by_cases hB : st = 1 <;> by_cases hF : st = 0 <;> by_cases hG : n3 < 5 / 100 <;>
    by_cases hH : egt ≤ amb <;>
    simp only [esmBody, presentStateOff, presentStateOn, presentStateStarting,
      presentStateRestarting, presentStateShutting, hB, hF, hG, hH, hd, true_and, and_true,
      false_and, and_false, if_true, if_false, true_or, or_true, or_false, false_or, and_self] <;>
    norm_num

/-- Closed form of the body on an unpaused tick from STARTING (`2` or `12`). -/
theorem esmBody_starting (ig st n3 idle amb dtd egt : ℚ) (v : EsmVars) (hd : dtd ≠ 0)
    (hs : v.engineState = 2 ∨ v.engineState = 12) :
    esmBody ig st n3 idle amb dtd egt v =
      if st = 1 ∧ n3 ≥ idle - 1 / 10 then
        { engineState := 1, resetTimer := 1, simPaused := false }
      else if st = 0 then
        if n3 < 5 / 100 ∧ egt ≤ amb then { engineState := 0, resetTimer := 1, simPaused := false }
        else { engineState := 4, resetTimer := 1, simPaused := false }
      else { engineState := 2, resetTimer := v.resetTimer, simPaused := false } := by
  obtain ⟨s, r, p⟩ := v
  simp only at hs
  rcases hs with rfl | rfl
  all_goals
    by_cases hB : st = 1 <;> by_cases hF : st = 0 <;> by_cases hG : n3 < 5 / 100 <;>
    by_cases hH : egt ≤ amb <;> by_cases hE : n3 ≥ idle - 1 / 10 <;>
    simp only [esmBody, presentStateOff, presentStateOn, presentStateStarting,
      presentStateRestarting, presentStateShutting, hB, hF, hG, hH, hE, hd, true_and, and_true,
      false_and, and_false, if_true, if_false, true_or, or_true, or_false, false_or, and_self] <;>
    norm_num

/-- Closed form of the body on an unpaused tick from RESTARTING (`3` or `13`). -/
theorem esmBody_restarting (ig st n3 idle amb dtd egt : ℚ) (v : EsmVars) (hd : dtd ≠ 0)
    (hs : v.engineState = 3 ∨ v.engineState = 13) :
    esmBody ig st n3 idle amb dtd egt v =
      if st = 1 ∧ n3 ≥ idle - 1 / 10 then
        { engineState := 1, resetTimer := 1, simPaused := false }
      else if st = 0 then
        if n3 < 5 / 100 ∧ egt ≤ amb then { engineState := 0, resetTimer := 1, simPaused := false }
        else { engineState := 4, resetTimer := 1, simPaused := false }
      else { engineState := 3, resetTimer := v.resetTimer, simPaused := false } := by
  obtain ⟨s, r, p⟩ := v
  simp only at hs
  rcases hs with rfl | rfl
  all_goals
    by_cases hB : st = 1 <;> by_cases hF : st = 0 <;> by_cases hG : n3 < 5 / 100 <;>
    by_cases hH : egt ≤ amb <;> by_cases hE : n3 ≥ idle - 1 / 10 <;>
    simp only [esmBody, presentStateOff, presentStateOn, presentStateStarting,
      presentStateRestarting, presentStateShutting, hB, hF, hG, hH, hE, hd, true_and, and_true,
      false_and, and_false, if_true, if_false, true_or, or_true, or_false, false_or, and_self] <;>
    norm_num

/-- Closed form of the body on an unpaused tick from SHUTTING (`4` or `14`). -/
theorem esmBody_shutting (ig st n3 idle amb dtd egt : ℚ) (v : EsmVars) (hd : dtd ≠ 0)
    (hs : v.engineState = 4 ∨ v.engineState = 14) :
    esmBody ig st n3 idle amb dtd egt v =
      if ig = 2 ∧ st = 1 then { engineState := 3, resetTimer := 1, simPaused := false }
      else if st = 0 ∧ n3 < 5 / 100 ∧ egt ≤ amb then
        { engineState := 0, resetTimer := 1, simPaused := false }
      else if st = 1 ∧ n3 > 50 then { engineState := 3, resetTimer := 1, simPaused := false }
      else { engineState := 4, resetTimer := v.resetTimer, simPaused := false } := by
  obtain ⟨s, r, p⟩ := v
  simp only at hs
  rcases hs with rfl | rfl
  all_goals
    by_cases hB : st = 1 <;> by_cases hF : st = 0 <;> by_cases hG : n3 < 5 / 100 <;>
    by_cases hH : egt ≤ amb <;> by_cases hD : ig = 2 <;> by_cases hI : n3 > 50 <;>
    simp only [esmBody, presentStateOff, presentStateOn, presentStateStarting,
      presentStateRestarting, presentStateShutting, hB, hF, hG, hH, hD, hI, hd, true_and,
      and_true, false_and, and_false, if_true, if_false, true_or, or_true, or_false, false_or,
      and_self] <;>
    norm_num

/-- The body on a paused tick (`deltaTimeDiff = 0`): the `+10` offset is added
below `10`, nothing else changes, `resetTimer` stays as it was. -/
theorem esmBody_paused (ig st n3 idle amb egt : ℚ) (v : EsmVars) :
    esmBody ig st n3 idle amb 0 egt v =
      { engineState := if v.engineState < 10 then v.engineState + 10 else v.engineState,
        resetTimer := v.resetTimer, simPaused := true } := by
  simp only [esmBody, true_and]
  by_cases h : v.engineState < 10
  · simp only [h, if_true]
  · have h2 : v.engineState ≥ 10 := not_lt.mp h
    simp only [h, h2, if_true, if_false]

/-! ### Claims about the state machine -/

/-- C1 (refuted as stated): engine 1 is OFF, igniter = 2 (crank), starter = 1 and
N3 = idleN3 = 60 on an unpaused tick. The claimed row gives STARTING (2); the code
writes ON (1), because the block for STARTING runs on the state the block for OFF
has just assigned. -/
theorem c1_off_row_counterexample :
    (ecEngine1 0 5 0).simVars.engine1State = 0
    ∧ (engineStateMachine (ecEngine1 0 5 0) 1 2 1 60 60 0 15 1).simVars.engine1State = 1
    ∧ (if (2 : ℚ) = 1 ∧ (1 : ℚ) = 1 ∧ (60 : ℚ) > 20 then (1 : ℚ)
        else if (2 : ℚ) = 2 ∧ (1 : ℚ) = 1 then 2 else 0) = 2 := by
  refine ⟨rfl, ?_, ?_⟩
  · norm_num [engineStateMachine, esmRead, esmWrite, esmBody, presentStateOff, presentStateOn,
      presentStateStarting, presentStateRestarting, presentStateShutting, ecEngine1, ecOver,
      svZero]
  · norm_num

/-- C1 (amended): on an unpaused tick with the engine OFF (0), the state written
back is ON (1) if igniter = 1, starter = 1 and N3 > 20; otherwise, if igniter = 2
and starter = 1, it is ON (1) when N3 ≥ idleN3 − 0.1 and STARTING (2) when not;
otherwise it is OFF (0). -/
theorem c1_off_row (ec : EngineControl) (engine : ℤ) (ig st n3 idle alt amb dtd : ℚ)
    (he : engine = 1 ∨ engine = 2) (hd : dtd ≠ 0)
    (hs : engineStateOf ec.simVars engine = 0) :
    engineStateOf (engineStateMachine ec engine ig st n3 idle alt amb dtd).simVars engine
      = if ig = 1 ∧ st = 1 ∧ n3 > 20 then 1
        else if ig = 2 ∧ st = 1 then (if n3 ≥ idle - 1 / 10 then 1 else 2)
        else 0 := by
  rw [esm_state_written ec engine he, esmBody_off ig st n3 idle amb dtd _ _ hd (Or.inl hs)]
  split_ifs <;> rfl

/-- Witness of `c1_off_row`: engine 1 OFF, crank, starter on, N3 = 0, idleN3 = 60. -/
theorem c1_off_row_witness :
    engineStateOf (engineStateMachine (ecEngine1 0 5 0) 1 2 1 0 60 0 15 1).simVars 1
      = if (2 : ℚ) = 1 ∧ (1 : ℚ) = 1 ∧ (0 : ℚ) > 20 then 1
        else if (2 : ℚ) = 2 ∧ (1 : ℚ) = 1 then (if (0 : ℚ) ≥ 60 - 1 / 10 then 1 else 2)
        else 0 :=
  c1_off_row (ecEngine1 0 5 0) 1 2 1 0 60 0 15 1 (Or.inl rfl) (by norm_num) rfl

/-- C2 (refuted as stated): engine 1 is ON, starter = 0, N3 = 0 and EGT 10 ≤ ambient
15 on an unpaused tick. The claimed row gives SHUTTING (4); the code writes OFF (0),
because the block for SHUTTING runs on the state the block for ON has just
assigned. -/
theorem c2_on_row_counterexample :
    (ecEngine1 1 5 10).simVars.engine1State = 1
    ∧ (engineStateMachine (ecEngine1 1 5 10) 1 0 0 0 60 0 15 1).simVars.engine1State = 0
    ∧ (if (0 : ℚ) = 1 then (1 : ℚ) else 4) = 4 := by
  refine ⟨rfl, ?_, ?_⟩
  · norm_num [engineStateMachine, esmRead, esmWrite, esmBody, presentStateOff, presentStateOn,
      presentStateStarting, presentStateRestarting, presentStateShutting, ecEngine1, ecOver,
      svZero]
  · norm_num

/-- C2 (amended): on an unpaused tick with the engine ON (1), the state written
back is ON (1) if starter = 1; otherwise it is OFF (0) if starter = 0, N3 < 0.05 and
the engine's EGT ≤ ambient temperature, and SHUTTING (4) in every other case. -/
theorem c2_on_row (ec : EngineControl) (engine : ℤ) (ig st n3 idle alt amb dtd : ℚ)
    (he : engine = 1 ∨ engine = 2) (hd : dtd ≠ 0)
    (hs : engineStateOf ec.simVars engine = 1) :
    engineStateOf (engineStateMachine ec engine ig st n3 idle alt amb dtd).simVars engine
      = if st = 1 then 1
        else if st = 0 ∧ n3 < 5 / 100 ∧ engineEGTOf ec.simVars engine ≤ amb then 0
        else 4 := by
  rw [esm_state_written ec engine he, esmBody_on ig st n3 idle amb dtd _ _ hd (Or.inl hs)]
  split_ifs <;> rfl

/-- Witness of `c2_on_row`: engine 1 ON, starter off, N3 = 30. -/
theorem c2_on_row_witness :
    engineStateOf (engineStateMachine (ecEngine1 1 5 400) 1 0 0 30 60 0 15 1).simVars 1
      = if (0 : ℚ) = 1 then 1
        else if (0 : ℚ) = 0 ∧ (30 : ℚ) < 5 / 100
            ∧ engineEGTOf (ecEngine1 1 5 400).simVars 1 ≤ 15 then 0
        else 4 :=
  c2_on_row (ecEngine1 1 5 400) 1 0 0 30 60 0 15 1 (Or.inl rfl) (by norm_num) rfl

/-- C3: on an unpaused tick with state STARTING (2) or RESTARTING (3) and
starter = 1: if N3 ≥ idleN3 − 0.1 (equality included) the state written is ON (1)
and the engine's timer is set to 0; if N3 < idleN3 − 0.1 the state written is the
state read and the timer keeps its value. -/
theorem c3_idle_reached (ec : EngineControl) (engine : ℤ) (ig n3 idle alt amb dtd : ℚ)
    (he : engine = 1 ∨ engine = 2) (hd : dtd ≠ 0)
    (hs : engineStateOf ec.simVars engine = 2 ∨ engineStateOf ec.simVars engine = 3) :
    (n3 ≥ idle - 1 / 10 →
      engineStateOf (engineStateMachine ec engine ig 1 n3 idle alt amb dtd).simVars engine = 1
      ∧ engineTimerOf (engineStateMachine ec engine ig 1 n3 idle alt amb dtd).simVars engine = 0)
    ∧ (n3 < idle - 1 / 10 →
      engineStateOf (engineStateMachine ec engine ig 1 n3 idle alt amb dtd).simVars engine
        = engineStateOf ec.simVars engine
      ∧ engineTimerOf (engineStateMachine ec engine ig 1 n3 idle alt amb dtd).simVars engine
        = engineTimerOf ec.simVars engine) := by
  rw [esm_state_written ec engine he, esm_timer_written ec engine he]
  rcases hs with hs | hs
  · rw [esmBody_starting ig 1 n3 idle amb dtd _ _ hd (Or.inl hs)]
    constructor
    · intro h
      simp only [h, true_and, and_self, if_true]
    · intro h
      have h2 : ¬ n3 ≥ idle - 1 / 10 := not_le.mpr h
      simp only [h2, and_false, if_false, one_ne_zero, hs, zero_ne_one, and_self]
  · rw [esmBody_restarting ig 1 n3 idle amb dtd _ _ hd (Or.inl hs)]
    constructor
    · intro h
      simp only [h, true_and, and_self, if_true]
    · intro h
      have h2 : ¬ n3 ≥ idle - 1 / 10 := not_le.mpr h
      simp only [h2, and_false, if_false, one_ne_zero, hs, zero_ne_one, and_self]

/-- Witness of `c3_idle_reached`: engine 1 STARTING, timer 5, N3 exactly at
idleN3 − 0.1 = 59.9. -/
theorem c3_idle_reached_witness :
    (((599 : ℚ) / 10 ≥ 60 - 1 / 10 →
      engineStateOf
        (engineStateMachine (ecEngine1 2 5 0) 1 2 1 (599 / 10) 60 0 15 1).simVars 1 = 1
      ∧ engineTimerOf
        (engineStateMachine (ecEngine1 2 5 0) 1 2 1 (599 / 10) 60 0 15 1).simVars 1 = 0)
    ∧ ((599 : ℚ) / 10 < 60 - 1 / 10 →
      engineStateOf (engineStateMachine (ecEngine1 2 5 0) 1 2 1 (599 / 10) 60 0 15 1).simVars 1
        = engineStateOf (ecEngine1 2 5 0).simVars 1
      ∧ engineTimerOf (engineStateMachine (ecEngine1 2 5 0) 1 2 1 (599 / 10) 60 0 15 1).simVars 1
        = engineTimerOf (ecEngine1 2 5 0).simVars 1))
    ∧ (599 : ℚ) / 10 ≥ 60 - 1 / 10 :=
  ⟨c3_idle_reached (ecEngine1 2 5 0) 1 2 (599 / 10) 60 0 15 1 (Or.inl rfl) (by norm_num)
    (Or.inl rfl), by norm_num⟩

/-- C4 (refuted as stated): engine 1 is STARTING, starter = 0, N3 = 0 and EGT 10 ≤
ambient 15 on an unpaused tick. The claim gives SHUTTING (4); the code writes OFF
(0), because the block for SHUTTING runs on the state the block for STARTING has
just assigned. -/
theorem c4_aborted_start_counterexample :
    (ecEngine1 2 5 10).simVars.engine1State = 2
    ∧ (engineStateMachine (ecEngine1 2 5 10) 1 0 0 0 60 0 15 1).simVars.engine1State = 0
    ∧ (0 : ℚ) ≠ 4 := by
  refine ⟨rfl, ?_, ?_⟩
  · norm_num [engineStateMachine, esmRead, esmWrite, esmBody, presentStateOff, presentStateOn,
      presentStateStarting, presentStateRestarting, presentStateShutting, ecEngine1, ecOver,
      svZero]
  · norm_num

/-- C4 (amended): on an unpaused tick with state STARTING (2) or RESTARTING (3)
and starter = 0, the engine's timer is set to 0 and the state written back is OFF
(0) if N3 < 0.05 and the engine's EGT ≤ ambient temperature, and SHUTTING (4) in
every other case. -/
theorem c4_aborted_start (ec : EngineControl) (engine : ℤ) (ig n3 idle alt amb dtd : ℚ)
    (he : engine = 1 ∨ engine = 2) (hd : dtd ≠ 0)
    (hs : engineStateOf ec.simVars engine = 2 ∨ engineStateOf ec.simVars engine = 3) :
    engineStateOf (engineStateMachine ec engine ig 0 n3 idle alt amb dtd).simVars engine
      = (if n3 < 5 / 100 ∧ engineEGTOf ec.simVars engine ≤ amb then 0 else 4)
    ∧ engineTimerOf (engineStateMachine ec engine ig 0 n3 idle alt amb dtd).simVars engine
      = 0 := by
  rw [esm_state_written ec engine he, esm_timer_written ec engine he]
  rcases hs with hs | hs
  · rw [esmBody_starting ig 0 n3 idle amb dtd _ _ hd (Or.inl hs)]
    simp only [zero_ne_one, false_and, if_false, if_true]
    split_ifs <;> simp_all
  · rw [esmBody_restarting ig 0 n3 idle amb dtd _ _ hd (Or.inl hs)]
    simp only [zero_ne_one, false_and, if_false, if_true]
    split_ifs <;> simp_all

/-- Witness of `c4_aborted_start`: engine 1 RESTARTING with N3 = 30, starter off. -/
theorem c4_aborted_start_witness :
    engineStateOf (engineStateMachine (ecEngine1 3 5 400) 1 2 0 30 60 0 15 1).simVars 1
      = (if (30 : ℚ) < 5 / 100 ∧ engineEGTOf (ecEngine1 3 5 400).simVars 1 ≤ 15 then 0 else 4)
    ∧ engineTimerOf (engineStateMachine (ecEngine1 3 5 400) 1 2 0 30 60 0 15 1).simVars 1
      = 0 :=
  c4_aborted_start (ecEngine1 3 5 400) 1 2 30 60 0 15 1 (Or.inl rfl) (by norm_num)
    (Or.inr rfl)

/-- C5: on an unpaused tick with state SHUTTING (4) the conditions are tried in
this order: igniter = 2 and starter = 1 gives RESTARTING (3); starter = 0, N3 < 0.05
and EGT ≤ ambient gives OFF (0); starter = 1 and N3 > 50 gives RESTARTING (3); each of
these sets the timer to 0. Otherwise the state stays SHUTTING (4) and the timer
keeps its value. -/
theorem c5_shutting_row (ec : EngineControl) (engine : ℤ) (ig st n3 idle alt amb dtd : ℚ)
    (he : engine = 1 ∨ engine = 2) (hd : dtd ≠ 0)
    (hs : engineStateOf ec.simVars engine = 4) :
    (engineStateOf (engineStateMachine ec engine ig st n3 idle alt amb dtd).simVars engine,
     engineTimerOf (engineStateMachine ec engine ig st n3 idle alt amb dtd).simVars engine)
      = if ig = 2 ∧ st = 1 then (3, 0)
        else if st = 0 ∧ n3 < 5 / 100 ∧ engineEGTOf ec.simVars engine ≤ amb then (0, 0)
        else if st = 1 ∧ n3 > 50 then (3, 0)
        else (4, engineTimerOf ec.simVars engine) := by
  rw [esm_state_written ec engine he, esm_timer_written ec engine he,
    esmBody_shutting ig st n3 idle amb dtd _ _ hd (Or.inl hs)]
  split_ifs <;> simp_all

/-- Witness of `c5_shutting_row`: engine 1 SHUTTING, cold and stopped, starter off. -/
theorem c5_shutting_row_witness :
    (engineStateOf (engineStateMachine (ecEngine1 4 5 10) 1 0 0 0 60 0 15 1).simVars 1,
     engineTimerOf (engineStateMachine (ecEngine1 4 5 10) 1 0 0 0 60 0 15 1).simVars 1)
      = if (0 : ℚ) = 2 ∧ (0 : ℚ) = 1 then (3, 0)
        else if (0 : ℚ) = 0 ∧ (0 : ℚ) < 5 / 100 ∧ engineEGTOf (ecEngine1 4 5 10).simVars 1 ≤ 15
          then (0, 0)
        else if (0 : ℚ) = 1 ∧ (0 : ℚ) > 50 then (3, 0)
        else (4, engineTimerOf (ecEngine1 4 5 10).simVars 1) :=
  c5_shutting_row (ecEngine1 4 5 10) 1 0 0 0 60 0 15 1 (Or.inl rfl) (by norm_num) rfl

/-- Replacing the EGT on the bus changes neither the state nor the timer. -/
theorem withEngineEGT_state_timer (ec : EngineControl) (engine : ℤ) (egt : ℚ) :
    engineStateOf (withEngineEGT ec engine egt).simVars engine = engineStateOf ec.simVars engine
    ∧ engineTimerOf (withEngineEGT ec engine egt).simVars engine
      = engineTimerOf ec.simVars engine := by
  unfold withEngineEGT engineStateOf engineTimerOf
  split_ifs <;> exact ⟨rfl, rfl⟩

/-- One paused call: the offset is added to a state below `10`, a state from `10`
on is kept, and the timer keeps its value. -/
theorem esm_paused_tick (ec : EngineControl) (engine : ℤ) (he : engine = 1 ∨ engine = 2)
    (ig st n3 idle alt amb : ℚ) :
    engineStateOf (engineStateMachine ec engine ig st n3 idle alt amb 0).simVars engine
      = (if engineStateOf ec.simVars engine < 10 then engineStateOf ec.simVars engine + 10
          else engineStateOf ec.simVars engine)
    ∧ engineTimerOf (engineStateMachine ec engine ig st n3 idle alt amb 0).simVars engine
      = engineTimerOf ec.simVars engine := by
  rw [esm_state_written ec engine he, esm_timer_written ec engine he, esmBody_paused]
  simp

/-- From a state that already carries the offset, any number of paused calls
leaves the state and the timer as they are. -/
theorem pausedTicks_frozen (engine : ℤ) (he : engine = 1 ∨ engine = 2) (inputs : List EsmInput) :
    ∀ ec : EngineControl, 10 ≤ engineStateOf ec.simVars engine →
      engineStateOf (pausedTicks engine inputs ec).simVars engine = engineStateOf ec.simVars engine
      ∧ engineTimerOf (pausedTicks engine inputs ec).simVars engine
        = engineTimerOf ec.simVars engine := by
  induction inputs with
  | nil => intro ec _; exact ⟨rfl, rfl⟩
  | cons i rest ih =>
    intro ec h
    have hw := withEngineEGT_state_timer ec engine i.egt
    have ht := esm_paused_tick (withEngineEGT ec engine i.egt) engine he i.engineIgniter
      i.engineStarter i.simN3 i.idleN3 i.pressAltitude i.ambientTemp
    rw [hw.1, hw.2, if_neg (not_lt.mpr h)] at ht
    have := ih _ (by rw [ht.1]; exact h)
    simp only [pausedTicks]
    rw [this.1, this.2, ht.1, ht.2]
    exact ⟨rfl, rfl⟩

/-- C6 fails below 0: engine 1 with the state `-5`, which is below 10, and two
consecutive calls with a delta-time difference of `0`: the first call writes 5,
which is again below 10, and the second adds the offset a second time and writes
15, not `-5 + 10 = 5`. -/
theorem c6_pause_idempotent_counterexample :
    engineStateOf (ecEngine1 (-5) 0 0).simVars 1 = -5
    ∧ (-5 : ℚ) < 10
    ∧ engineStateOf (pausedTicks 1 [⟨0, 0, 0, 0, 0, 0, 0⟩]
        (ecEngine1 (-5) 0 0)).simVars 1 = 5
    ∧ engineStateOf (pausedTicks 1 [⟨0, 0, 0, 0, 0, 0, 0⟩, ⟨0, 0, 0, 0, 0, 0, 0⟩]
        (ecEngine1 (-5) 0 0)).simVars 1 = 15
    ∧ engineStateOf (pausedTicks 1 [⟨0, 0, 0, 0, 0, 0, 0⟩, ⟨0, 0, 0, 0, 0, 0, 0⟩]
        (ecEngine1 (-5) 0 0)).simVars 1 ≠ -5 + 10 := by
  have h1 : engineStateOf (pausedTicks 1 [⟨0, 0, 0, 0, 0, 0, 0⟩]
      (ecEngine1 (-5) 0 0)).simVars 1 = 5 := by
    simp only [pausedTicks]
    rw [(esm_paused_tick _ 1 (Or.inl rfl) 0 0 0 0 0 0).1]
    norm_num [withEngineEGT, engineStateOf, ecEngine1, ecOver, svZero]
  have h2 : engineStateOf (pausedTicks 1 [⟨0, 0, 0, 0, 0, 0, 0⟩, ⟨0, 0, 0, 0, 0, 0, 0⟩]
      (ecEngine1 (-5) 0 0)).simVars 1 = 15 := by
    simp only [pausedTicks] at h1 ⊢
    rw [(esm_paused_tick _ 1 (Or.inl rfl) 0 0 0 0 0 0).1,
      (withEngineEGT_state_timer _ 1 0).1, h1]
    norm_num
  refine ⟨rfl, by norm_num, h1, h2, ?_⟩
  rw [h2]
  norm_num

/-- C6 (amended): pause idempotence. Starting from a state `s` with `0 ≤ s < 10`,
after `n ≥ 1` consecutive calls with a delta-time difference of `0` the state is
exactly `s + 10`, whatever igniter, starter, N3, idleN3, ambient temperature and
EGT each call sees, and the engine's timer has the value it had before the first
call. -/
theorem c6_pause_idempotent (ec : EngineControl) (engine : ℤ) (s : ℚ) (inputs : List EsmInput)
    (he : engine = 1 ∨ engine = 2) (h0 : 0 ≤ s) (h10 : s < 10) (hn : 1 ≤ inputs.length)
    (hs : engineStateOf ec.simVars engine = s) :
    engineStateOf (pausedTicks engine inputs ec).simVars engine = s + 10
    ∧ engineTimerOf (pausedTicks engine inputs ec).simVars engine
      = engineTimerOf ec.simVars engine := by
  cases inputs with
  | nil => simp at hn
  | cons i rest =>
    have hw := withEngineEGT_state_timer ec engine i.egt
    have ht := esm_paused_tick (withEngineEGT ec engine i.egt) engine he i.engineIgniter
      i.engineStarter i.simN3 i.idleN3 i.pressAltitude i.ambientTemp
    rw [hw.1, hw.2, hs, if_pos h10] at ht
    have hf := pausedTicks_frozen engine he rest _ (by rw [ht.1]; linarith)
    simp only [pausedTicks]
    rw [hf.1, hf.2, ht.1, ht.2]
    exact ⟨rfl, rfl⟩

/-- Witness of `c6_pause_idempotent`: engine 1 STARTING with timer 5, three paused
calls with different inputs. -/
theorem c6_pause_idempotent_witness :
    engineStateOf (pausedTicks 1
        [⟨2, 1, 60, 60, 0, 15, 400⟩, ⟨0, 0, 0, 60, 0, 15, 10⟩, ⟨1, 1, 70, 60, 0, 15, 0⟩]
        (ecEngine1 2 5 0)).simVars 1 = 2 + 10
    ∧ engineTimerOf (pausedTicks 1
        [⟨2, 1, 60, 60, 0, 15, 400⟩, ⟨0, 0, 0, 60, 0, 15, 10⟩, ⟨1, 1, 70, 60, 0, 15, 0⟩]
        (ecEngine1 2 5 0)).simVars 1 = engineTimerOf (ecEngine1 2 5 0).simVars 1 :=
  c6_pause_idempotent (ecEngine1 2 5 0) 1 2
    [⟨2, 1, 60, 60, 0, 15, 400⟩, ⟨0, 0, 0, 60, 0, 15, 10⟩, ⟨1, 1, 70, 60, 0, 15, 0⟩]
    (Or.inl rfl) (by norm_num) (by norm_num) (by simp) rfl

/-- C7 (refuted as stated): engine 1 is in the paused shadow of OFF (10) and the
tick is unpaused, igniter and starter off. The claim says the state written still
carries the offset (10); the code writes 0. -/
theorem c7_leaving_pause_counterexample :
    (ecEngine1 10 5 0).simVars.engine1State = 0 + 10
    ∧ (engineStateMachine (ecEngine1 10 5 0) 1 0 0 0 60 0 15 1).simVars.engine1State = 0
    ∧ (0 : ℚ) < 10 := by
  refine ⟨by norm_num [ecEngine1, ecOver, svZero], ?_, by norm_num⟩
  norm_num [engineStateMachine, esmRead, esmWrite, esmBody, presentStateOff, presentStateOn,
    presentStateStarting, presentStateRestarting, presentStateShutting, ecEngine1, ecOver,
    svZero]

/-- C7 (amended): when an unpaused tick runs on a state in the paused shadow
(`s + 10` with `s` in {0,1,2,3,4}), the routine clears the shadow: the state it
writes back is one of 0, 1, 2, 3, 4. -/
theorem c7_leaving_pause (ec : EngineControl) (engine : ℤ) (s ig st n3 idle alt amb dtd : ℚ)
    (he : engine = 1 ∨ engine = 2) (hd : dtd ≠ 0)
    (hs : s = 0 ∨ s = 1 ∨ s = 2 ∨ s = 3 ∨ s = 4)
    (hst : engineStateOf ec.simVars engine = s + 10) :
    engineStateOf (engineStateMachine ec engine ig st n3 idle alt amb dtd).simVars engine
      ∈ ({0, 1, 2, 3, 4} : Set ℚ) := by
  rw [esm_state_written ec engine he]
  rcases hs with rfl | rfl | rfl | rfl | rfl
  · rw [esmBody_off ig st n3 idle amb dtd _ _ hd (Or.inr (by rw [hst]; norm_num))]
    split_ifs <;> simp
  · rw [esmBody_on ig st n3 idle amb dtd _ _ hd (Or.inr (by rw [hst]; norm_num))]
    split_ifs <;> simp
  · rw [esmBody_starting ig st n3 idle amb dtd _ _ hd (Or.inr (by rw [hst]; norm_num))]
    split_ifs <;> simp
  · rw [esmBody_restarting ig st n3 idle amb dtd _ _ hd (Or.inr (by rw [hst]; norm_num))]
    split_ifs <;> simp
  · rw [esmBody_shutting ig st n3 idle amb dtd _ _ hd (Or.inr (by rw [hst]; norm_num))]
    split_ifs <;> simp

/-- Witness of `c7_leaving_pause`: engine 1 in the shadow of ON (11), starter on. -/
theorem c7_leaving_pause_witness :
    engineStateOf (engineStateMachine (ecEngine1 11 5 400) 1 1 1 60 60 0 15 1).simVars 1
      ∈ ({0, 1, 2, 3, 4} : Set ℚ) :=
  c7_leaving_pause (ecEngine1 11 5 400) 1 1 1 1 60 60 0 15 1 (Or.inl rfl) (by norm_num)
    (Or.inr (Or.inl rfl)) (by norm_num [engineStateOf, ecEngine1, ecOver, svZero])

/-! ### Claims about the fuel network -/

/-- C9 (refuted as stated): one pound per gallon, no user refuel, the host reports
the left aux tank at 1000 lbs against 100 lbs committed, a jump of 900 lbs in one
second (more than 661), but the ready flag is 0. The tick is not classified as
tamper: the conservation branch runs and commits the host's 1000 lbs for the left
aux tank. -/
theorem c9_tamper_counterexample :
    (svFuel 1000 0 0).refuelStartedByUser = 0
    ∧ deltaFuelRate (svFuel 1000 0 0) 1 = 900
    ∧ (900 : ℚ) > FUEL_THRESHOLD
    ∧ (ecOver (svFuel 1000 0 0)).simVars.fuelAuxLeftPre = 100
    ∧ (updateFuel (ecOver (svFuel 1000 0 0)) 1).simVars.fuelAuxLeftPre = 1000 := by
  refine ⟨rfl, ?_, by norm_num [FUEL_THRESHOLD], rfl, ?_⟩
  · norm_num [deltaFuelRate, fuelTotalActual, fuelTotalPre, leftQuantity, rightQuantity,
      leftAuxQuantity, rightAuxQuantity, centerQuantity, svFuel, svZero]
  · norm_num [updateFuel, fuelBranch, uiFuelTamper, leftAuxQuantity, svFuel, svZero, ecOver]

/-- With the ready flag at 1, no user refuel and a rate above the threshold the
tick is classified as tamper. -/
theorem uiFuelTamper_of_rate (sv : SimVars) (dts : ℚ) (hready : sv.isReady = 1)
    (hrefuel : sv.refuelStartedByUser = 0) (hrate : deltaFuelRate sv dts > FUEL_THRESHOLD) :
    uiFuelTamper sv dts = true := by
  unfold uiFuelTamper
  exact decide_eq_true (Or.inl ⟨hready, hrefuel, hrate⟩)

/-- C9 (amended): whenever the ready flag is 1, no user refuel is active
(refuelStartedByUser = 0), the rate computed from the host-reported and the
committed quantities exceeds 661, and the developer state is 0 or the simulation
is paused, the six committed "pre" quantities after the call equal those before
the call, and the centre, main and aux quantities pushed to the host are the
committed values divided by the fuel weight per gallon. -/
theorem c9_tamper (ec : EngineControl) (dts : ℚ) (hready : ec.simVars.isReady = 1)
    (hrefuel : ec.simVars.refuelStartedByUser = 0)
    (hrate : deltaFuelRate ec.simVars dts > FUEL_THRESHOLD)
    (hdev : ec.simVars.developerState = 0 ∨ ec.simPaused = true) :
    ((updateFuel ec dts).simVars.fuelLeftPre = ec.simVars.fuelLeftPre
      ∧ (updateFuel ec dts).simVars.fuelRightPre = ec.simVars.fuelRightPre
      ∧ (updateFuel ec dts).simVars.fuelAuxLeftPre = ec.simVars.fuelAuxLeftPre
      ∧ (updateFuel ec dts).simVars.fuelAuxRightPre = ec.simVars.fuelAuxRightPre
      ∧ (updateFuel ec dts).simVars.fuelCenterPre = ec.simVars.fuelCenterPre
      ∧ (updateFuel ec dts).simVars.fuelTrimPre = ec.simVars.fuelTrimPre)
    ∧ ((updateFuel ec dts).simObject.fuelCenterMain
        = some (ec.simVars.fuelCenterPre / ec.simVars.fuelWeightGallon)
      ∧ (updateFuel ec dts).simObject.fuelLeftMain
        = some (ec.simVars.fuelLeftPre / ec.simVars.fuelWeightGallon)
      ∧ (updateFuel ec dts).simObject.fuelRightMain
        = some (ec.simVars.fuelRightPre / ec.simVars.fuelWeightGallon)
      ∧ (updateFuel ec dts).simObject.fuelLeftAux
        = some (ec.simVars.fuelAuxLeftPre / ec.simVars.fuelWeightGallon)
      ∧ (updateFuel ec dts).simObject.fuelRightAux
        = some (ec.simVars.fuelAuxRightPre / ec.simVars.fuelWeightGallon)) := by
  have ht := uiFuelTamper_of_rate ec.simVars dts hready hrefuel hrate
  have hb : (ec.simPaused || (uiFuelTamper ec.simVars dts
      && decide (ec.simVars.developerState = 0))) = true := by
    rcases hdev with h | h
    · simp [ht, h]
    · simp [h]
  simp only [updateFuel, fuelBranch, hb, if_true, and_self]

/-- Witness of `c9_tamper`: the bus of the counterexample with the ready flag at 1
and developer state 0. -/
theorem c9_tamper_witness :
    ((updateFuel (ecOver (svFuel 1000 1 0)) 1).simVars.fuelLeftPre
        = (ecOver (svFuel 1000 1 0)).simVars.fuelLeftPre
      ∧ (updateFuel (ecOver (svFuel 1000 1 0)) 1).simVars.fuelRightPre
        = (ecOver (svFuel 1000 1 0)).simVars.fuelRightPre
      ∧ (updateFuel (ecOver (svFuel 1000 1 0)) 1).simVars.fuelAuxLeftPre
        = (ecOver (svFuel 1000 1 0)).simVars.fuelAuxLeftPre
      ∧ (updateFuel (ecOver (svFuel 1000 1 0)) 1).simVars.fuelAuxRightPre
        = (ecOver (svFuel 1000 1 0)).simVars.fuelAuxRightPre
      ∧ (updateFuel (ecOver (svFuel 1000 1 0)) 1).simVars.fuelCenterPre
        = (ecOver (svFuel 1000 1 0)).simVars.fuelCenterPre
      ∧ (updateFuel (ecOver (svFuel 1000 1 0)) 1).simVars.fuelTrimPre
        = (ecOver (svFuel 1000 1 0)).simVars.fuelTrimPre)
    ∧ ((updateFuel (ecOver (svFuel 1000 1 0)) 1).simObject.fuelCenterMain
        = some ((ecOver (svFuel 1000 1 0)).simVars.fuelCenterPre
            / (ecOver (svFuel 1000 1 0)).simVars.fuelWeightGallon)
      ∧ (updateFuel (ecOver (svFuel 1000 1 0)) 1).simObject.fuelLeftMain
        = some ((ecOver (svFuel 1000 1 0)).simVars.fuelLeftPre
            / (ecOver (svFuel 1000 1 0)).simVars.fuelWeightGallon)
      ∧ (updateFuel (ecOver (svFuel 1000 1 0)) 1).simObject.fuelRightMain
        = some ((ecOver (svFuel 1000 1 0)).simVars.fuelRightPre
            / (ecOver (svFuel 1000 1 0)).simVars.fuelWeightGallon)
      ∧ (updateFuel (ecOver (svFuel 1000 1 0)) 1).simObject.fuelLeftAux
        = some ((ecOver (svFuel 1000 1 0)).simVars.fuelAuxLeftPre
            / (ecOver (svFuel 1000 1 0)).simVars.fuelWeightGallon)
      ∧ (updateFuel (ecOver (svFuel 1000 1 0)) 1).simObject.fuelRightAux
        = some ((ecOver (svFuel 1000 1 0)).simVars.fuelAuxRightPre
            / (ecOver (svFuel 1000 1 0)).simVars.fuelWeightGallon)) :=
  c9_tamper (ecOver (svFuel 1000 1 0)) 1 rfl rfl
    (by norm_num [deltaFuelRate, fuelTotalActual, fuelTotalPre, leftQuantity, rightQuantity,
      leftAuxQuantity, rightAuxQuantity, centerQuantity, svFuel, svZero, ecOver,
      FUEL_THRESHOLD])
    (Or.inl rfl)

/-- The cycle fuel burn is the trapezoid between the previous and the current
flow when the delta time is not zero. -/
theorem cycleFuelBurn_trapezoid (ff preFF dt : ℚ) (hdt : dt ≠ 0) :
    cycleFuelBurn ff preFF dt = (preFF + ff) / 2 * dt := by
  unfold cycleFuelBurn
  field_simp
  ring

/-- C10: on a conservation tick (not paused, not classified as tamper, no user
refuel, delta time > 0, developer state ≠ 2) with the cross-feed valve closed, no
aux transfer valve and no centre-to-wing valve open and both committed main
quantities > 0, the new committed left quantity is
`fuelLeftPre − ((engine1PreFF + engine1FF)/2 · dt/3600) · KGS_TO_LBS
  − lineFlow(18) · fuelWeightGallon · dt/3600`
and the new committed right quantity is
`fuelRightPre − ((engine2PreFF + engine2FF)/2 · dt/3600) · KGS_TO_LBS`. -/
theorem c10_mass_conservation (ec : EngineControl) (dts : ℚ)
    (hpause : ec.simPaused = false) (htamper : uiFuelTamper ec.simVars dts = false)
    (hrefuel : ec.simVars.refuelStartedByUser ≠ 1) (hdt : 0 < dts)
    (hdev : ec.simVars.developerState ≠ 2)
    (hxfeed : ¬ ec.simVars.valve 3 > 0)
    (hauxL : ¬ (ec.simVars.valve 6 > 0 ∨ ec.simVars.valve 4 > 0))
    (hauxR : ¬ (ec.simVars.valve 7 > 0 ∨ ec.simVars.valve 5 > 0))
    (hcl : xfrValveCenterLeftOpen ec.simVars = false)
    (hcr : xfrValveCenterRightOpen ec.simVars = false)
    (hleft : 0 < ec.simVars.fuelLeftPre) (hright : 0 < ec.simVars.fuelRightPre) :
    (updateFuel ec dts).simVars.fuelLeftPre
      = ec.simVars.fuelLeftPre
        - ((ec.simVars.engine1PreFF + ec.simVars.engine1FF) / 2 * (dts / 3600)) * KGS_TO_LBS
        - (ec.simVars.lineFlow 18 * ec.simVars.fuelWeightGallon * (dts / 3600))
    ∧ (updateFuel ec dts).simVars.fuelRightPre
      = ec.simVars.fuelRightPre
        - ((ec.simVars.engine2PreFF + ec.simVars.engine2FF) / 2 * (dts / 3600)) * KGS_TO_LBS := by
  have hdt' : dts / 3600 ≠ 0 := by positivity
  have hl : ec.simVars.fuelLeftPre > 0 := hleft
  have hr : ec.simVars.fuelRightPre > 0 := hright
  have hx : crossFeedLogic (ec.simVars.valve 3) (ec.simVars.pump 2) (ec.simVars.pump 5)
      (ec.simVars.pump 3) (ec.simVars.pump 6) = 0 := by
    simp only [crossFeedLogic, hxfeed, if_false]
  simp only [updateFuel, fuelBranch, hpause, htamper, hrefuel, conservationStep, hx, hl, hr,
    hdev, hauxL, hauxR, hcl, hcr, centerTransfer, crossFeedBurn,
    cycleFuelBurn_trapezoid _ _ _ hdt', Bool.false_or, Bool.false_and, Bool.not_false,
    Bool.true_and, decide_eq_true_eq, if_true, if_false, ne_eq, not_false_eq_true,
    Bool.false_eq_true, zero_ne_one, OfNat.zero_ne_ofNat]
  constructor <;> ring

/-- Witness of `c10_mass_conservation`: one second, flows 1800 → 3600 kg/h on
engine 1 and 3600 kg/h on engine 2, APU line flow 36, all valves closed. -/
theorem c10_mass_conservation_witness :
    (updateFuel (ecOver (svFuel 100 0 0)) 1).simVars.fuelLeftPre
      = (ecOver (svFuel 100 0 0)).simVars.fuelLeftPre
        - (((ecOver (svFuel 100 0 0)).simVars.engine1PreFF
            + (ecOver (svFuel 100 0 0)).simVars.engine1FF) / 2 * (1 / 3600)) * KGS_TO_LBS
        - ((ecOver (svFuel 100 0 0)).simVars.lineFlow 18
            * (ecOver (svFuel 100 0 0)).simVars.fuelWeightGallon * (1 / 3600))
    ∧ (updateFuel (ecOver (svFuel 100 0 0)) 1).simVars.fuelRightPre
      = (ecOver (svFuel 100 0 0)).simVars.fuelRightPre
        - (((ecOver (svFuel 100 0 0)).simVars.engine2PreFF
            + (ecOver (svFuel 100 0 0)).simVars.engine2FF) / 2 * (1 / 3600)) * KGS_TO_LBS :=
  c10_mass_conservation (ecOver (svFuel 100 0 0)) 1 rfl
    (by simp [uiFuelTamper, svFuel, svZero, ecOver])
    (by norm_num [svFuel, svZero, ecOver])
    (by norm_num)
    (by norm_num [svFuel, svZero, ecOver])
    (by norm_num [svFuel, svZero, ecOver])
    (by norm_num [svFuel, svZero, ecOver])
    (by norm_num [svFuel, svZero, ecOver])
    (by simp [xfrValveCenterLeftOpen, svFuel, svZero, ecOver])
    (by simp [xfrValveCenterRightOpen, svFuel, svZero, ecOver])
    (by norm_num [svFuel, svZero, ecOver])
    (by norm_num [svFuel, svZero, ecOver])

/-! ### Claims about the update cycle -/

/-- Every block of the state machine leaves `simPaused` as it finds it. -/
theorem presentState_simPaused (ig st n3 idle egt amb : ℚ) (v : EsmVars) :
    (presentStateOff ig st n3 v).simPaused = v.simPaused
    ∧ (presentStateOn st v).simPaused = v.simPaused
    ∧ (presentStateStarting st n3 idle v).simPaused = v.simPaused
    ∧ (presentStateRestarting st n3 idle v).simPaused = v.simPaused
    ∧ (presentStateShutting ig st n3 egt amb v).simPaused = v.simPaused := by
  refine ⟨?_, ?_, ?_, ?_, ?_⟩
  · unfold presentStateOff; split_ifs <;> rfl
  · unfold presentStateOn; split_ifs <;> rfl
  · unfold presentStateStarting; split_ifs <;> rfl
  · unfold presentStateRestarting; split_ifs <;> rfl
  · unfold presentStateShutting; split_ifs <;> rfl

/-- After `engineStateMachine` the member `simPaused` tells whether the delta-time
difference was `0`. -/
theorem esm_simPaused (ec : EngineControl) (engine : ℤ) (ig st n3 idle alt amb dtd : ℚ) :
    (engineStateMachine ec engine ig st n3 idle alt amb dtd).simPaused = decide (dtd = 0) := by
  simp only [engineStateMachine, esmBody]
  by_cases hd : dtd = 0
  · simp only [hd, true_and, decide_True]
    split_ifs with h1 h2
    · rfl
    · rfl
    · exact absurd (not_lt.mp h1) h2
  · simp only [hd, false_and, if_false, decide_False]
    rw [(presentState_simPaused ig st n3 idle _ amb _).2.2.2.2,
      (presentState_simPaused ig st n3 idle 0 amb _).2.2.2.1,
      (presentState_simPaused ig st n3 idle 0 amb _).2.2.1,
      (presentState_simPaused ig st n3 idle 0 amb _).2.1,
      (presentState_simPaused ig st n3 idle 0 amb _).1]

/-- `generateIdleParameters` changes neither `simPaused`, nor
`animationDeltaTime`, nor the fields of `pauseView`. -/
theorem generateIdleParameters_frame (lib : Library) (ec : EngineControl) (a m t p : ℚ) :
    (generateIdleParameters lib ec a m t p).simPaused = ec.simPaused
    ∧ (generateIdleParameters lib ec a m t p).animationDeltaTime = ec.animationDeltaTime
    ∧ pauseView (generateIdleParameters lib ec a m t p).simVars = pauseView ec.simVars :=
  ⟨rfl, rfl, rfl⟩

/-- `engineStartProcedure` changes neither `simPaused` nor `animationDeltaTime`. -/
theorem engineStartProcedure_frame (lib : Library) (ec : EngineControl) (engine : ℤ)
    (es im dt tm n3 alt amb : ℚ) :
    (engineStartProcedure lib ec engine es im dt tm n3 alt amb).simPaused = ec.simPaused
    ∧ (engineStartProcedure lib ec engine es im dt tm n3 alt amb).animationDeltaTime
      = ec.animationDeltaTime := by
  simp only [engineStartProcedure]
  split_ifs <;> exact ⟨rfl, rfl⟩

/-- `engineShutdownProcedure` changes neither `simPaused` nor `animationDeltaTime`. -/
theorem engineShutdownProcedure_frame (lib : Library) (ec : EngineControl) (engine : ℤ)
    (amb n1 dt tm : ℚ) :
    (engineShutdownProcedure lib ec engine amb n1 dt tm).simPaused = ec.simPaused
    ∧ (engineShutdownProcedure lib ec engine amb n1 dt tm).animationDeltaTime
      = ec.animationDeltaTime := by
  simp only [engineShutdownProcedure]
  split_ifs <;> exact ⟨rfl, rfl⟩

/-- `updatePrimaryParameters` changes neither `simPaused`, nor
`animationDeltaTime`, nor the fields of `pauseView`. -/
theorem updatePrimaryParameters_frame (lib : Library) (ec : EngineControl) (engine : ℤ)
    (im n1 n2 : ℚ) :
    (updatePrimaryParameters lib ec engine im n1 n2).simPaused = ec.simPaused
    ∧ (updatePrimaryParameters lib ec engine im n1 n2).animationDeltaTime
      = ec.animationDeltaTime
    ∧ pauseView (updatePrimaryParameters lib ec engine im n1 n2).simVars
      = pauseView ec.simVars := by
  refine ⟨rfl, rfl, ?_⟩
  simp only [updatePrimaryParameters]
  split_ifs <;> rfl

/-- `updateFF` changes neither `simPaused`, nor `animationDeltaTime`, nor the
fields of `pauseView`. -/
theorem updateFF_frame (lib : Library) (ec : EngineControl) (engine : ℤ)
    (im cn1 m alt amb p : ℚ) :
    (updateFF lib ec engine im cn1 m alt amb p).1.simPaused = ec.simPaused
    ∧ (updateFF lib ec engine im cn1 m alt amb p).1.animationDeltaTime = ec.animationDeltaTime
    ∧ pauseView (updateFF lib ec engine im cn1 m alt amb p).1.simVars = pauseView ec.simVars := by
  refine ⟨rfl, rfl, ?_⟩
  simp only [updateFF]
  split_ifs <;> rfl

/-- `updateEGT` changes neither `simPaused`, nor `animationDeltaTime`, nor the
fields of `pauseView`. -/
theorem updateEGT_frame (lib : Library) (ec : EngineControl) (engine : ℤ)
    (im dt g es cn1 ff m alt amb : ℚ) :
    (updateEGT lib ec engine im dt g es cn1 ff m alt amb).simPaused = ec.simPaused
    ∧ (updateEGT lib ec engine im dt g es cn1 ff m alt amb).animationDeltaTime
      = ec.animationDeltaTime
    ∧ pauseView (updateEGT lib ec engine im dt g es cn1 ff m alt amb).simVars
      = pauseView ec.simVars := by
  refine ⟨rfl, rfl, ?_⟩
  simp only [updateEGT]
  split_ifs <;> rfl

/-- `updateThrustLimits` changes neither `simPaused` nor the fields of
`pauseView` nor the data pushed to the host. -/
theorem updateThrustLimits_frame (lib : Library) (ec : EngineControl)
    (t alt amb p m h pk na wa : ℚ) :
    (updateThrustLimits lib ec t alt amb p m h pk na wa).simPaused = ec.simPaused
    ∧ pauseView (updateThrustLimits lib ec t alt amb p m h pk na wa).simVars
      = pauseView ec.simVars
    ∧ (updateThrustLimits lib ec t alt amb p m h pk na wa).simObject = ec.simObject :=
  ⟨rfl, rfl, rfl⟩

/-- `updateFuel` does not change `simPaused`. -/
theorem updateFuel_simPaused (ec : EngineControl) (dts : ℚ) :
    (updateFuel ec dts).simPaused = ec.simPaused := rfl

/-- The call of `updateFF` in `update` changes neither `simPaused`, nor
`animationDeltaTime`, nor the fields of `pauseView`. -/
theorem callUpdateFF_frame (lib : Library) (ec : EngineControl) (engine : ℤ) :
    (callUpdateFF lib ec engine).simPaused = ec.simPaused
    ∧ (callUpdateFF lib ec engine).animationDeltaTime = ec.animationDeltaTime
    ∧ pauseView (callUpdateFF lib ec engine).simVars = pauseView ec.simVars :=
  updateFF_frame lib ec engine ec.imbalance ec.simCN1 ec.mach ec.pressAltitude ec.ambientTemp
    ec.ambientPressure

/-- The call of `updateEGT` in `update` changes neither `simPaused`, nor
`animationDeltaTime`, nor the fields of `pauseView`. -/
theorem callUpdateEGT_frame (lib : Library) (ec : EngineControl) (engine : ℤ) (dt : ℚ) :
    (callUpdateEGT lib ec engine dt).simPaused = ec.simPaused
    ∧ (callUpdateEGT lib ec engine dt).animationDeltaTime = ec.animationDeltaTime
    ∧ pauseView (callUpdateEGT lib ec engine dt).simVars = pauseView ec.simVars :=
  updateEGT_frame lib ec engine ec.imbalance dt ec.simOnGround ec.engineState ec.simCN1
    ec.cFbwFF ec.mach ec.pressAltitude ec.ambientTemp

/-- `case 4` of the dispatch changes neither `simPaused` nor `animationDeltaTime`. -/
theorem caseShutdown_frame (lib : Library) (ec : EngineControl) (engine : ℤ) (dt : ℚ) :
    (caseShutdown lib ec engine dt).simPaused = ec.simPaused
    ∧ (caseShutdown lib ec engine dt).animationDeltaTime = ec.animationDeltaTime := by
  unfold caseShutdown
  rw [(callUpdateFF_frame _ _ _).1, (callUpdateFF_frame _ _ _).2.1]
  exact engineShutdownProcedure_frame _ _ _ _ _ _ _

/-- The `default` case of the dispatch changes neither `simPaused`, nor
`animationDeltaTime`, nor the fields of `pauseView`. -/
theorem caseDefault_frame (lib : Library) (ec : EngineControl) (engine : ℤ) (dt : ℚ) :
    (caseDefault lib ec engine dt).simPaused = ec.simPaused
    ∧ (caseDefault lib ec engine dt).animationDeltaTime = ec.animationDeltaTime
    ∧ pauseView (caseDefault lib ec engine dt).simVars = pauseView ec.simVars := by
  unfold caseDefault
  rw [(callUpdateEGT_frame _ _ _ _).1, (callUpdateEGT_frame _ _ _ _).2.1,
    (callUpdateEGT_frame _ _ _ _).2.2, (callUpdateFF_frame _ _ _).1,
    (callUpdateFF_frame _ _ _).2.1, (callUpdateFF_frame _ _ _).2.2]
  exact updatePrimaryParameters_frame _ _ _ _ _ _

/-- The dispatch changes neither `simPaused` nor `animationDeltaTime`. -/
theorem updateEngineDispatch_frame (lib : Library) (ec : EngineControl) (engine : ℤ) (dt : ℚ) :
    (updateEngineDispatch lib ec engine dt).simPaused = ec.simPaused
    ∧ (updateEngineDispatch lib ec engine dt).animationDeltaTime = ec.animationDeltaTime := by
  unfold updateEngineDispatch
  split_ifs
  · exact engineStartProcedure_frame _ _ _ _ _ _ _ _ _ _
  · exact caseShutdown_frame _ _ _ _
  · exact ⟨(caseDefault_frame _ _ _ _).1, (caseDefault_frame _ _ _ _).2.1⟩

/-- `updateEngineState` changes neither `simPaused`, nor `animationDeltaTime`, nor
the bus. -/
theorem updateEngineState_frame (ec : EngineControl) (engine : ℤ) :
    (updateEngineState ec engine).simPaused = ec.simPaused
    ∧ (updateEngineState ec engine).animationDeltaTime = ec.animationDeltaTime
    ∧ (updateEngineState ec engine).simVars = ec.simVars := by
  unfold updateEngineState
  split_ifs <;> exact ⟨rfl, rfl, rfl⟩

/-- After the loop body of `update` for one engine, `simPaused` tells whether the
animation delta time differs from the previous one, and `animationDeltaTime` is
unchanged. -/
theorem updateEngine_simPaused (lib : Library) (ec : EngineControl) (engine : ℤ)
    (dt prev hi : ℚ) :
    (updateEngine lib ec engine dt prev hi).1.simPaused
      = decide (ec.animationDeltaTime - prev = 0)
    ∧ (updateEngine lib ec engine dt prev hi).1.animationDeltaTime = ec.animationDeltaTime := by
  unfold updateEngine
  refine ⟨?_, ?_⟩
  · show (updateEngineDispatch _ _ _ _).simPaused = _
    rw [(updateEngineDispatch_frame _ _ _ _).1, (updateEngineState_frame _ _).1, esm_simPaused]
    rfl
  · show (updateEngineDispatch _ _ _ _).animationDeltaTime = _
    rw [(updateEngineDispatch_frame _ _ _ _).2, (updateEngineState_frame _ _).2.1]
    rfl

/-- After the loop of `update`, `simPaused` tells whether the animation delta time
read on this tick equals the one kept from the previous tick. -/
theorem updateLoop_simPaused (lib : Library) (ec : EngineControl) (deltaTime : ℚ) :
    (updateLoop lib ec deltaTime).1.simPaused
      = decide (ec.simVars.animDeltaTime - ec.animationDeltaTime = 0) := by
  show (updateEngine _ _ _ _ _ _).1.simPaused = _
  rw [(updateEngine_simPaused _ _ _ _ _ _).1, (updateEngine_simPaused _ _ _ _ _ _).2]
  rfl

/-- After `update`, `simPaused` tells whether the animation delta time read on
this tick equals the one kept from the previous tick. -/
theorem update_simPaused (lib : Library) (ec : EngineControl) (deltaTime simulationTime : ℚ) :
    (update lib ec deltaTime simulationTime).simPaused
      = decide (ec.simVars.animDeltaTime - ec.animationDeltaTime = 0) :=
  updateLoop_simPaused lib ec deltaTime

/-- Truncation keeps a value of at least 10 at 10 or more. -/
theorem truncInt_ge_ten (q : ℚ) (h : 10 ≤ q) : 10 ≤ truncInt q := by
  unfold truncInt
  rw [if_pos (by linarith)]
  exact Int.le_floor.mpr (by exact_mod_cast h)

/-- A paused call of the state machine for engine 1, seen through `pauseView`. -/
theorem esm_paused_view_1 (ec : EngineControl) (ig st n3 idle alt amb : ℚ) :
    pauseView (engineStateMachine ec 1 ig st n3 idle alt amb 0).simVars
      = ((if ec.simVars.engine1State < 10 then ec.simVars.engine1State + 10
            else ec.simVars.engine1State),
          ec.simVars.engine2State, ec.simVars.fuelLeftPre, ec.simVars.fuelRightPre,
          ec.simVars.fuelAuxLeftPre, ec.simVars.fuelAuxRightPre, ec.simVars.fuelCenterPre,
          ec.simVars.fuelTrimPre, ec.simVars.fuelWeightGallon) := by
  simp only [engineStateMachine, esmRead, esmWrite, esmBody_paused, pauseView, if_true,
    zero_ne_one, if_false]

/-- A paused call of the state machine for engine 2, seen through `pauseView`. -/
theorem esm_paused_view_2 (ec : EngineControl) (ig st n3 idle alt amb : ℚ) :
    pauseView (engineStateMachine ec 2 ig st n3 idle alt amb 0).simVars
      = (ec.simVars.engine1State,
          (if ec.simVars.engine2State < 10 then ec.simVars.engine2State + 10
            else ec.simVars.engine2State),
          ec.simVars.fuelLeftPre, ec.simVars.fuelRightPre,
          ec.simVars.fuelAuxLeftPre, ec.simVars.fuelAuxRightPre, ec.simVars.fuelCenterPre,
          ec.simVars.fuelTrimPre, ec.simVars.fuelWeightGallon) := by
  have h21 : ¬ ((2 : ℤ) = 1) := by decide
  simp only [engineStateMachine, esmRead, esmWrite, esmBody_paused, pauseView, if_true,
    zero_ne_one, if_false, h21]

/-- With the member `engineState` at 10 or more the dispatch takes the
`default` case. -/
theorem updateEngineDispatch_default (lib : Library) (ec : EngineControl) (engine : ℤ) (dt : ℚ)
    (h : 10 ≤ ec.engineState) :
    updateEngineDispatch lib ec engine dt = caseDefault lib ec engine dt := by
  have ht := truncInt_ge_ten ec.engineState h
  unfold updateEngineDispatch
  rw [if_neg (by omega), if_neg (by omega)]

/-- After `updateEngineState` the member `engineState` is the state of the engine
on the bus. -/
theorem updateEngineState_engineState (ec : EngineControl) (engine : ℤ) :
    (updateEngineState ec engine).engineState = engineStateOf ec.simVars engine := by
  unfold updateEngineState engineStateOf
  split_ifs <;> rfl

/-- The state after a paused call is at least 10 when the state before is not
negative. -/
theorem shadow_ge_ten (s : ℚ) (h0 : 0 ≤ s) : 10 ≤ (if s < 10 then s + 10 else s) := by
  split_ifs with h
  · linarith
  · exact not_lt.mp h

/-- The loop body of `update` for engine 1 on a paused tick, seen through
`pauseView`: only the state of engine 1 changes, by the offset when it is below 10. -/
theorem updateEngine_paused_1 (lib : Library) (ec : EngineControl) (dt prev hi : ℚ)
    (h : ec.animationDeltaTime - prev = 0) (h0 : 0 ≤ ec.simVars.engine1State) :
    pauseView (updateEngine lib ec 1 dt prev hi).1.simVars
      = ((if ec.simVars.engine1State < 10 then ec.simVars.engine1State + 10
            else ec.simVars.engine1State),
          ec.simVars.engine2State, ec.simVars.fuelLeftPre, ec.simVars.fuelRightPre,
          ec.simVars.fuelAuxLeftPre, ec.simVars.fuelAuxRightPre, ec.simVars.fuelCenterPre,
          ec.simVars.fuelTrimPre, ec.simVars.fuelWeightGallon) := by
  have hd : (updateEngineRead ec 1).animationDeltaTime - prev = 0 := h
  have hv := esm_paused_view_1 (updateEngineRead ec 1) (updateEngineRead ec 1).engineIgniter
    (updateEngineRead ec 1).engineStarter (updateEngineRead ec 1).simN3
    (updateEngineRead ec 1).idleN3 (updateEngineRead ec 1).pressAltitude
    (updateEngineRead ec 1).ambientTemp
  have hsv : (updateEngineRead ec 1).simVars = ec.simVars := rfl
  rw [hsv] at hv
  unfold updateEngine
  simp only [hd]
  have hst : 10 ≤ (updateEngineState (engineStateMachine (updateEngineRead ec 1) 1
      (updateEngineRead ec 1).engineIgniter (updateEngineRead ec 1).engineStarter
      (updateEngineRead ec 1).simN3 (updateEngineRead ec 1).idleN3
      (updateEngineRead ec 1).pressAltitude (updateEngineRead ec 1).ambientTemp 0) 1).engineState := by
    rw [updateEngineState_engineState]
    have := congrArg Prod.fst hv
    simp only [pauseView] at this
    simp only [engineStateOf, if_true]
    rw [this]
    exact shadow_ge_ten _ h0
  rw [updateEngineDispatch_default _ _ _ _ hst, (caseDefault_frame _ _ _ _).2.2,
    (updateEngineState_frame _ _).2.2, hv]

/-- The loop body of `update` for engine 2 on a paused tick, seen through
`pauseView`: only the state of engine 2 changes, by the offset when it is below 10. -/
theorem updateEngine_paused_2 (lib : Library) (ec : EngineControl) (dt prev hi : ℚ)
    (h : ec.animationDeltaTime - prev = 0) (h0 : 0 ≤ ec.simVars.engine2State) :
    pauseView (updateEngine lib ec 2 dt prev hi).1.simVars
      = (ec.simVars.engine1State,
          (if ec.simVars.engine2State < 10 then ec.simVars.engine2State + 10
            else ec.simVars.engine2State),
          ec.simVars.fuelLeftPre, ec.simVars.fuelRightPre,
          ec.simVars.fuelAuxLeftPre, ec.simVars.fuelAuxRightPre, ec.simVars.fuelCenterPre,
          ec.simVars.fuelTrimPre, ec.simVars.fuelWeightGallon) := by
  have hd : (updateEngineRead ec 2).animationDeltaTime - prev = 0 := h
  have hv := esm_paused_view_2 (updateEngineRead ec 2) (updateEngineRead ec 2).engineIgniter
    (updateEngineRead ec 2).engineStarter (updateEngineRead ec 2).simN3
    (updateEngineRead ec 2).idleN3 (updateEngineRead ec 2).pressAltitude
    (updateEngineRead ec 2).ambientTemp
  have hsv : (updateEngineRead ec 2).simVars = ec.simVars := rfl
  rw [hsv] at hv
  unfold updateEngine
  simp only [hd]
  have hst : 10 ≤ (updateEngineState (engineStateMachine (updateEngineRead ec 2) 2
      (updateEngineRead ec 2).engineIgniter (updateEngineRead ec 2).engineStarter
      (updateEngineRead ec 2).simN3 (updateEngineRead ec 2).idleN3
      (updateEngineRead ec 2).pressAltitude (updateEngineRead ec 2).ambientTemp 0) 2).engineState := by
    rw [updateEngineState_engineState]
    have := congrArg (fun v => v.2.1) hv
    simp only [pauseView] at this
    have h21 : ¬ ((2 : ℤ) = 1) := by decide
    simp only [engineStateOf, h21, if_false]
    rw [this]
    exact shadow_ge_ten _ h0
  rw [updateEngineDispatch_default _ _ _ _ hst, (caseDefault_frame _ _ _ _).2.2,
    (updateEngineState_frame _ _).2.2, hv]

/-- The loop of `update` on a paused tick, seen through `pauseView`: each engine
state below 10 gets the offset, the committed quantities and the fuel weight per
gallon are unchanged. -/
theorem updateLoop_paused (lib : Library) (ec : EngineControl) (deltaTime : ℚ)
    (h : ec.simVars.animDeltaTime - ec.animationDeltaTime = 0)
    (h1 : 0 ≤ ec.simVars.engine1State) (h2 : 0 ≤ ec.simVars.engine2State) :
    pauseView (updateLoop lib ec deltaTime).1.simVars
      = ((if ec.simVars.engine1State < 10 then ec.simVars.engine1State + 10
            else ec.simVars.engine1State),
          (if ec.simVars.engine2State < 10 then ec.simVars.engine2State + 10
            else ec.simVars.engine2State),
          ec.simVars.fuelLeftPre, ec.simVars.fuelRightPre,
          ec.simVars.fuelAuxLeftPre, ec.simVars.fuelAuxRightPre, ec.simVars.fuelCenterPre,
          ec.simVars.fuelTrimPre, ec.simVars.fuelWeightGallon) := by
  have e1 := updateEngine_paused_1 lib (callGenerateIdleParameters lib (updateRead ec))
    deltaTime ec.animationDeltaTime 0 h h1
  have e1s := (updateEngine_simPaused lib (callGenerateIdleParameters lib (updateRead ec)) 1
    deltaTime ec.animationDeltaTime 0).2
  have hg : (callGenerateIdleParameters lib (updateRead ec)).simVars.engine2State
      = ec.simVars.engine2State := rfl
  have h2' : 0 ≤ (updateEngine lib (callGenerateIdleParameters lib (updateRead ec)) 1
      deltaTime ec.animationDeltaTime 0).1.simVars.engine2State := by
    have := congrArg (fun v => v.2.1) e1
    simp only [pauseView] at this
    rw [this, hg]
    exact h2
  have e2 := updateEngine_paused_2 lib
    (updateEngine lib (callGenerateIdleParameters lib (updateRead ec)) 1
      deltaTime ec.animationDeltaTime 0).1 deltaTime ec.animationDeltaTime
    (updateEngine lib (callGenerateIdleParameters lib (updateRead ec)) 1
      deltaTime ec.animationDeltaTime 0).2 (by rw [e1s]; exact h) h2'
  show pauseView (updateEngine _ _ _ _ _ _).1.simVars = _
  rw [e2]
  simp only [pauseView, Prod.mk.injEq] at e1
  obtain ⟨a1, a2, a3, a4, a5, a6, a7, a8, a9⟩ := e1
  rw [a1, a2, a3, a4, a5, a6, a7, a8, a9]
  rfl

/-- `updateFuel` with `simPaused` set: the fields of `pauseView` are unchanged and
the five quantities pushed to the host are the committed ones divided by the fuel
weight per gallon. -/
theorem updateFuel_paused (ec : EngineControl) (dts : ℚ) (h : ec.simPaused = true) :
    pauseView (updateFuel ec dts).simVars = pauseView ec.simVars
    ∧ (updateFuel ec dts).simObject.fuelCenterMain
        = some (ec.simVars.fuelCenterPre / ec.simVars.fuelWeightGallon)
    ∧ (updateFuel ec dts).simObject.fuelLeftMain
        = some (ec.simVars.fuelLeftPre / ec.simVars.fuelWeightGallon)
    ∧ (updateFuel ec dts).simObject.fuelRightMain
        = some (ec.simVars.fuelRightPre / ec.simVars.fuelWeightGallon)
    ∧ (updateFuel ec dts).simObject.fuelLeftAux
        = some (ec.simVars.fuelAuxLeftPre / ec.simVars.fuelWeightGallon)
    ∧ (updateFuel ec dts).simObject.fuelRightAux
        = some (ec.simVars.fuelAuxRightPre / ec.simVars.fuelWeightGallon) := by
  simp only [updateFuel, fuelBranch, h, Bool.true_or, if_true, pauseView, and_self]

/-- `update` on a tick whose animation delta time equals the previous one, with
engine states that are not negative: each engine state below 10 gets the offset,
the committed quantities are unchanged, and the quantities pushed to the host are
the committed ones divided by the fuel weight per gallon. -/
theorem update_paused (lib : Library) (ec : EngineControl) (deltaTime simulationTime : ℚ)
    (h : ec.simVars.animDeltaTime - ec.animationDeltaTime = 0)
    (h1 : 0 ≤ ec.simVars.engine1State) (h2 : 0 ≤ ec.simVars.engine2State) :
    pauseView (update lib ec deltaTime simulationTime).simVars
      = ((if ec.simVars.engine1State < 10 then ec.simVars.engine1State + 10
            else ec.simVars.engine1State),
          (if ec.simVars.engine2State < 10 then ec.simVars.engine2State + 10
            else ec.simVars.engine2State),
          ec.simVars.fuelLeftPre, ec.simVars.fuelRightPre,
          ec.simVars.fuelAuxLeftPre, ec.simVars.fuelAuxRightPre, ec.simVars.fuelCenterPre,
          ec.simVars.fuelTrimPre, ec.simVars.fuelWeightGallon)
    ∧ (update lib ec deltaTime simulationTime).simObject.fuelCenterMain
        = some (ec.simVars.fuelCenterPre / ec.simVars.fuelWeightGallon)
    ∧ (update lib ec deltaTime simulationTime).simObject.fuelLeftMain
        = some (ec.simVars.fuelLeftPre / ec.simVars.fuelWeightGallon)
    ∧ (update lib ec deltaTime simulationTime).simObject.fuelRightMain
        = some (ec.simVars.fuelRightPre / ec.simVars.fuelWeightGallon)
    ∧ (update lib ec deltaTime simulationTime).simObject.fuelLeftAux
        = some (ec.simVars.fuelAuxLeftPre / ec.simVars.fuelWeightGallon)
    ∧ (update lib ec deltaTime simulationTime).simObject.fuelRightAux
        = some (ec.simVars.fuelAuxRightPre / ec.simVars.fuelWeightGallon) := by
  have hp : (updateLoop lib ec deltaTime).1.simPaused = true := by
    rw [updateLoop_simPaused]
    exact decide_eq_true h
  have hl := updateLoop_paused lib ec deltaTime h h1 h2
  have hf := updateFuel_paused (updateLoop lib ec deltaTime).1 deltaTime hp
  have hv := hl
  simp only [pauseView, Prod.mk.injEq] at hv
  obtain ⟨-, -, a3, a4, a5, a6, a7, a8, a9⟩ := hv
  unfold update callUpdateThrustLimits
  rw [(updateThrustLimits_frame _ _ _ _ _ _ _ _ _ _ _).2.1,
    (updateThrustLimits_frame _ _ _ _ _ _ _ _ _ _ _).2.2, hf.1, hl]
  obtain ⟨-, f1, f2, f3, f4, f5⟩ := hf
  rw [f1, f2, f3, f4, f5, a3, a4, a5, a6, a7, a9]
  exact ⟨rfl, rfl, rfl, rfl, rfl, rfl⟩

/-- C8 (refuted as stated): with the animation delta time of the host unchanged
(0 on this tick and on the previous one) the tick with `deltaTime = 1` is treated
as paused (`simPaused` set, engine 1 pushed from 0 to 10); and with the animation
delta time changed from 0 to 1/60 the tick with `deltaTime = 0` is not
(`simPaused` cleared). Moreover a negative engine state is not pushed into the
shadow: on `ecNegative` (engine 1 at `-7`, timer 2) the paused tick sets
`simPaused`, the state machine writes `-7 + 10 = 3`, the dispatch then runs the
start procedure for state 3, and the state of engine 1 ends at 2. -/
theorem c8_pause_signal_counterexample :
    ((1 : ℚ) ≠ 0
      ∧ (update libZero (ecOver (svFuel 100 1 0)) 1 0).simPaused = true
      ∧ (ecOver (svFuel 100 1 0)).simVars.engine1State = 0
      ∧ (update libZero (ecOver (svFuel 100 1 0)) 1 0).simVars.engine1State = 10)
    ∧ (update libZero (ecOver { svFuel 100 1 0 with animDeltaTime := 1 / 60 }) 0 0).simPaused
        = false
    ∧ (ecNegative.simVars.engine1State = -7
      ∧ (-7 : ℚ) < 10
      ∧ (update libZero ecNegative 1 0).simPaused = true
      ∧ (update libZero ecNegative 1 0).simVars.engine1State = 2
      ∧ (2 : ℚ) ≠ -7 + 10) := by
  have h : (ecOver (svFuel 100 1 0)).simVars.animDeltaTime
      - (ecOver (svFuel 100 1 0)).animationDeltaTime = 0 := by
    norm_num [ecOver, svFuel, svZero]
  have hv := (update_paused libZero (ecOver (svFuel 100 1 0)) 1 0 h
    (by norm_num [ecOver, svFuel, svZero]) (by norm_num [ecOver, svFuel, svZero])).1
  have h1 := congrArg Prod.fst hv
  simp only [pauseView] at h1
  have hn : ecNegative.simVars.animDeltaTime - ecNegative.animationDeltaTime = 0 := by
    norm_num [ecNegative, ecOver, svFuel, svZero]
  -- engine 1 of `ecNegative`: the loop body ends with the state at 2
  have hg : (callGenerateIdleParameters libZero (updateRead ecNegative)).animationDeltaTime
      - ecNegative.animationDeltaTime = 0 := by
    norm_num [callGenerateIdleParameters, generateIdleParameters, updateRead, ecNegative, ecOver,
      svFuel, svZero]
  have e1 : (updateEngine libZero (callGenerateIdleParameters libZero (updateRead ecNegative)) 1 1
      ecNegative.animationDeltaTime 0).1.simVars.engine1State = 2 := by
    norm_num [updateEngine, updateEngineRead, updateEngineState, updateEngineDispatch,
      engineStartProcedure, engineStateMachine, esmRead, esmWrite, esmBody,
      callGenerateIdleParameters, generateIdleParameters, updateRead, ecNegative, ecOver, svFuel,
      svZero, libZero, truncInt]
  have e1b : (updateEngine libZero (callGenerateIdleParameters libZero (updateRead ecNegative)) 1
      1 ecNegative.animationDeltaTime 0).1.simVars.engine2State = 0 := by
    norm_num [updateEngine, updateEngineRead, updateEngineState, updateEngineDispatch,
      engineStartProcedure, engineStateMachine, esmRead, esmWrite, esmBody,
      callGenerateIdleParameters, generateIdleParameters, updateRead, ecNegative, ecOver, svFuel,
      svZero, libZero, truncInt]
  have e1s := (updateEngine_simPaused libZero
    (callGenerateIdleParameters libZero (updateRead ecNegative)) 1 1
    ecNegative.animationDeltaTime 0).2
  have e2 := updateEngine_paused_2 libZero
    (updateEngine libZero (callGenerateIdleParameters libZero (updateRead ecNegative)) 1 1
      ecNegative.animationDeltaTime 0).1 1 ecNegative.animationDeltaTime
    (updateEngine libZero (callGenerateIdleParameters libZero (updateRead ecNegative)) 1 1
      ecNegative.animationDeltaTime 0).2 (by rw [e1s]; exact hg) (by rw [e1b])
  have hloop : (updateLoop libZero ecNegative 1).1.simVars.engine1State = 2 := by
    have := congrArg Prod.fst e2
    simp only [pauseView] at this
    show (updateEngine _ _ _ _ _ _).1.simVars.engine1State = 2
    rw [this, e1]
  have hp : (updateLoop libZero ecNegative 1).1.simPaused = true := by
    rw [updateLoop_simPaused]
    exact decide_eq_true hn
  have hfuel := congrArg Prod.fst (updateFuel_paused (updateLoop libZero ecNegative 1).1 1 hp).1
  simp only [pauseView] at hfuel
  have hthr := congrArg Prod.fst
    (updateThrustLimits_frame libZero (updateFuel (updateLoop libZero ecNegative 1).1 1) 0
      (updateFuel (updateLoop libZero ecNegative 1).1 1).pressAltitude
      (updateFuel (updateLoop libZero ecNegative 1).1 1).ambientTemp
      (updateFuel (updateLoop libZero ecNegative 1).1 1).ambientPressure
      (updateFuel (updateLoop libZero ecNegative 1).1 1).mach
      (updateLoop libZero ecNegative 1).2
      (updateFuel (updateLoop libZero ecNegative 1).1 1).packs
      (updateFuel (updateLoop libZero ecNegative 1).1 1).nai
      (updateFuel (updateLoop libZero ecNegative 1).1 1).wai).2.1
  simp only [pauseView] at hthr
  have hneg : (update libZero ecNegative 1 0).simVars.engine1State = 2 := by
    show (callUpdateThrustLimits libZero (updateFuel (updateLoop libZero ecNegative 1).1 1) 0
      (updateLoop libZero ecNegative 1).2).simVars.engine1State = 2
    unfold callUpdateThrustLimits
    rw [hthr, hfuel, hloop]
  refine ⟨⟨by norm_num, ?_, rfl, ?_⟩, ?_, rfl, by norm_num, ?_, hneg, by norm_num⟩
  · rw [update_simPaused]
    exact decide_eq_true h
  · rw [h1]
    norm_num [ecOver, svFuel, svZero]
  · rw [update_simPaused]
    norm_num [ecOver, svFuel, svZero]
  · rw [update_simPaused]
    exact decide_eq_true hn

/-- C8 (amended): when neither engine state is negative, a tick of `update` is
treated as paused (`simPaused` set) exactly when the animation delta time read from
the host on this tick equals the one read on the previous tick, whatever the
`deltaTime` argument is; on such a tick every engine state below 10 is pushed into
the +10 shadow, the six committed quantities are unchanged and the centre, main and
aux quantities pushed to the host are the committed ones divided by the fuel weight
per gallon. -/
theorem c8_pause_signal (lib : Library) (ec : EngineControl) (deltaTime simulationTime : ℚ)
    (h1 : 0 ≤ ec.simVars.engine1State) (h2 : 0 ≤ ec.simVars.engine2State) :
    ((update lib ec deltaTime simulationTime).simPaused = true
      ↔ ec.simVars.animDeltaTime = ec.animationDeltaTime)
    ∧ (ec.simVars.animDeltaTime = ec.animationDeltaTime →
        pauseView (update lib ec deltaTime simulationTime).simVars
          = ((if ec.simVars.engine1State < 10 then ec.simVars.engine1State + 10
                else ec.simVars.engine1State),
              (if ec.simVars.engine2State < 10 then ec.simVars.engine2State + 10
                else ec.simVars.engine2State),
              ec.simVars.fuelLeftPre, ec.simVars.fuelRightPre,
              ec.simVars.fuelAuxLeftPre, ec.simVars.fuelAuxRightPre, ec.simVars.fuelCenterPre,
              ec.simVars.fuelTrimPre, ec.simVars.fuelWeightGallon)
        ∧ (update lib ec deltaTime simulationTime).simObject.fuelCenterMain
            = some (ec.simVars.fuelCenterPre / ec.simVars.fuelWeightGallon)
        ∧ (update lib ec deltaTime simulationTime).simObject.fuelLeftMain
            = some (ec.simVars.fuelLeftPre / ec.simVars.fuelWeightGallon)
        ∧ (update lib ec deltaTime simulationTime).simObject.fuelRightMain
            = some (ec.simVars.fuelRightPre / ec.simVars.fuelWeightGallon)
        ∧ (update lib ec deltaTime simulationTime).simObject.fuelLeftAux
            = some (ec.simVars.fuelAuxLeftPre / ec.simVars.fuelWeightGallon)
        ∧ (update lib ec deltaTime simulationTime).simObject.fuelRightAux
            = some (ec.simVars.fuelAuxRightPre / ec.simVars.fuelWeightGallon)) := by
  refine ⟨?_, fun h => update_paused lib ec deltaTime simulationTime (sub_eq_zero.mpr h) h1 h2⟩
  rw [update_simPaused, decide_eq_true_eq, sub_eq_zero]

/-- Witness of `c8_pause_signal`: the bus `svFuel 100 1 0`, both engines OFF, the
animation delta time unchanged, `deltaTime = 1`. -/
theorem c8_pause_signal_witness :
    ((update libZero ecFuel 1 0).simPaused = true
      ↔ ecFuel.simVars.animDeltaTime = ecFuel.animationDeltaTime)
    ∧ (ecFuel.simVars.animDeltaTime = ecFuel.animationDeltaTime →
        pauseView (update libZero ecFuel 1 0).simVars
          = ((if ecFuel.simVars.engine1State < 10 then ecFuel.simVars.engine1State + 10
                else ecFuel.simVars.engine1State),
              (if ecFuel.simVars.engine2State < 10 then ecFuel.simVars.engine2State + 10
                else ecFuel.simVars.engine2State),
              ecFuel.simVars.fuelLeftPre, ecFuel.simVars.fuelRightPre,
              ecFuel.simVars.fuelAuxLeftPre, ecFuel.simVars.fuelAuxRightPre, ecFuel.simVars.fuelCenterPre,
              ecFuel.simVars.fuelTrimPre, ecFuel.simVars.fuelWeightGallon)
        ∧ (update libZero ecFuel 1 0).simObject.fuelCenterMain
            = some (ecFuel.simVars.fuelCenterPre / ecFuel.simVars.fuelWeightGallon)
        ∧ (update libZero ecFuel 1 0).simObject.fuelLeftMain
            = some (ecFuel.simVars.fuelLeftPre / ecFuel.simVars.fuelWeightGallon)
        ∧ (update libZero ecFuel 1 0).simObject.fuelRightMain
            = some (ecFuel.simVars.fuelRightPre / ecFuel.simVars.fuelWeightGallon)
        ∧ (update libZero ecFuel 1 0).simObject.fuelLeftAux
            = some (ecFuel.simVars.fuelAuxLeftPre / ecFuel.simVars.fuelWeightGallon)
        ∧ (update libZero ecFuel 1 0).simObject.fuelRightAux
            = some (ecFuel.simVars.fuelAuxRightPre / ecFuel.simVars.fuelWeightGallon)) :=
  c8_pause_signal libZero ecFuel 1 0
    (by norm_num [ecFuel, ecOver, svFuel, svZero]) (by norm_num [ecFuel, ecOver, svFuel, svZero])

/-! ### Further claims about the fuel network -/

/-- The cross-feed topology is one of 0, 1, 2, 3, 4. -/
theorem crossFeedLogic_range (x l1 l2 r1 r2 : ℚ) :
    crossFeedLogic x l1 l2 r1 r2 = 0 ∨ crossFeedLogic x l1 l2 r1 r2 = 1
    ∨ crossFeedLogic x l1 l2 r1 r2 = 2 ∨ crossFeedLogic x l1 l2 r1 r2 = 3
    ∨ crossFeedLogic x l1 l2 r1 r2 = 4 := by
  unfold crossFeedLogic
  split_ifs <;> simp

/-- When both centre-to-wing valves are open the two shares add up to the
depletion of the centre tank, whatever the line-flow ratio is. -/
theorem centerTransfer_sum_both (l r pre q : ℚ) :
    (centerTransfer true true l r pre q).1 + (centerTransfer true true l r pre q).2
      = pre - q := by
  simp only [centerTransfer, Bool.and_self, if_true]
  ring

/-- The conservation branch of `updateFuel` on the bus: what is committed when the
tick is neither paused, nor tamper, nor a user refuel. -/
theorem updateFuel_conservation (ec : EngineControl) (dts : ℚ)
    (hpause : ec.simPaused = false) (htamper : uiFuelTamper ec.simVars dts = false)
    (hrefuel : ec.simVars.refuelStartedByUser ≠ 1) :
    (updateFuel ec dts).simVars.fuelLeftPre
        = (conservationStep ec.simVars false ec.simVars.developerState dts).fuelLeft
    ∧ (updateFuel ec dts).simVars.fuelRightPre
        = (conservationStep ec.simVars false ec.simVars.developerState dts).fuelRight
    ∧ (updateFuel ec dts).simVars.fuelAuxLeftPre = leftAuxQuantity ec.simVars
    ∧ (updateFuel ec dts).simVars.fuelAuxRightPre = rightAuxQuantity ec.simVars
    ∧ (updateFuel ec dts).simVars.fuelCenterPre = centerQuantity ec.simVars
    ∧ (updateFuel ec dts).simVars.fuelTrimPre = ec.simVars.fuelTrimPre
    ∧ (updateFuel ec dts).simVars.fuelUsedEngine1
        = (conservationStep ec.simVars false ec.simVars.developerState dts).fuelUsedEngine1
    ∧ (updateFuel ec dts).simVars.fuelUsedEngine2
        = (conservationStep ec.simVars false ec.simVars.developerState dts).fuelUsedEngine2 := by
  simp only [updateFuel, fuelBranch, hpause, htamper, hrefuel, Bool.false_or, Bool.false_and,
    Bool.not_false, Bool.true_and, decide_eq_true_eq, if_false, Bool.false_eq_true, and_self]

/-- C11 (refuted as stated): cross-feed valve open and all four boost pumps off
(topology 3), every transfer valve open, one second, engine flows 1800 → 3600 and
3600 kg/h, APU line flow 36. The five committed quantities add up to 2200 lbs
before the tick and to 2200 − 1/100 after it: only the APU consumption has been
taken off, the engines' burn (7/4 kg) has not. -/
theorem c11_total_mass_counterexample :
    crossFeedLogic ((svFuelValves 1 0 0).valve 3) ((svFuelValves 1 0 0).pump 2)
        ((svFuelValves 1 0 0).pump 5) ((svFuelValves 1 0 0).pump 3)
        ((svFuelValves 1 0 0).pump 6) = 3
    ∧ fuelTotalPre (svFuelValves 1 0 0) = 2200
    ∧ fuelTotalPre (updateFuel (ecOver (svFuelValves 1 0 0)) 1).simVars = 2200 - 1 / 100
    ∧ (2200 : ℚ) - 1 / 100
        ≠ 2200 - ((1800 + 3600) / 2 * (1 / 3600) + (3600 + 3600) / 2 * (1 / 3600)) * KGS_TO_LBS
            - 36 * 1 * (1 / 3600) := by
  refine ⟨?_, ?_, ?_, ?_⟩
  · norm_num [crossFeedLogic, svFuelValves, svFuel, svZero]
  · norm_num [fuelTotalPre, svFuelValves, svFuel, svZero]
  · norm_num [fuelTotalPre, updateFuel, fuelBranch, uiFuelTamper, conservationStep,
      crossFeedLogic, crossFeedBurn, centerTransfer, xfrValveCenterLeftOpen,
      xfrValveCenterRightOpen, xfrCenterLeftAuto, xfrCenterRightAuto, xfrCenterLeftManual,
      xfrCenterRightManual, leftAuxQuantity, rightAuxQuantity, centerQuantity, cycleFuelBurn,
      svFuelValves, svFuel, svZero, ecOver]
  · norm_num [KGS_TO_LBS]

/-- C11 (amended): on a conservation tick (not paused, not tamper, no user refuel,
delta time > 0, developer state ≠ 2) with both committed main quantities > 0, an aux
transfer valve open on each wing, both centre-to-wing valves open and non-negative
line flows, the sum of the five committed quantities after the tick equals the sum
before the tick minus the APU consumption of the tick and, for the cross-feed
topologies 0, 1, 2 and 4, minus the two engines' integrated burn converted to
pounds; for topology 3 (cross-feed open, all four pumps off) no engine burn is
taken off the tanks. With non-negative line flows the divisor of the centre share
ratio, the sum of the flows of lines 27 and 28, is not zero whenever the ratio is
computed from the flows. -/
theorem c11_total_mass (ec : EngineControl) (dts : ℚ)
    (hpause : ec.simPaused = false) (htamper : uiFuelTamper ec.simVars dts = false)
    (hrefuel : ec.simVars.refuelStartedByUser ≠ 1) (hdt : 0 < dts)
    (hdev : ec.simVars.developerState ≠ 2)
    (hleft : 0 < ec.simVars.fuelLeftPre) (hright : 0 < ec.simVars.fuelRightPre)
    (hauxL : ec.simVars.valve 6 > 0 ∨ ec.simVars.valve 4 > 0)
    (hauxR : ec.simVars.valve 7 > 0 ∨ ec.simVars.valve 5 > 0)
    (hcl : xfrValveCenterLeftOpen ec.simVars = true)
    (hcr : xfrValveCenterRightOpen ec.simVars = true)
    (hflow : ∀ i : ℤ, 0 ≤ ec.simVars.lineFlow i) :
    fuelTotalPre (updateFuel ec dts).simVars
      = fuelTotalPre ec.simVars
        - (if crossFeedLogic (ec.simVars.valve 3) (ec.simVars.pump 2) (ec.simVars.pump 5)
              (ec.simVars.pump 3) (ec.simVars.pump 6) = 3 then 0
            else ((ec.simVars.engine1PreFF + ec.simVars.engine1FF) / 2 * (dts / 3600)
                + (ec.simVars.engine2PreFF + ec.simVars.engine2FF) / 2 * (dts / 3600))
              * KGS_TO_LBS)
        - ec.simVars.lineFlow 18 * ec.simVars.fuelWeightGallon * (dts / 3600)
    ∧ (¬ (ec.simVars.lineFlow 27 < 1 / 10 ∧ ec.simVars.lineFlow 28 < 1 / 10) →
        ec.simVars.lineFlow 27 + ec.simVars.lineFlow 28 ≠ 0) := by
  refine ⟨?_, fun hs => ?_⟩
  swap
  · have h27 := hflow 27
    have h28 := hflow 28
    by_cases ha : ec.simVars.lineFlow 27 < 1 / 10
    · have hb : ¬ ec.simVars.lineFlow 28 < 1 / 10 := fun hb => hs ⟨ha, hb⟩
      push_neg at hb
      intro h0
      linarith
    · push_neg at ha
      intro h0
      linarith
  have hdt' : dts / 3600 ≠ 0 := by positivity
  have hl : ec.simVars.fuelLeftPre > 0 := hleft
  have hr : ec.simVars.fuelRightPre > 0 := hright
  obtain ⟨e1, e2, e3, e4, e5, -, -, -⟩ := updateFuel_conservation ec dts hpause htamper hrefuel
  have hc := centerTransfer_sum_both (ec.simVars.lineFlow 27) (ec.simVars.lineFlow 28)
    ec.simVars.fuelCenterPre (centerQuantity ec.simVars)
  unfold fuelTotalPre
  rw [e1, e2, e3, e4, e5]
  simp only [conservationStep, hl, hr, hdev, hauxL, hauxR, hcl, hcr, if_true, if_false,
    ne_eq, not_false_eq_true, Bool.false_eq_true, cycleFuelBurn_trapezoid _ _ _ hdt']
  rcases crossFeedLogic_range (ec.simVars.valve 3) (ec.simVars.pump 2) (ec.simVars.pump 5)
    (ec.simVars.pump 3) (ec.simVars.pump 6) with h | h | h | h | h <;>
  · rw [h]
    norm_num [crossFeedBurn]
    linear_combination hc

/-- Witness of `c11_total_mass`: topology 4, every transfer valve open, one second. -/
theorem c11_total_mass_witness :
    fuelTotalPre (updateFuel ecValves 1).simVars
      = fuelTotalPre ecValves.simVars
        - (if crossFeedLogic (ecValves.simVars.valve 3) (ecValves.simVars.pump 2) (ecValves.simVars.pump 5)
              (ecValves.simVars.pump 3) (ecValves.simVars.pump 6) = 3 then 0
            else ((ecValves.simVars.engine1PreFF + ecValves.simVars.engine1FF) / 2 * (1 / 3600)
                + (ecValves.simVars.engine2PreFF + ecValves.simVars.engine2FF) / 2 * (1 / 3600))
              * KGS_TO_LBS)
        - ecValves.simVars.lineFlow 18 * ecValves.simVars.fuelWeightGallon * (1 / 3600) :=
  (c11_total_mass ecValves 1 rfl
    (by simp [uiFuelTamper, ecValves, ecOver, svFuelValves, svFuel, svZero])
    (by norm_num [ecValves, ecOver, svFuelValves, svFuel, svZero])
    (by norm_num)
    (by norm_num [ecValves, ecOver, svFuelValves, svFuel, svZero])
    (by norm_num [ecValves, ecOver, svFuelValves, svFuel, svZero])
    (by norm_num [ecValves, ecOver, svFuelValves, svFuel, svZero])
    (by norm_num [ecValves, ecOver, svFuelValves, svFuel, svZero])
    (by norm_num [ecValves, ecOver, svFuelValves, svFuel, svZero])
    (by simp [xfrValveCenterLeftOpen, xfrCenterLeftAuto, xfrCenterLeftManual, ecValves, ecOver,
      svFuelValves, svFuel, svZero])
    (by simp [xfrValveCenterRightOpen, xfrCenterRightAuto, xfrCenterRightManual, ecValves,
      ecOver, svFuelValves, svFuel, svZero])
    (by
      intro i
      show (0 : ℚ) ≤ (if i = 18 then 36 else 0)
      split_ifs <;> norm_num)).1

/-- C13: at the end of `updateFuel` the committed quantities, each divided by the
fuel weight per gallon, are saved to the configuration and the fuel timer is reset
if the fuel timer reads at least 1000 ms, the aircraft is on the ground and at least
one engine state read at the start of the call is 0, 10, 4 or 14; otherwise nothing
is saved and the fuel timer keeps its reading. In particular nothing is saved when
both engine states are among 1, 2, 3, 11, 12, 13. -/
theorem c13_persistence_trigger (ec : EngineControl) (dts : ℚ) :
    ((ec.timerFuel ≥ 1000 ∧ ec.simVars.simOnGround ≠ 0
        ∧ (ec.simVars.engine1State = 0 ∨ ec.simVars.engine1State = 10
          ∨ ec.simVars.engine1State = 4 ∨ ec.simVars.engine1State = 14
          ∨ ec.simVars.engine2State = 0 ∨ ec.simVars.engine2State = 10
          ∨ ec.simVars.engine2State = 4 ∨ ec.simVars.engine2State = 14)) →
      (updateFuel ec dts).confStore
          = some
            { fuelCenter := (updateFuel ec dts).simVars.fuelCenterPre
                / (updateFuel ec dts).simVars.fuelWeightGallon
              fuelLeft := (updateFuel ec dts).simVars.fuelLeftPre
                / (updateFuel ec dts).simVars.fuelWeightGallon
              fuelRight := (updateFuel ec dts).simVars.fuelRightPre
                / (updateFuel ec dts).simVars.fuelWeightGallon
              fuelLeftAux := (updateFuel ec dts).simVars.fuelAuxLeftPre
                / (updateFuel ec dts).simVars.fuelWeightGallon
              fuelRightAux := (updateFuel ec dts).simVars.fuelAuxRightPre
                / (updateFuel ec dts).simVars.fuelWeightGallon
              fuelTrim := (updateFuel ec dts).simVars.fuelTrimPre
                / (updateFuel ec dts).simVars.fuelWeightGallon }
        ∧ (updateFuel ec dts).timerFuel = 0)
    ∧ (¬ (ec.timerFuel ≥ 1000 ∧ ec.simVars.simOnGround ≠ 0
        ∧ (ec.simVars.engine1State = 0 ∨ ec.simVars.engine1State = 10
          ∨ ec.simVars.engine1State = 4 ∨ ec.simVars.engine1State = 14
          ∨ ec.simVars.engine2State = 0 ∨ ec.simVars.engine2State = 10
          ∨ ec.simVars.engine2State = 4 ∨ ec.simVars.engine2State = 14)) →
      (updateFuel ec dts).confStore = ec.confStore
        ∧ (updateFuel ec dts).timerFuel = ec.timerFuel)
    ∧ ((ec.simVars.engine1State = 1 ∨ ec.simVars.engine1State = 2
          ∨ ec.simVars.engine1State = 3 ∨ ec.simVars.engine1State = 11
          ∨ ec.simVars.engine1State = 12 ∨ ec.simVars.engine1State = 13) →
        (ec.simVars.engine2State = 1 ∨ ec.simVars.engine2State = 2
          ∨ ec.simVars.engine2State = 3 ∨ ec.simVars.engine2State = 11
          ∨ ec.simVars.engine2State = 12 ∨ ec.simVars.engine2State = 13) →
      (updateFuel ec dts).confStore = ec.confStore
        ∧ (updateFuel ec dts).timerFuel = ec.timerFuel) := by
  have hg : (fuelBranch ec.simVars ec.simObject ec.simPaused dts).1.simOnGround
      = ec.simVars.simOnGround := by
    simp only [fuelBranch]
    split_ifs <;> rfl
  have key : ∀ c : Prop, (saveCondition ec.timerFuel ec.simVars.simOnGround
      ec.simVars.engine1State ec.simVars.engine2State ↔ c) →
      (c → (updateFuel ec dts).confStore = some (configurationOf (updateFuel ec dts).simVars)
        ∧ (updateFuel ec dts).timerFuel = 0)
      ∧ (¬ c → (updateFuel ec dts).confStore = ec.confStore
        ∧ (updateFuel ec dts).timerFuel = ec.timerFuel) := by
    intro c hc
    constructor
    · intro h
      have hs := hc.mpr h
      simp only [updateFuel, hg, hs, decide_True, if_true, and_self]
    · intro h
      have hs : ¬ saveCondition ec.timerFuel ec.simVars.simOnGround
          ec.simVars.engine1State ec.simVars.engine2State := fun x => h (hc.mp x)
      simp only [updateFuel, hg, hs, decide_False, if_false, Bool.false_eq_true, and_self]
  have k1 := key _ (Iff.rfl : saveCondition ec.timerFuel ec.simVars.simOnGround
      ec.simVars.engine1State ec.simVars.engine2State ↔ _)
  unfold saveCondition at k1
  refine ⟨fun h => ?_, k1.2, fun h1 h2 => k1.2 ?_⟩
  · have := k1.1 h
    simpa only [configurationOf] using this
  · rintro ⟨-, -, h⟩
    rcases h1 with a | a | a | a | a | a <;> rcases h2 with b | b | b | b | b | b <;>
      rw [a, b] at h <;> norm_num at h

/-- Witness of `c13_persistence_trigger`: on the ground, fuel timer at 1500 ms, both
engines OFF: the fuel timer is reset. -/
theorem c13_persistence_trigger_witness : (updateFuel ecGround 1).timerFuel = 0 :=
  ((c13_persistence_trigger ecGround 1).1
    (by norm_num [ecGround, ecOver, svFuel, svZero])).2

/-- C18: the cross-feed topology is a total function of the cross-feed valve and
the four boost pumps: valve closed (≤ 0) gives 0; valve open with all four pumps
off gives 3; valve open with both left pumps off and some right pump on gives 1;
valve open with both right pumps off and some left pump on gives 2; valve open
otherwise gives 4; the result is always one of 0, 1, 2, 3, 4. -/
theorem c18_cross_feed_topology (xFeedValve leftPump1 leftPump2 rightPump1 rightPump2 : ℚ) :
    (xFeedValve ≤ 0 →
      crossFeedLogic xFeedValve leftPump1 leftPump2 rightPump1 rightPump2 = 0)
    ∧ (xFeedValve > 0 → (leftPump1 = 0 ∧ leftPump2 = 0) → (rightPump1 = 0 ∧ rightPump2 = 0) →
      crossFeedLogic xFeedValve leftPump1 leftPump2 rightPump1 rightPump2 = 3)
    ∧ (xFeedValve > 0 → (leftPump1 = 0 ∧ leftPump2 = 0) → ¬ (rightPump1 = 0 ∧ rightPump2 = 0) →
      crossFeedLogic xFeedValve leftPump1 leftPump2 rightPump1 rightPump2 = 1)
    ∧ (xFeedValve > 0 → ¬ (leftPump1 = 0 ∧ leftPump2 = 0) → (rightPump1 = 0 ∧ rightPump2 = 0) →
      crossFeedLogic xFeedValve leftPump1 leftPump2 rightPump1 rightPump2 = 2)
    ∧ (xFeedValve > 0 → ¬ (leftPump1 = 0 ∧ leftPump2 = 0) →
        ¬ (rightPump1 = 0 ∧ rightPump2 = 0) →
      crossFeedLogic xFeedValve leftPump1 leftPump2 rightPump1 rightPump2 = 4)
    ∧ crossFeedLogic xFeedValve leftPump1 leftPump2 rightPump1 rightPump2
        ∈ ({0, 1, 2, 3, 4} : Set ℤ) := by
  refine ⟨?_, ?_, ?_, ?_, ?_, ?_⟩
  · intro h
    simp only [crossFeedLogic, not_lt.mpr h, if_false]
  · intro h hl hr
    simp only [crossFeedLogic, h, hl.1, hl.2, hr.1, hr.2, and_self, if_true]
  · intro h hl hr
    have h4 : ¬ (leftPump1 = 0 ∧ leftPump2 = 0 ∧ rightPump1 = 0 ∧ rightPump2 = 0) :=
      fun x => hr ⟨x.2.2.1, x.2.2.2⟩
    unfold crossFeedLogic
    rw [if_pos h, if_neg h4, if_pos hl]
  · intro h hl hr
    have h4 : ¬ (leftPump1 = 0 ∧ leftPump2 = 0 ∧ rightPump1 = 0 ∧ rightPump2 = 0) :=
      fun x => hl ⟨x.1, x.2.1⟩
    unfold crossFeedLogic
    rw [if_pos h, if_neg h4, if_neg hl, if_pos hr]
  · intro h hl hr
    have h4 : ¬ (leftPump1 = 0 ∧ leftPump2 = 0 ∧ rightPump1 = 0 ∧ rightPump2 = 0) :=
      fun x => hl ⟨x.1, x.2.1⟩
    unfold crossFeedLogic
    rw [if_pos h, if_neg h4, if_neg hl, if_neg hr]
  · unfold crossFeedLogic
    split_ifs <;> simp

/-- Witness of `c18_cross_feed_topology`: valve open, both left pumps off, one right
pump on. -/
theorem c18_cross_feed_topology_witness : crossFeedLogic 1 0 0 1 0 = 1 :=
  (c18_cross_feed_topology 1 0 0 1 0).2.2.1 (by norm_num) ⟨rfl, rfl⟩ (by norm_num)

/-- C19: on a conservation tick (not paused, not tamper, no user refuel, delta time
> 0, developer state ≠ 2), for each wing: when the committed main quantity is > 0 the
burn `m·dt²/2 + b·dt` with `m = (flow − prevFlow)/dt`, `b = prevFlow` (dt in hours)
equals the trapezoid `(prevFlow + flow)/2 · dt`, is not negative when both flows are
not negative, and is the amount added to that engine's fuel-used accumulator; when
the committed main quantity is ≤ 0 the accumulator is unchanged (the burn is 0) and
the step computes what it computes with that committed quantity replaced by 0. -/
theorem c19_burn_integration (ec : EngineControl) (dts : ℚ)
    (hpause : ec.simPaused = false) (htamper : uiFuelTamper ec.simVars dts = false)
    (hrefuel : ec.simVars.refuelStartedByUser ≠ 1) (hdt : 0 < dts)
    (hdev : ec.simVars.developerState ≠ 2) :
    (0 < ec.simVars.fuelLeftPre →
      cycleFuelBurn ec.simVars.engine1FF ec.simVars.engine1PreFF (dts / 3600)
          = (ec.simVars.engine1PreFF + ec.simVars.engine1FF) / 2 * (dts / 3600)
        ∧ (0 ≤ ec.simVars.engine1PreFF → 0 ≤ ec.simVars.engine1FF →
            0 ≤ cycleFuelBurn ec.simVars.engine1FF ec.simVars.engine1PreFF (dts / 3600))
        ∧ (updateFuel ec dts).simVars.fuelUsedEngine1
          = ec.simVars.fuelUsedEngine1
            + cycleFuelBurn ec.simVars.engine1FF ec.simVars.engine1PreFF (dts / 3600))
    ∧ (ec.simVars.fuelLeftPre ≤ 0 →
      (updateFuel ec dts).simVars.fuelUsedEngine1 = ec.simVars.fuelUsedEngine1
        ∧ conservationStep ec.simVars false ec.simVars.developerState dts
          = conservationStep { ec.simVars with fuelLeftPre := 0 } false
              ec.simVars.developerState dts)
    ∧ (0 < ec.simVars.fuelRightPre →
      cycleFuelBurn ec.simVars.engine2FF ec.simVars.engine2PreFF (dts / 3600)
          = (ec.simVars.engine2PreFF + ec.simVars.engine2FF) / 2 * (dts / 3600)
        ∧ (0 ≤ ec.simVars.engine2PreFF → 0 ≤ ec.simVars.engine2FF →
            0 ≤ cycleFuelBurn ec.simVars.engine2FF ec.simVars.engine2PreFF (dts / 3600))
        ∧ (updateFuel ec dts).simVars.fuelUsedEngine2
          = ec.simVars.fuelUsedEngine2
            + cycleFuelBurn ec.simVars.engine2FF ec.simVars.engine2PreFF (dts / 3600))
    ∧ (ec.simVars.fuelRightPre ≤ 0 →
      (updateFuel ec dts).simVars.fuelUsedEngine2 = ec.simVars.fuelUsedEngine2
        ∧ conservationStep ec.simVars false ec.simVars.developerState dts
          = conservationStep { ec.simVars with fuelRightPre := 0 } false
              ec.simVars.developerState dts) := by
  have hdt' : dts / 3600 ≠ 0 := by positivity
  have hpos : 0 ≤ dts / 3600 := by positivity
  obtain ⟨-, -, -, -, -, -, u1, u2⟩ := updateFuel_conservation ec dts hpause htamper hrefuel
  have hlt : ¬ ((0 : ℚ) > 0) := lt_irrefl 0
  refine ⟨fun h => ⟨cycleFuelBurn_trapezoid _ _ _ hdt', fun h1 h2 => ?_, ?_⟩, fun h => ⟨?_, ?_⟩,
    fun h => ⟨cycleFuelBurn_trapezoid _ _ _ hdt', fun h1 h2 => ?_, ?_⟩, fun h => ⟨?_, ?_⟩⟩
  · rw [cycleFuelBurn_trapezoid _ _ _ hdt']
    positivity
  · have h' : ec.simVars.fuelLeftPre > 0 := h
    rw [u1]
    simp only [conservationStep, h', hdev, if_true, if_false, ne_eq, not_false_eq_true,
      Bool.false_eq_true]
  · have h' : ¬ ec.simVars.fuelLeftPre > 0 := not_lt.mpr h
    rw [u1]
    simp only [conservationStep, h', if_false, add_zero, Bool.false_eq_true]
  · have h' : ¬ ec.simVars.fuelLeftPre > 0 := not_lt.mpr h
    simp only [conservationStep, h', hlt, if_false, Bool.false_eq_true, leftAuxQuantity,
      rightAuxQuantity, centerQuantity, xfrValveCenterLeftOpen, xfrValveCenterRightOpen,
      xfrCenterLeftAuto, xfrCenterRightAuto, xfrCenterLeftManual, xfrCenterRightManual]
  · rw [cycleFuelBurn_trapezoid _ _ _ hdt']
    positivity
  · have h' : ec.simVars.fuelRightPre > 0 := h
    rw [u2]
    simp only [conservationStep, h', hdev, if_true, if_false, ne_eq, not_false_eq_true,
      Bool.false_eq_true]
  · have h' : ¬ ec.simVars.fuelRightPre > 0 := not_lt.mpr h
    rw [u2]
    simp only [conservationStep, h', if_false, add_zero, Bool.false_eq_true]
  · have h' : ¬ ec.simVars.fuelRightPre > 0 := not_lt.mpr h
    simp only [conservationStep, h', hlt, if_false, Bool.false_eq_true, leftAuxQuantity,
      rightAuxQuantity, centerQuantity, xfrValveCenterLeftOpen, xfrValveCenterRightOpen,
      xfrCenterLeftAuto, xfrCenterRightAuto, xfrCenterLeftManual, xfrCenterRightManual]

/-- Witness of `c19_burn_integration`: one second, flows 1800 → 3600 kg/h on engine 1
and 3600 kg/h on engine 2, both committed main quantities at 1000 lbs. -/
theorem c19_burn_integration_witness :
    (0 < ecFuel0.simVars.fuelLeftPre →
      cycleFuelBurn ecFuel0.simVars.engine1FF ecFuel0.simVars.engine1PreFF (1 / 3600)
          = (ecFuel0.simVars.engine1PreFF + ecFuel0.simVars.engine1FF) / 2 * (1 / 3600)
        ∧ (0 ≤ ecFuel0.simVars.engine1PreFF → 0 ≤ ecFuel0.simVars.engine1FF →
            0 ≤ cycleFuelBurn ecFuel0.simVars.engine1FF ecFuel0.simVars.engine1PreFF (1 / 3600))
        ∧ (updateFuel ecFuel0 1).simVars.fuelUsedEngine1
          = ecFuel0.simVars.fuelUsedEngine1
            + cycleFuelBurn ecFuel0.simVars.engine1FF ecFuel0.simVars.engine1PreFF (1 / 3600))
    ∧ (ecFuel0.simVars.fuelLeftPre ≤ 0 →
      (updateFuel ecFuel0 1).simVars.fuelUsedEngine1 = ecFuel0.simVars.fuelUsedEngine1
        ∧ conservationStep ecFuel0.simVars false ecFuel0.simVars.developerState 1
          = conservationStep { ecFuel0.simVars with fuelLeftPre := 0 } false
              ecFuel0.simVars.developerState 1)
    ∧ (0 < ecFuel0.simVars.fuelRightPre →
      cycleFuelBurn ecFuel0.simVars.engine2FF ecFuel0.simVars.engine2PreFF (1 / 3600)
          = (ecFuel0.simVars.engine2PreFF + ecFuel0.simVars.engine2FF) / 2 * (1 / 3600)
        ∧ (0 ≤ ecFuel0.simVars.engine2PreFF → 0 ≤ ecFuel0.simVars.engine2FF →
            0 ≤ cycleFuelBurn ecFuel0.simVars.engine2FF ecFuel0.simVars.engine2PreFF (1 / 3600))
        ∧ (updateFuel ecFuel0 1).simVars.fuelUsedEngine2
          = ecFuel0.simVars.fuelUsedEngine2
            + cycleFuelBurn ecFuel0.simVars.engine2FF ecFuel0.simVars.engine2PreFF (1 / 3600))
    ∧ (ecFuel0.simVars.fuelRightPre ≤ 0 →
      (updateFuel ecFuel0 1).simVars.fuelUsedEngine2 = ecFuel0.simVars.fuelUsedEngine2
        ∧ conservationStep ecFuel0.simVars false ecFuel0.simVars.developerState 1
          = conservationStep { ecFuel0.simVars with fuelRightPre := 0 } false
              ecFuel0.simVars.developerState 1) :=
  c19_burn_integration ecFuel0 1 rfl
    (by simp [uiFuelTamper, ecFuel0, ecOver, svFuel, svZero])
    (by norm_num [ecFuel0, ecOver, svFuel, svZero]) (by norm_num) (by norm_num [ecFuel0, ecOver, svFuel, svZero])

/-- C20 (refuted as stated): cross-feed open with all four boost pumps on
(topology 4), APU line flow 36, one pound per gallon, one second: the APU
consumption of the tick is 1/100 lbs and the step charges 1/200 to each main tank,
where the claim has the left tank bear 1/100 and the right tank nothing. -/
theorem c20_apu_attribution_counterexample :
    crossFeedLogic (ecValves.simVars.valve 3) (ecValves.simVars.pump 2)
        (ecValves.simVars.pump 5) (ecValves.simVars.pump 3) (ecValves.simVars.pump 6) = 4
    ∧ ecValves.simVars.lineFlow 18 * ecValves.simVars.fuelWeightGallon * (1 / 3600) = 1 / 100
    ∧ (conservationStep ecValves.simVars false ecValves.simVars.developerState 1).apuBurn1
        = 1 / 200
    ∧ (conservationStep ecValves.simVars false ecValves.simVars.developerState 1).apuBurn2
        = 1 / 200 := by
  refine ⟨?_, ?_, ?_, ?_⟩
  · norm_num [crossFeedLogic, ecValves, ecOver, svFuelValves, svFuel, svZero]
  · norm_num [ecValves, ecOver, svFuelValves, svFuel, svZero]
  · norm_num [conservationStep, crossFeedLogic, crossFeedBurn, ecValves, ecOver, svFuelValves,
      svFuel, svZero]
  · norm_num [conservationStep, crossFeedLogic, crossFeedBurn, ecValves, ecOver, svFuelValves,
      svFuel, svZero]

/-- C20 (amended): with `apu = lineFlow(18) · fuelWeightGallon · dt/3600` the APU
consumption of the tick, the conservation step charges all of it to the left main
tank for the cross-feed topologies 0 and 2, all of it to the right main tank for
topology 1, and half of it to each main tank for topologies 3 and 4; the amount
charged to a wing (`apuBurn1`, `apuBurn2`) is what is subtracted last in the new
quantity of that wing's main tank. -/
theorem c20_apu_attribution (sv : SimVars) (tamper : Bool) (devState dts : ℚ) :
    ((crossFeedLogic (sv.valve 3) (sv.pump 2) (sv.pump 5) (sv.pump 3) (sv.pump 6) = 0
        ∨ crossFeedLogic (sv.valve 3) (sv.pump 2) (sv.pump 5) (sv.pump 3) (sv.pump 6) = 2) →
      (conservationStep sv tamper devState dts).apuBurn1
          = sv.lineFlow 18 * sv.fuelWeightGallon * (dts / 3600)
        ∧ (conservationStep sv tamper devState dts).apuBurn2 = 0)
    ∧ (crossFeedLogic (sv.valve 3) (sv.pump 2) (sv.pump 5) (sv.pump 3) (sv.pump 6) = 1 →
      (conservationStep sv tamper devState dts).apuBurn1 = 0
        ∧ (conservationStep sv tamper devState dts).apuBurn2
          = sv.lineFlow 18 * sv.fuelWeightGallon * (dts / 3600))
    ∧ ((crossFeedLogic (sv.valve 3) (sv.pump 2) (sv.pump 5) (sv.pump 3) (sv.pump 6) = 3
        ∨ crossFeedLogic (sv.valve 3) (sv.pump 2) (sv.pump 5) (sv.pump 3) (sv.pump 6) = 4) →
      (conservationStep sv tamper devState dts).apuBurn1
          = sv.lineFlow 18 * sv.fuelWeightGallon * (dts / 3600) * (1 / 2)
        ∧ (conservationStep sv tamper devState dts).apuBurn2
          = sv.lineFlow 18 * sv.fuelWeightGallon * (dts / 3600) * (1 / 2))
    ∧ (conservationStep sv tamper devState dts).fuelLeft
        = (if (if tamper then leftQuantity sv else sv.fuelLeftPre) > 0
              then (if tamper then leftQuantity sv else sv.fuelLeftPre) else 0)
          - (conservationStep sv tamper devState dts).fuelBurn1 * KGS_TO_LBS
          + (conservationStep sv tamper devState dts).xfrAuxLeft
          + (conservationStep sv tamper devState dts).xfrCenterToLeft
          - (conservationStep sv tamper devState dts).apuBurn1
    ∧ (conservationStep sv tamper devState dts).fuelRight
        = (if (if tamper then rightQuantity sv else sv.fuelRightPre) > 0
              then (if tamper then rightQuantity sv else sv.fuelRightPre) else 0)
          - (conservationStep sv tamper devState dts).fuelBurn2 * KGS_TO_LBS
          + (conservationStep sv tamper devState dts).xfrAuxRight
          + (conservationStep sv tamper devState dts).xfrCenterToRight
          - (conservationStep sv tamper devState dts).apuBurn2 := by
  refine ⟨?_, ?_, ?_, rfl, rfl⟩
  · rintro (h | h) <;> simp only [conservationStep, h] <;> norm_num [crossFeedBurn]
  · intro h
    simp only [conservationStep, h]
    norm_num [crossFeedBurn]
  · rintro (h | h) <;> simp only [conservationStep, h] <;> norm_num [crossFeedBurn]

/-- Witness of `c20_apu_attribution`: topology 4 on the bus of `ecValves`. -/
theorem c20_apu_attribution_witness :
    (conservationStep ecValves.simVars false 0 1).apuBurn1
        = ecValves.simVars.lineFlow 18 * ecValves.simVars.fuelWeightGallon * (1 / 3600) * (1 / 2)
      ∧ (conservationStep ecValves.simVars false 0 1).apuBurn2
        = ecValves.simVars.lineFlow 18 * ecValves.simVars.fuelWeightGallon * (1 / 3600)
          * (1 / 2) :=
  (c20_apu_attribution ecValves.simVars false 0 1).2.2.1
    (Or.inr (by norm_num [crossFeedLogic, ecValves, ecOver, svFuelValves, svFuel, svZero]))

/-! ### Claims about the thrust limits -/

/-- The flex block of `updateThrustLimits` in terms of its steps: the climb limit
written and the four flex members after the call. -/
theorem updateThrustLimits_flex (lib : Library) (ec : EngineControl)
    (t alt amb p mach hi pk na wa : ℚ) :
    (updateThrustLimits lib ec t alt amb p mach hi pk na wa).simVars.thrustLimitClimb
        = climbAdapted ec t (limitClb lib ec amb p pk na wa)
            (limitFlex lib ec amb p mach pk na wa)
    ∧ (updateThrustLimits lib ec t alt amb p mach hi pk na wa).isFlexActive
        = (if flexReached ec t (limitClb lib ec amb p pk na wa)
              (limitFlex lib ec amb p mach pk na wa) then false else flexActiveStep ec)
    ∧ (updateThrustLimits lib ec t alt amb p mach hi pk na wa).isTransitionActive
        = (if flexReached ec t (limitClb lib ec amb p pk na wa)
              (limitFlex lib ec amb p mach pk na wa) then false else transitionActiveStep ec)
    ∧ (updateThrustLimits lib ec t alt amb p mach hi pk na wa).transitionStartTime
        = transitionStartStep ec t
    ∧ (updateThrustLimits lib ec t alt amb p mach hi pk na wa).transitionFactor
        = transitionFactorStep ec :=
  ⟨rfl, rfl, rfl, rfl, rfl⟩

/-- The adapted climb limit never exceeds the climb value. -/
theorem climbAdapted_le (ec : EngineControl) (t clb flex : ℚ) :
    climbAdapted ec t clb flex ≤ clb := by
  have h1 := min_le_right clb flex
  have h2 := min_le_left clb flex
  have h3 := min_le_left (clb - flex)
    (max 0 (t - transitionStartStep ec t - waitTime) * transitionFactorStep ec)
  unfold climbAdapted deltaThrustOf
  split_ifs <;> first | exact le_rfl | linarith

/-- With the transition active on entry and the ramp factor at 0.2, once the
simulation time exceeds `transitionStartTime + waitTime + (clb − flex)/0.2` the
block reaches the climb value: the adapted climb limit is `clb` and both flags end
up cleared. -/
theorem flex_transition_done (ec : EngineControl) (t clb flex : ℚ)
    (hact : ec.isTransitionActive = true) (hfac : ec.transitionFactor = 2 / 10)
    (ht : t > ec.transitionStartTime + waitTime + (clb - flex) / (2 / 10)) :
    climbAdapted ec t clb flex = clb
    ∧ (if flexReached ec t clb flex then false else flexActiveStep ec) = false
    ∧ (if flexReached ec t clb flex then false else transitionActiveStep ec) = false := by
  have hts : transitionStarts ec = false := by
    simp [transitionStarts, hact]
  cases hfa : flexActiveStep ec with
  | false =>
    have hta : transitionActiveStep ec = false := by
      simp [transitionActiveStep, hts, hfa]
    have hr : flexReached ec t clb flex = false := by
      simp [flexReached, hta]
    simp [climbAdapted, hr, hfa, hta]
  | true =>
    have hta : transitionActiveStep ec = true := by
      simp [transitionActiveStep, hts, hfa, hact]
    have hst : transitionStartStep ec t = ec.transitionStartTime := by
      simp [transitionStartStep, hts, hfa]
    have hfc : transitionFactorStep ec = 2 / 10 := by
      simp [transitionFactorStep, hts, hfa, hfac]
    have hge : flex + deltaThrustOf ec t clb flex ≥ clb := by
      unfold deltaThrustOf
      rw [hta, hst, hfc, if_pos rfl]
      by_cases hc : clb > flex
      · have hq : (clb - flex) / (2 / 10) > 0 := by
          apply div_pos <;> linarith
        have hx : t - ec.transitionStartTime - waitTime > (clb - flex) / (2 / 10) := by
          linarith
        have hm : max 0 (t - ec.transitionStartTime - waitTime)
            = t - ec.transitionStartTime - waitTime := max_eq_right (by linarith)
        have hy : clb - flex < (t - ec.transitionStartTime - waitTime) * (2 / 10) := by
          rw [gt_iff_lt, div_lt_iff₀ (by norm_num)] at hx
          exact hx
        rw [hm, if_pos ⟨by linarith, hc⟩, min_eq_left (le_of_lt hy)]
        linarith
      · rw [if_neg (fun h => hc h.2)]
        have := not_lt.mp hc
        linarith
    have hr : flexReached ec t clb flex = true := by
      simp only [flexReached, hta, Bool.true_and, decide_eq_true_eq]
      exact hge
    simp [climbAdapted, hr]

/-- Whenever the transition is active the ramp factor is 0.2: the property holds
after a call of `updateThrustLimits` if it holds before. -/
theorem flexFactor_preserved (lib : Library) (ec : EngineControl)
    (t alt amb p mach hi pk na wa : ℚ)
    (hinv : ec.isTransitionActive = true → ec.transitionFactor = 2 / 10) :
    (updateThrustLimits lib ec t alt amb p mach hi pk na wa).isTransitionActive = true →
      (updateThrustLimits lib ec t alt amb p mach hi pk na wa).transitionFactor = 2 / 10 := by
  obtain ⟨-, -, h3, -, h5⟩ := updateThrustLimits_flex lib ec t alt amb p mach hi pk na wa
  rw [h3, h5]
  intro h
  have hta : transitionActiveStep ec = true := by
    split_ifs at h with hr
    exact h
  unfold transitionFactorStep
  unfold transitionActiveStep at hta
  cases hs : transitionStarts ec with
  | true => simp
  | false =>
    rw [hs] at hta
    cases hfa : flexActiveStep ec with
    | false => simp [hfa] at hta
    | true =>
      simp only [hfa, Bool.not_true, Bool.false_eq_true, if_false] at hta ⊢
      exact hinv hta

/-- C15: on every tick the climb limit written never exceeds the computed
climb-curve value `clb` (in particular on every tick on which the flex transition
is active), and on a tick on which the transition is active on entry and whose
simulation time exceeds `transitionStartTime + waitTime + (clb − flex)/0.2` the
climb limit written equals `clb` and flex and the transition are deactivated. The
ramp factor is 0.2 whenever the transition is active (`flexFactor_preserved`). -/
theorem c15_flex_transition_bound (lib : Library) (ec : EngineControl)
    (t alt amb p mach hi pk na wa : ℚ)
    (hinv : ec.isTransitionActive = true → ec.transitionFactor = 2 / 10) :
    (updateThrustLimits lib ec t alt amb p mach hi pk na wa).simVars.thrustLimitClimb
        ≤ limitClb lib ec amb p pk na wa
    ∧ (ec.isTransitionActive = true →
        t > ec.transitionStartTime + waitTime
              + (limitClb lib ec amb p pk na wa - limitFlex lib ec amb p mach pk na wa)
                / (2 / 10) →
        (updateThrustLimits lib ec t alt amb p mach hi pk na wa).simVars.thrustLimitClimb
            = limitClb lib ec amb p pk na wa
          ∧ (updateThrustLimits lib ec t alt amb p mach hi pk na wa).isFlexActive = false
          ∧ (updateThrustLimits lib ec t alt amb p mach hi pk na wa).isTransitionActive
            = false) := by
  obtain ⟨h1, h2, h3, -, -⟩ := updateThrustLimits_flex lib ec t alt amb p mach hi pk na wa
  rw [h1, h2, h3]
  exact ⟨climbAdapted_le _ _ _ _,
    fun hact ht => flex_transition_done ec t _ _ hact (hinv hact) ht⟩

/-- Witness of `c15_flex_transition_bound`: climb value 80, flex value 70,
transition started at 100; at simulation time 161 (more than 100 + 10 + 50) the
climb limit written is the climb value and both flags are cleared. -/
theorem c15_flex_transition_bound_witness :
    (updateThrustLimits libFlex ecFlex 161 0 15 1013 0 0 0 0 0).simVars.thrustLimitClimb
        = limitClb libFlex ecFlex 15 1013 0 0 0
      ∧ (updateThrustLimits libFlex ecFlex 161 0 15 1013 0 0 0 0 0).isFlexActive = false
      ∧ (updateThrustLimits libFlex ecFlex 161 0 15 1013 0 0 0 0 0).isTransitionActive
        = false :=
  (c15_flex_transition_bound libFlex ecFlex 161 0 15 1013 0 0 0 0 0 (fun _ => rfl)).2 rfl
    (by norm_num [limitClb, limitFlex, machFactorLow, libFlex, ecFlex, ecOver, svZero,
      waitTime])

/-! ### Claims about the dispatch in the update cycle -/

/-- A value that is a whole number of millionths is written without loss. -/
theorem to_string_exact (k : ℤ) : to_string ((k : ℚ) / 1000000) = k := by
  unfold to_string roundHalfEven
  have h : (k : ℚ) / 1000000 * 1000000 = (k : ℚ) := by
    field_simp
  rw [h, Int.floor_intCast]
  norm_num

/-- The doubles `1 + 2⁻³⁰` and `1 + 2⁻²⁹` are both written as `1.000000`. -/
theorem to_string_collision :
    to_string (1 + 1 / 2 ^ 30) = 1000000 ∧ to_string (1 + 1 / 2 ^ 29) = 1000000 := by
  have f1 : ⌊((1 : ℚ) + 1 / 2 ^ 30) * 1000000⌋ = 1000000 := by
    rw [Int.floor_eq_iff]
    constructor <;> norm_num
  have f2 : ⌊((1 : ℚ) + 1 / 2 ^ 29) * 1000000⌋ = 1000000 := by
    rw [Int.floor_eq_iff]
    constructor <;> norm_num
  constructor
  · unfold to_string roundHalfEven
    rw [f1, if_pos (by norm_num)]
  · unfold to_string roundHalfEven
    rw [f2, if_pos (by norm_num)]

/-- The six keys read back from a structure written by `saveFuelInConfiguration`. -/
theorem saveFuelInConfiguration_keys (st : INIStructure) (c : Configuration) :
    saveFuelInConfiguration st c CONFIGURATION_SECTION_FUEL
        CONFIGURATION_SECTION_FUEL_CENTER_QUANTITY = some (to_string c.fuelCenter)
    ∧ saveFuelInConfiguration st c CONFIGURATION_SECTION_FUEL
        CONFIGURATION_SECTION_FUEL_LEFT_QUANTITY = some (to_string c.fuelLeft)
    ∧ saveFuelInConfiguration st c CONFIGURATION_SECTION_FUEL
        CONFIGURATION_SECTION_FUEL_RIGHT_QUANTITY = some (to_string c.fuelRight)
    ∧ saveFuelInConfiguration st c CONFIGURATION_SECTION_FUEL
        CONFIGURATION_SECTION_FUEL_LEFT_AUX_QUANTITY = some (to_string c.fuelLeftAux)
    ∧ saveFuelInConfiguration st c CONFIGURATION_SECTION_FUEL
        CONFIGURATION_SECTION_FUEL_RIGHT_AUX_QUANTITY = some (to_string c.fuelRightAux)
    ∧ saveFuelInConfiguration st c CONFIGURATION_SECTION_FUEL
        CONFIGURATION_SECTION_FUEL_TRIM_QUANTITY = some (to_string c.fuelTrim) := by
  refine ⟨?_, ?_, ?_, ?_, ?_, ?_⟩ <;>
    simp [saveFuelInConfiguration, iniSet, CONFIGURATION_SECTION_FUEL,
      CONFIGURATION_SECTION_FUEL_CENTER_QUANTITY, CONFIGURATION_SECTION_FUEL_LEFT_QUANTITY,
      CONFIGURATION_SECTION_FUEL_RIGHT_QUANTITY, CONFIGURATION_SECTION_FUEL_LEFT_AUX_QUANTITY,
      CONFIGURATION_SECTION_FUEL_RIGHT_AUX_QUANTITY, CONFIGURATION_SECTION_FUEL_TRIM_QUANTITY]

/-- What `loadConfiguration` returns on a structure written by
`saveFuelInConfiguration`, for a `getDouble` that returns the value the text
spells: each quantity rounded to the nearest millionth. -/
theorem load_save (gd : INIStructure → String → String → ℚ → ℚ)
    (hgd : ∀ st sec key d text, st sec key = some text → gd st sec key d = textValue text)
    (st : INIStructure) (c : Configuration) :
    loadConfiguration gd (saveFuelInConfiguration st c)
      = { fuelCenter := textValue (to_string c.fuelCenter)
          fuelLeft := textValue (to_string c.fuelLeft)
          fuelRight := textValue (to_string c.fuelRight)
          fuelLeftAux := textValue (to_string c.fuelLeftAux)
          fuelRightAux := textValue (to_string c.fuelRightAux)
          fuelTrim := textValue (to_string c.fuelTrim) } := by
  obtain ⟨k1, k2, k3, k4, k5, k6⟩ := saveFuelInConfiguration_keys st c
  unfold loadConfiguration
  rw [hgd _ _ _ _ _ k1, hgd _ _ _ _ _ k2, hgd _ _ _ _ _ k3, hgd _ _ _ _ _ k4,
    hgd _ _ _ _ _ k5, hgd _ _ _ _ _ k6]

/-- The `getDouble` modelled from the spec returns the value the text spells. -/
theorem getDouble_text (st : INIStructure) (sec key : String) (d : ℚ) (text : ℤ)
    (h : st sec key = some text) : getDouble st sec key d = textValue text := by
  unfold getDouble
  rw [h]

/-- C16 (refuted as stated): the positive doubles `1 + 2⁻³⁰` and `1 + 2⁻²⁹` differ,
but a configuration holding one and a configuration holding the other are written
as the same file (every quantity as `1.000000`), so no reader gives both back; with
a `getDouble` that returns the value the text spells, the left quantity read back
is 1. -/
theorem c16_round_trip_counterexample :
    (0 : ℚ) < 1 + 1 / 2 ^ 30
    ∧ (cfgAll (1 + 1 / 2 ^ 30)).fuelLeft ≠ (cfgAll (1 + 1 / 2 ^ 29)).fuelLeft
    ∧ saveFuelInConfiguration iniEmpty (cfgAll (1 + 1 / 2 ^ 30))
        = saveFuelInConfiguration iniEmpty (cfgAll (1 + 1 / 2 ^ 29))
    ∧ (loadConfiguration getDouble
        (saveFuelInConfiguration iniEmpty (cfgAll (1 + 1 / 2 ^ 30)))).fuelLeft = 1 := by
  obtain ⟨t1, t2⟩ := to_string_collision
  refine ⟨by norm_num, by norm_num [cfgAll], ?_, ?_⟩
  · simp only [saveFuelInConfiguration, cfgAll, t1, t2]
  · rw [load_save getDouble getDouble_text]
    simp only [cfgAll, t1]
    norm_num [textValue]

/-- C16 (amended): with a `getDouble` that returns the value the text spells,
writing a Configuration with `saveFuelInConfiguration` and reading it back with
`loadConfiguration` yields, under each of the six keys, the quantity rounded to the
nearest millionth (the six decimals `std::to_string` writes); the six values are
given back exactly when each is a whole number of millionths. -/
theorem c16_round_trip (gd : INIStructure → String → String → ℚ → ℚ)
    (hgd : ∀ st sec key d text, st sec key = some text → gd st sec key d = textValue text)
    (st : INIStructure) :
    (∀ c : Configuration,
      loadConfiguration gd (saveFuelInConfiguration st c)
        = { fuelCenter := textValue (roundHalfEven (c.fuelCenter * 1000000))
            fuelLeft := textValue (roundHalfEven (c.fuelLeft * 1000000))
            fuelRight := textValue (roundHalfEven (c.fuelRight * 1000000))
            fuelLeftAux := textValue (roundHalfEven (c.fuelLeftAux * 1000000))
            fuelRightAux := textValue (roundHalfEven (c.fuelRightAux * 1000000))
            fuelTrim := textValue (roundHalfEven (c.fuelTrim * 1000000)) })
    ∧ (∀ k1 k2 k3 k4 k5 k6 : ℤ,
      loadConfiguration gd
          (saveFuelInConfiguration st
            { fuelCenter := (k1 : ℚ) / 1000000, fuelLeft := (k2 : ℚ) / 1000000,
              fuelRight := (k3 : ℚ) / 1000000, fuelLeftAux := (k4 : ℚ) / 1000000,
              fuelRightAux := (k5 : ℚ) / 1000000, fuelTrim := (k6 : ℚ) / 1000000 })
        = { fuelCenter := (k1 : ℚ) / 1000000, fuelLeft := (k2 : ℚ) / 1000000,
            fuelRight := (k3 : ℚ) / 1000000, fuelLeftAux := (k4 : ℚ) / 1000000,
            fuelRightAux := (k5 : ℚ) / 1000000, fuelTrim := (k6 : ℚ) / 1000000 }) := by
  refine ⟨fun c => load_save gd hgd st c, fun k1 k2 k3 k4 k5 k6 => ?_⟩
  rw [load_save gd hgd]
  simp only [to_string_exact, textValue]

/-- Witness of `c16_round_trip`: the default quantities of `struct Configuration`
(0, 5535.5, 5535.5, 478.5, 478.5 and 823 gallons) written to an empty file and read
back with the `getDouble` modelled from the spec. -/
theorem c16_round_trip_witness :
    loadConfiguration getDouble
        (saveFuelInConfiguration iniEmpty
          { fuelCenter := ((0 : ℤ) : ℚ) / 1000000, fuelLeft := ((5535500000 : ℤ) : ℚ) / 1000000,
            fuelRight := ((5535500000 : ℤ) : ℚ) / 1000000,
            fuelLeftAux := ((478500000 : ℤ) : ℚ) / 1000000,
            fuelRightAux := ((478500000 : ℤ) : ℚ) / 1000000,
            fuelTrim := ((823000000 : ℤ) : ℚ) / 1000000 })
      = { fuelCenter := ((0 : ℤ) : ℚ) / 1000000, fuelLeft := ((5535500000 : ℤ) : ℚ) / 1000000,
          fuelRight := ((5535500000 : ℤ) : ℚ) / 1000000,
          fuelLeftAux := ((478500000 : ℤ) : ℚ) / 1000000,
          fuelRightAux := ((478500000 : ℤ) : ℚ) / 1000000,
          fuelTrim := ((823000000 : ℤ) : ℚ) / 1000000 } :=
  (c16_round_trip getDouble getDouble_text iniEmpty).2 0 5535500000 5535500000 478500000
    478500000 823000000

/-! ### Claims about cross-feed starvation, the centre transfer and the tamper rate -/

/-- The burns left by the cross-feed `switch`, case by case. -/
theorem crossFeedBurn_cases (apu : ℚ) (v : BurnVars) :
    ((crossFeedBurn 1 apu v).fuelBurn1 = 0
      ∧ (crossFeedBurn 1 apu v).fuelBurn2 = v.fuelBurn1 + v.fuelBurn2)
    ∧ ((crossFeedBurn 2 apu v).fuelBurn2 = 0
      ∧ (crossFeedBurn 2 apu v).fuelBurn1 = v.fuelBurn1 + v.fuelBurn2)
    ∧ ((crossFeedBurn 3 apu v).fuelBurn1 = 0 ∧ (crossFeedBurn 3 apu v).fuelBurn2 = 0)
    ∧ ((crossFeedBurn 4 apu v).fuelBurn1 = v.fuelBurn1
      ∧ (crossFeedBurn 4 apu v).fuelBurn2 = v.fuelBurn2)
    ∧ ((crossFeedBurn 0 apu v).fuelBurn1 = v.fuelBurn1
      ∧ (crossFeedBurn 0 apu v).fuelBurn2 = v.fuelBurn2) := by
  refine ⟨⟨?_, ?_⟩, ⟨?_, ?_⟩, ⟨?_, ?_⟩, ⟨?_, ?_⟩, ⟨?_, ?_⟩⟩ <;> simp [crossFeedBurn]

/-- The burns charged by the conservation step are those of the cross-feed
`switch` applied to the burns computed for the two engines, which are the amounts
added to the fuel-used accumulators. -/
theorem conservationStep_burns (sv : SimVars) (tamper : Bool) (devState dts : ℚ) :
    let r := conservationStep sv tamper devState dts
    let k := crossFeedLogic (sv.valve 3) (sv.pump 2) (sv.pump 5) (sv.pump 3) (sv.pump 6)
    let apu := sv.lineFlow 18 * sv.fuelWeightGallon * (dts / 3600)
    let v : BurnVars :=
      { fuelBurn1 := r.fuelUsedEngine1 - sv.fuelUsedEngine1
        fuelBurn2 := r.fuelUsedEngine2 - sv.fuelUsedEngine2
        apuBurn1 := apu
        apuBurn2 := 0 }
    r.fuelBurn1 = (crossFeedBurn k apu v).fuelBurn1
      ∧ r.fuelBurn2 = (crossFeedBurn k apu v).fuelBurn2 := by
  simp only [conservationStep, add_sub_cancel_left, and_self]

/-- C21 fails for topology 3: on the bus `svFuelValves 1 0 0` (cross-feed open,
all four boost pumps off) the burns computed for a tick of one second are 3/4 kg
and 1 kg, both wings are charged 0, and no wing is charged their sum 7/4 kg. -/
theorem c21_cross_feed_starvation_counterexample :
    crossFeedLogic ((svFuelValves 1 0 0).valve 3) ((svFuelValves 1 0 0).pump 2)
        ((svFuelValves 1 0 0).pump 5) ((svFuelValves 1 0 0).pump 3)
        ((svFuelValves 1 0 0).pump 6) = 3
      ∧ (conservationStep (svFuelValves 1 0 0) false 0 1).fuelUsedEngine1
          - (svFuelValves 1 0 0).fuelUsedEngine1 = 3 / 4
      ∧ (conservationStep (svFuelValves 1 0 0) false 0 1).fuelUsedEngine2
          - (svFuelValves 1 0 0).fuelUsedEngine2 = 1
      ∧ (conservationStep (svFuelValves 1 0 0) false 0 1).fuelBurn1 = 0
      ∧ (conservationStep (svFuelValves 1 0 0) false 0 1).fuelBurn2 = 0
      ∧ (conservationStep (svFuelValves 1 0 0) false 0 1).fuelBurn1
          + (conservationStep (svFuelValves 1 0 0) false 0 1).fuelBurn2 ≠ 3 / 4 + 1 := by
  norm_num [conservationStep, crossFeedLogic, crossFeedBurn, cycleFuelBurn, centerTransfer,
    svFuelValves, svFuel, svZero]

/-- C21 (amended): in the conservation step, with `b1` and `b2` the burns computed
for the two engines (the amounts added to the fuel-used accumulators): when only
the left wing cannot supply (topology 1) the left wing is charged 0 and the right
wing `b1 + b2`; when only the right wing cannot supply (topology 2) the right wing
is charged 0 and the left wing `b1 + b2`; in both the total charged is `b1 + b2`.
When neither wing can supply (topology 3) both wings are charged 0 and the total
charged is 0, not `b1 + b2`. -/
theorem c21_cross_feed_starvation (sv : SimVars) (tamper : Bool) (devState dts : ℚ) :
    let r := conservationStep sv tamper devState dts
    let k := crossFeedLogic (sv.valve 3) (sv.pump 2) (sv.pump 5) (sv.pump 3) (sv.pump 6)
    let b1 := r.fuelUsedEngine1 - sv.fuelUsedEngine1
    let b2 := r.fuelUsedEngine2 - sv.fuelUsedEngine2
    (k = 1 → r.fuelBurn1 = 0 ∧ r.fuelBurn2 = b1 + b2 ∧ r.fuelBurn1 + r.fuelBurn2 = b1 + b2)
    ∧ (k = 2 → r.fuelBurn2 = 0 ∧ r.fuelBurn1 = b1 + b2 ∧ r.fuelBurn1 + r.fuelBurn2 = b1 + b2)
    ∧ (k = 3 → r.fuelBurn1 = 0 ∧ r.fuelBurn2 = 0 ∧ r.fuelBurn1 + r.fuelBurn2 = 0) := by
  intro r k b1 b2
  have h := conservationStep_burns sv tamper devState dts
  obtain ⟨h1, h2⟩ := h
  refine ⟨?_, ?_, ?_⟩
  · intro hk
    have e1 : r.fuelBurn1 = 0 := by
      rw [h1]; show (crossFeedBurn k _ _).fuelBurn1 = 0; rw [hk]; simp [crossFeedBurn]
    have e2 : r.fuelBurn2 = b1 + b2 := by
      rw [h2]; show (crossFeedBurn k _ _).fuelBurn2 = _; rw [hk]; simp [crossFeedBurn, b1, b2]
    exact ⟨e1, e2, by rw [e1, e2, zero_add]⟩
  · intro hk
    have e2 : r.fuelBurn2 = 0 := by
      rw [h2]; show (crossFeedBurn k _ _).fuelBurn2 = 0; rw [hk]; simp [crossFeedBurn]
    have e1 : r.fuelBurn1 = b1 + b2 := by
      rw [h1]; show (crossFeedBurn k _ _).fuelBurn1 = _; rw [hk]; simp [crossFeedBurn, b1, b2]
    exact ⟨e2, e1, by rw [e1, e2, add_zero]⟩
  · intro hk
    have e1 : r.fuelBurn1 = 0 := by
      rw [h1]; show (crossFeedBurn k _ _).fuelBurn1 = 0; rw [hk]; simp [crossFeedBurn]
    have e2 : r.fuelBurn2 = 0 := by
      rw [h2]; show (crossFeedBurn k _ _).fuelBurn2 = 0; rw [hk]; simp [crossFeedBurn]
    exact ⟨e1, e2, by rw [e1, e2, zero_add]⟩

/-- The amended C21 on the bus `svFuelValves 1 0 1` (cross-feed open, left pumps
off, right pumps on: topology 1): the left wing is charged 0 and the right wing
the 7/4 kg computed for the two engines. -/
theorem c21_cross_feed_starvation_witness :
    crossFeedLogic ((svFuelValves 1 0 1).valve 3) ((svFuelValves 1 0 1).pump 2)
        ((svFuelValves 1 0 1).pump 5) ((svFuelValves 1 0 1).pump 3)
        ((svFuelValves 1 0 1).pump 6) = 1
      ∧ (conservationStep (svFuelValves 1 0 1) false 0 1).fuelBurn1 = 0
      ∧ (conservationStep (svFuelValves 1 0 1) false 0 1).fuelBurn2 = 7 / 4 := by
  have hk : crossFeedLogic ((svFuelValves 1 0 1).valve 3) ((svFuelValves 1 0 1).pump 2)
      ((svFuelValves 1 0 1).pump 5) ((svFuelValves 1 0 1).pump 3)
      ((svFuelValves 1 0 1).pump 6) = 1 := by
    norm_num [crossFeedLogic, svFuelValves, svFuel, svZero]
  have h := (c21_cross_feed_starvation (svFuelValves 1 0 1) false 0 1).1 hk
  refine ⟨hk, h.1, ?_⟩
  rw [h.2.1]
  norm_num [conservationStep, cycleFuelBurn, svFuelValves, svFuel, svZero]

/-- With non-negative line flows that are not both below `0.1`, the divisor of the
share ratio is positive and the ratio lies in `[0, 1]`. -/
theorem lineFlowRatio_range (l r : ℚ) (hl : 0 ≤ l) (hr : 0 ≤ r)
    (h : ¬ (l < 1 / 10 ∧ r < 1 / 10)) :
    0 < l + r ∧ 0 ≤ l / (l + r) ∧ l / (l + r) ≤ 1 := by
  have hpos : 0 < l + r := by
    by_cases h1 : l < 1 / 10
    · have h2 : ¬ r < 1 / 10 := fun h2 => h ⟨h1, h2⟩
      push_neg at h2
      linarith
    · push_neg at h1
      linarith
  refine ⟨hpos, div_nonneg hl hpos.le, ?_⟩
  rw [div_le_one hpos]
  linarith

/-- C22: in the conservation step without tamper, with `D` the committed centre
quantity minus the host's centre quantity and non-negative line flows `L` (line
27) and `R` (line 28): with both centre valves open each wing receives `D / 2`
when both flows are below `0.1`; otherwise the divisor `L + R` is not zero, the
share ratio `L / (L + R)` lies in `[0, 1]`, the left wing receives
`D * (L / (L + R))` and the right wing the rest; in both cases the two shares sum
to `D`. With only one valve open that wing receives `D` and the other `0`; with
none open both receive `0`. -/
theorem c22_center_transfer_split (sv : SimVars) (devState dts : ℚ)
    (hl : 0 ≤ sv.lineFlow 27) (hr : 0 ≤ sv.lineFlow 28) :
    let x := conservationStep sv false devState dts
    let D := sv.fuelCenterPre - centerQuantity sv
    let L := sv.lineFlow 27
    let R := sv.lineFlow 28
    (xfrValveCenterLeftOpen sv = true → xfrValveCenterRightOpen sv = true →
        ((L < 1 / 10 ∧ R < 1 / 10) → x.xfrCenterToLeft = D / 2 ∧ x.xfrCenterToRight = D / 2)
        ∧ (¬ (L < 1 / 10 ∧ R < 1 / 10) →
            L + R ≠ 0 ∧ 0 ≤ L / (L + R) ∧ L / (L + R) ≤ 1
            ∧ x.xfrCenterToLeft = D * (L / (L + R))
            ∧ x.xfrCenterToRight = D - D * (L / (L + R)))
        ∧ x.xfrCenterToLeft + x.xfrCenterToRight = D)
    ∧ (xfrValveCenterLeftOpen sv = true → xfrValveCenterRightOpen sv = false →
        x.xfrCenterToLeft = D ∧ x.xfrCenterToRight = 0)
    ∧ (xfrValveCenterLeftOpen sv = false → xfrValveCenterRightOpen sv = true →
        x.xfrCenterToLeft = 0 ∧ x.xfrCenterToRight = D)
    ∧ (xfrValveCenterLeftOpen sv = false → xfrValveCenterRightOpen sv = false →
        x.xfrCenterToLeft = 0 ∧ x.xfrCenterToRight = 0) := by
  intro x D L R
  have e1 : x.xfrCenterToLeft = (centerTransfer (xfrValveCenterLeftOpen sv)
      (xfrValveCenterRightOpen sv) L R sv.fuelCenterPre (centerQuantity sv)).1 := rfl
  have e2 : x.xfrCenterToRight = (centerTransfer (xfrValveCenterLeftOpen sv)
      (xfrValveCenterRightOpen sv) L R sv.fuelCenterPre (centerQuantity sv)).2 := rfl
  rw [e1, e2]
  refine ⟨?_, ?_, ?_, ?_⟩
  · intro ho1 ho2
    rw [ho1, ho2]
    refine ⟨?_, ?_, ?_⟩
    · intro hs
      simp only [centerTransfer, Bool.and_self, if_true, if_pos hs]
      constructor <;> ring
    · intro hs
      have hrange := lineFlowRatio_range L R hl hr hs
      refine ⟨hrange.1.ne', hrange.2.1, hrange.2.2, ?_, ?_⟩
      · simp only [centerTransfer, Bool.and_self, if_true, if_neg hs]
      · simp only [centerTransfer, Bool.and_self, if_true, if_neg hs]
        ring
    · by_cases hs : L < 1 / 10 ∧ R < 1 / 10
      · simp only [centerTransfer, Bool.and_self, if_true, if_pos hs]
        ring
      · simp only [centerTransfer, Bool.and_self, if_true, if_neg hs]
        ring
  · intro ho1 ho2
    rw [ho1, ho2]
    simp [centerTransfer, D]
  · intro ho1 ho2
    rw [ho1, ho2]
    simp [centerTransfer, D]
  · intro ho1 ho2
    rw [ho1, ho2]
    simp [centerTransfer]

/-- C22 on the bus `svFuelFlows`: both centre valves open, flows of 3 on line 27
and 1 on line 28, 400 lbs committed in the centre tank against 300 lbs reported by
the host: the left wing receives 75 lbs and the right wing 25 lbs. -/
theorem c22_center_transfer_split_witness :
    (0 : ℚ) ≤ svFuelFlows.lineFlow 27 ∧ (0 : ℚ) ≤ svFuelFlows.lineFlow 28
      ∧ xfrValveCenterLeftOpen svFuelFlows = true
      ∧ xfrValveCenterRightOpen svFuelFlows = true
      ∧ (conservationStep svFuelFlows false 0 1).xfrCenterToLeft = 75
      ∧ (conservationStep svFuelFlows false 0 1).xfrCenterToRight = 25 := by
  have hl : (0 : ℚ) ≤ svFuelFlows.lineFlow 27 := by norm_num [svFuelFlows]
  have hr : (0 : ℚ) ≤ svFuelFlows.lineFlow 28 := by norm_num [svFuelFlows]
  have ho1 : xfrValveCenterLeftOpen svFuelFlows = true := by
    simp [xfrValveCenterLeftOpen, xfrCenterLeftAuto, xfrCenterLeftManual, svFuelFlows,
      svFuelValves, svFuel, svZero]
  have ho2 : xfrValveCenterRightOpen svFuelFlows = true := by
    simp [xfrValveCenterRightOpen, xfrCenterRightAuto, xfrCenterRightManual, svFuelFlows,
      svFuelValves, svFuel, svZero]
  have hs : ¬ (svFuelFlows.lineFlow 27 < 1 / 10 ∧ svFuelFlows.lineFlow 28 < 1 / 10) := by
    norm_num [svFuelFlows]
  have h := ((c22_center_transfer_split svFuelFlows 0 1 hl hr).1 ho1 ho2).2.1 hs
  refine ⟨hl, hr, ho1, ho2, ?_, ?_⟩
  · rw [h.2.2.2.1]
    norm_num [svFuelFlows, centerQuantity, svFuelValves, svFuel, svZero]
  · rw [h.2.2.2.2]
    norm_num [svFuelFlows, centerQuantity, svFuelValves, svFuel, svZero]

/-- C23, the code at the failing input `svFuelHeavy` with a tick of one second:
the host total is 900 lbs away from the committed total, so the fuel moved at
900 lbs per second, above the threshold of 661; `deltaFuelRate` is 450, the same
jump divided by the fuel weight of 2 lbs per gallon, and the tick is not
classified as tamper. -/
theorem c23_rate_units_failing_input :
    svFuelHeavy.fuelWeightGallon = 2
      ∧ |fuelTotalActual svFuelHeavy - fuelTotalPre svFuelHeavy| / 1 = 900
      ∧ (900 : ℚ) > FUEL_THRESHOLD
      ∧ deltaFuelRate svFuelHeavy 1 = 450
      ∧ deltaFuelRate svFuelHeavy 1 ≠ |fuelTotalActual svFuelHeavy - fuelTotalPre svFuelHeavy| / 1
      ∧ uiFuelTamper svFuelHeavy 1 = false := by
  have e : fuelTotalActual svFuelHeavy - fuelTotalPre svFuelHeavy = 900 := by
    norm_num [fuelTotalActual, fuelTotalPre, leftQuantity, rightQuantity, leftAuxQuantity,
      rightAuxQuantity, centerQuantity, svFuelHeavy, svFuel, svZero]
  have er : deltaFuelRate svFuelHeavy 1 = 450 := by
    unfold deltaFuelRate
    rw [e]
    norm_num [svFuelHeavy]
  refine ⟨rfl, by rw [e]; norm_num, by norm_num [FUEL_THRESHOLD], er, ?_, ?_⟩
  · rw [er, e]; norm_num
  · simp only [uiFuelTamper, er]
    norm_num [FUEL_THRESHOLD]

/-- For every fuel weight per gallon, `deltaFuelRate` times the fuel weight per
gallon is the jump in pounds divided by the delta time: `deltaFuelRate` is a rate
in gallons per second. -/
theorem deltaFuelRate_gallons (sv : SimVars) (dts : ℚ) (hw : sv.fuelWeightGallon ≠ 0) :
    deltaFuelRate sv dts * sv.fuelWeightGallon
      = |fuelTotalActual sv - fuelTotalPre sv| / dts := by
  unfold deltaFuelRate
  by_cases hd : dts = 0
  · subst hd; simp
  · field_simp
    ring

/-- The checked division gives the quotient when the divisor is not zero and
nothing when it is. -/
theorem divChecked_eq (a b : ℚ) :
    (b ≠ 0 → divChecked a b = some (a / b)) ∧ (b = 0 → divChecked a b = none) := by
  constructor
  · intro h
    simp only [divChecked, h, if_false]
  · intro h
    simp only [divChecked, h, if_true]

/-- The checked `deltaFuelRate` is the `deltaFuelRate` of `updateFuel` when the
divisor `fuelWeightGallon * deltaTimeSeconds` is not zero and nothing when it is. -/
theorem deltaFuelRateChecked_eq (sv : SimVars) (dts : ℚ) :
    deltaFuelRateChecked sv dts
      = if sv.fuelWeightGallon * dts = 0 then none else some (deltaFuelRate sv dts) := by
  unfold deltaFuelRateChecked deltaFuelRate divChecked
  rfl

/-- The checked cycle fuel burn is the cycle fuel burn of `updateFuel` when the
delta time is not zero and nothing when it is. -/
theorem cycleFuelBurnChecked_eq (ff pre dt : ℚ) :
    cycleFuelBurnChecked ff pre dt
      = if dt = 0 then none else some (cycleFuelBurn ff pre dt) := by
  by_cases h : dt = 0
  · simp only [cycleFuelBurnChecked, divChecked, h, if_true]
  · simp only [cycleFuelBurnChecked, divChecked, cycleFuelBurn, h, if_false]

/-- With a delta time that is not zero the checked burn of a wing is the burn of
the `Engine and Wing routine` of `conservationStep`. -/
theorem wingBurnChecked_eq (fuelPre dev ff pre dt : ℚ) (h : dt ≠ 0) :
    wingBurnChecked fuelPre dev ff pre dt
      = some (if fuelPre > 0 then (if dev ≠ 2 then cycleFuelBurn ff pre dt else 0) else 0) := by
  unfold wingBurnChecked
  rw [cycleFuelBurnChecked_eq, if_neg h]
  split_ifs <;> rfl

/-- The conservation step is the rest of the branch on the two burns. -/
theorem conservationStep_rest (sv : SimVars) (tamper : Bool) (dev dts : ℚ) :
    conservationStep sv tamper dev dts
      = conservationRest sv tamper dts
          (if (if tamper then leftQuantity sv else sv.fuelLeftPre) > 0 then
            (if dev ≠ 2 then cycleFuelBurn sv.engine1FF sv.engine1PreFF (dts / 3600) else 0)
           else 0)
          (if (if tamper then rightQuantity sv else sv.fuelRightPre) > 0 then
            (if dev ≠ 2 then cycleFuelBurn sv.engine2FF sv.engine2PreFF (dts / 3600) else 0)
           else 0) := rfl

/-- With a delta time that is not zero the checked conservation step is the
conservation step of `updateFuel`. -/
theorem conservationStepChecked_eq (sv : SimVars) (tamper : Bool) (dev dts : ℚ) (h : dts ≠ 0) :
    conservationStepChecked sv tamper dev dts = some (conservationStep sv tamper dev dts) := by
  have h' : dts / 3600 ≠ 0 := div_ne_zero h (by norm_num)
  unfold conservationStepChecked
  simp only [wingBurnChecked_eq _ _ _ _ _ h']
  rw [conservationStep_rest]

/-- With a fuel weight per gallon and a delta time that are not zero, the checked
three-way branch is the three-way branch of `updateFuel`. -/
theorem fuelBranchChecked_eq (sv : SimVars) (so : SimObject) (paused : Bool) (dts : ℚ)
    (hw : sv.fuelWeightGallon ≠ 0) (h : dts ≠ 0) :
    fuelBranchChecked sv so paused dts = some (fuelBranch sv so paused dts) := by
  have hr : deltaFuelRateChecked sv dts = some (deltaFuelRate sv dts) := by
    rw [deltaFuelRateChecked_eq, if_neg (mul_ne_zero hw h)]
  have ht : uiFuelTamperOf sv (deltaFuelRate sv dts) = uiFuelTamper sv dts := rfl
  unfold fuelBranchChecked fuelBranch
  simp only [hr, ht, conservationStepChecked_eq _ _ _ _ h]
  cases hp : (paused || (uiFuelTamper sv dts && decide (sv.developerState = 0))) with
  | true => simp only [if_true]
  | false =>
    cases hq : (!uiFuelTamper sv dts && decide (sv.refuelStartedByUser = 1)) with
    | true => simp only [Bool.false_eq_true, if_false, if_true]
    | false => simp only [Bool.false_eq_true, if_false]

/-- The checked `updateFuel` gives nothing when the divisor of `deltaFuelRate`,
`fuelWeightGallon * deltaTimeSeconds`, is zero, and the state after `updateFuel`
otherwise. -/
theorem updateFuelChecked_eq (ec : EngineControl) (dts : ℚ) :
    updateFuelChecked ec dts
      = if ec.simVars.fuelWeightGallon * dts = 0 then none else some (updateFuel ec dts) := by
  by_cases h : ec.simVars.fuelWeightGallon * dts = 0
  · rw [if_pos h]
    have hr : deltaFuelRateChecked ec.simVars dts = none := by
      rw [deltaFuelRateChecked_eq, if_pos h]
    have hb : fuelBranchChecked ec.simVars ec.simObject ec.simPaused dts = none := by
      unfold fuelBranchChecked
      simp only [hr]
    unfold updateFuelChecked
    simp only [hb]
  · rw [if_neg h]
    have hw : ec.simVars.fuelWeightGallon ≠ 0 := fun e => h (by rw [e, zero_mul])
    have hd : dts ≠ 0 := fun e => h (by rw [e, mul_zero])
    unfold updateFuelChecked
    simp only [fuelBranchChecked_eq _ _ _ _ hw hd]
    rfl

/-- C24 fails at a delta time of 0: on `ecFuel0` (fuel weight 1 lbs per gallon,
not paused, no tamper, 1000 lbs committed in each wing, fuel flows of 3600 and
1800) the call `updateFuel(0)` divides by zero: the implied flow rate divides by
`fuelWeightGallon * 0`, and the slope of the fuel flow divides by `0 / 3600`. -/
theorem c24_division_safety_counterexample :
    (0 : ℚ) ≥ 0
      ∧ (0 : ℚ) < ecFuel0.simVars.fuelWeightGallon
      ∧ updateFuelChecked ecFuel0 0 = none
      ∧ deltaFuelRateChecked ecFuel0.simVars 0 = none
      ∧ cycleFuelBurnChecked ecFuel0.simVars.engine1FF ecFuel0.simVars.engine1PreFF (0 / 3600)
        = none := by
  refine ⟨le_refl _, by norm_num [ecFuel0, ecOver, svFuel], ?_, ?_, ?_⟩
  · rw [updateFuelChecked_eq, if_pos (mul_zero _)]
  · rw [deltaFuelRateChecked_eq, if_pos (mul_zero _)]
  · rw [cycleFuelBurnChecked_eq, if_pos (by norm_num)]

/-- C24 (amended): for every positive fuel weight per gallon, `updateFuel`
performs no division by the delta time with a zero divisor when the delta time is
not 0, in particular for every delta time > 0: the checked call then gives the
state after `updateFuel`. The divisions are not guarded against a delta time of
exactly 0: the checked call then gives nothing, because the implied flow rate,
evaluated on every call, divides by `fuelWeightGallon * 0`; and the slope of the
fuel flow, where the conservation branch evaluates it, divides by `0 / 3600`.
Where the checked divisions give a value, it is the value of `deltaFuelRate` and
of `cycleFuelBurn` in `updateFuel`. -/
theorem c24_division_safety (ec : EngineControl) (dts : ℚ)
    (hw : 0 < ec.simVars.fuelWeightGallon) :
    (dts ≠ 0 → updateFuelChecked ec dts = some (updateFuel ec dts))
    ∧ (dts = 0 → updateFuelChecked ec dts = none)
    ∧ (deltaFuelRateChecked ec.simVars dts = none ↔ dts = 0)
    ∧ (∀ ff pre : ℚ, cycleFuelBurnChecked ff pre (dts / 3600) = none ↔ dts = 0)
    ∧ (∀ q : ℚ, deltaFuelRateChecked ec.simVars dts = some q → q = deltaFuelRate ec.simVars dts)
    ∧ (∀ ff pre b : ℚ, cycleFuelBurnChecked ff pre (dts / 3600) = some b →
        b = cycleFuelBurn ff pre (dts / 3600)) := by
  have hmul : ec.simVars.fuelWeightGallon * dts = 0 ↔ dts = 0 := by
    constructor
    · intro h
      rcases mul_eq_zero.mp h with h | h
      · exact absurd h hw.ne'
      · exact h
    · intro h
      rw [h, mul_zero]
  have hdiv : dts / 3600 = 0 ↔ dts = 0 := by
    constructor
    · intro h
      rcases div_eq_zero_iff.mp h with h | h
      · exact h
      · norm_num at h
    · intro h
      rw [h, zero_div]
  refine ⟨?_, ?_, ?_, ?_, ?_, ?_⟩
  · intro h
    rw [updateFuelChecked_eq, if_neg (fun e => h (hmul.mp e))]
  · intro h
    rw [updateFuelChecked_eq, if_pos (hmul.mpr h)]
  · rw [deltaFuelRateChecked_eq]
    constructor
    · intro h
      by_contra hd
      rw [if_neg (fun e => hd (hmul.mp e))] at h
      exact Option.some_ne_none _ h
    · intro h
      rw [if_pos (hmul.mpr h)]
  · intro ff pre
    rw [cycleFuelBurnChecked_eq]
    constructor
    · intro h
      by_contra hd
      rw [if_neg (fun e => hd (hdiv.mp e))] at h
      exact Option.some_ne_none _ h
    · intro h
      rw [if_pos (hdiv.mpr h)]
  · intro q h
    rw [deltaFuelRateChecked_eq] at h
    split_ifs at h
    exact (Option.some.inj h).symm
  · intro ff pre b h
    rw [cycleFuelBurnChecked_eq] at h
    split_ifs at h
    exact (Option.some.inj h).symm

/-- The amended C24 on `ecFuel0` with a tick of one second: no division by the
delta time has a zero divisor and the checked call gives the state after
`updateFuel`; the implied flow rate is 0 and the burn of engine 1 is 3/4 kg. -/
theorem c24_division_safety_witness :
    (0 : ℚ) < ecFuel0.simVars.fuelWeightGallon
      ∧ updateFuelChecked ecFuel0 1 = some (updateFuel ecFuel0 1)
      ∧ deltaFuelRateChecked ecFuel0.simVars 1 = some 0
      ∧ cycleFuelBurnChecked ecFuel0.simVars.engine1FF ecFuel0.simVars.engine1PreFF (1 / 3600)
        = some (3 / 4) := by
  have hw : (0 : ℚ) < ecFuel0.simVars.fuelWeightGallon := by
    norm_num [ecFuel0, ecOver, svFuel]
  refine ⟨hw, (c24_division_safety ecFuel0 1 hw).1 (by norm_num), ?_, ?_⟩
  · rw [deltaFuelRateChecked_eq]
    norm_num [deltaFuelRate, fuelTotalActual, fuelTotalPre, leftQuantity, rightQuantity,
      leftAuxQuantity, rightAuxQuantity, centerQuantity, ecFuel0, ecOver, svFuel, svZero]
  · rw [cycleFuelBurnChecked_eq]
    norm_num [cycleFuelBurn, ecFuel0, ecOver, svFuel, svZero]

/-! ### Further claims about the thrust limits -/

/-- The flex block during an active transition with the ramp factor at 0.2 and
flex not deactivated on this tick, for `clb > flex` and `e` the time elapsed since
`transitionStartTime`: up to the wait time the adapted climb limit is `flex`; after
it the limit is `flex + (e - 10) * 0.2` while that is below `clb`; from then on it
is `clb` and both flags are cleared. -/
theorem climbAdapted_ramp (ec : EngineControl) (t clb flex : ℚ)
    (hact : ec.isTransitionActive = true) (hfac : ec.transitionFactor = 2 / 10)
    (hflex : flexActiveStep ec = true) (hc : flex < clb) :
    (t - ec.transitionStartTime ≤ 10 →
        climbAdapted ec t clb flex = flex
        ∧ (if flexReached ec t clb flex then false else transitionActiveStep ec) = true)
    ∧ (10 < t - ec.transitionStartTime →
        (t - ec.transitionStartTime - 10) * (2 / 10) < clb - flex →
        climbAdapted ec t clb flex = flex + (t - ec.transitionStartTime - 10) * (2 / 10)
        ∧ (if flexReached ec t clb flex then false else transitionActiveStep ec) = true)
    ∧ (clb - flex ≤ (t - ec.transitionStartTime - 10) * (2 / 10) →
        climbAdapted ec t clb flex = clb
        ∧ (if flexReached ec t clb flex then false else flexActiveStep ec) = false
        ∧ (if flexReached ec t clb flex then false else transitionActiveStep ec) = false) := by
  have hts : transitionStarts ec = false := by
    simp [transitionStarts, hact]
  have hta : transitionActiveStep ec = true := by
    simp [transitionActiveStep, hts, hflex, hact]
  have hst : transitionStartStep ec t = ec.transitionStartTime := by
    simp [transitionStartStep, hts, hflex]
  have hfc : transitionFactorStep ec = 2 / 10 := by
    simp [transitionFactorStep, hts, hflex, hfac]
  have hd : deltaThrustOf ec t clb flex
      = if max 0 (t - ec.transitionStartTime - 10) > 0 ∧ clb > flex then
          min (clb - flex) (max 0 (t - ec.transitionStartTime - 10) * (2 / 10))
        else 0 := by
    unfold deltaThrustOf waitTime
    rw [hta, hst, hfc, if_pos rfl]
  have hmin : min clb flex = flex := min_eq_right hc.le
  refine ⟨?_, ?_, ?_⟩
  · intro he
    have hm : max 0 (t - ec.transitionStartTime - 10) = 0 := max_eq_left (by linarith)
    have hd0 : deltaThrustOf ec t clb flex = 0 := by
      rw [hd, hm, if_neg (fun h => lt_irrefl _ h.1)]
    have hr : flexReached ec t clb flex = false := by
      simp only [flexReached, hta, hd0, Bool.true_and, decide_eq_false_iff_not, add_zero]
      exact not_le.mpr hc
    simp only [climbAdapted, hr, hflex, hta, hd0, hmin, add_zero, if_true, Bool.false_eq_true,
      if_false, and_self]
  · intro he hlt
    have hm : max 0 (t - ec.transitionStartTime - 10) = t - ec.transitionStartTime - 10 :=
      max_eq_right (by linarith)
    have hdv : deltaThrustOf ec t clb flex = (t - ec.transitionStartTime - 10) * (2 / 10) := by
      rw [hd, hm, if_pos ⟨by linarith, hc⟩, min_eq_right hlt.le]
    have hr : flexReached ec t clb flex = false := by
      simp only [flexReached, hta, hdv, Bool.true_and, decide_eq_false_iff_not]
      intro h
      linarith
    simp only [climbAdapted, hr, hflex, hta, hdv, hmin, if_true, Bool.false_eq_true,
      if_false, and_self]
  · intro hge
    have hpos : 0 < t - ec.transitionStartTime - 10 := by
      by_contra hn
      have : (t - ec.transitionStartTime - 10) * (2 / 10) ≤ 0 :=
        mul_nonpos_of_nonpos_of_nonneg (not_lt.mp hn) (by norm_num)
      linarith
    have hm : max 0 (t - ec.transitionStartTime - 10) = t - ec.transitionStartTime - 10 :=
      max_eq_right hpos.le
    have hdv : deltaThrustOf ec t clb flex = clb - flex := by
      rw [hd, hm, if_pos ⟨hpos, hc⟩, min_eq_left hge]
    have hr : flexReached ec t clb flex = true := by
      simp only [flexReached, hta, hdv, Bool.true_and, decide_eq_true_eq]
      linarith
    simp only [climbAdapted, hr, if_true, Bool.false_eq_true, if_false, and_self]

/-- C25 fails: with a climb value of 80, a flex value of 70 and the transition
started at simulation time 100 (`libFlex`, `ecFlex`), 40 seconds later, at 140,
the climb limit written is 76, not the climb value 80, and flex and the transition
are still active; the same holds ten seconds later with 78. -/
theorem c25_flex_transition_duration_counterexample :
    limitClb libFlex ecFlex 15 1013 0 0 0 = 80
      ∧ limitFlex libFlex ecFlex 15 1013 0 0 0 0 = 70
      ∧ ecFlex.transitionStartTime = 100
      ∧ (updateThrustLimits libFlex ecFlex 140 0 15 1013 0 0 0 0 0).simVars.thrustLimitClimb
        = 76
      ∧ (updateThrustLimits libFlex ecFlex 140 0 15 1013 0 0 0 0 0).isFlexActive = true
      ∧ (updateThrustLimits libFlex ecFlex 140 0 15 1013 0 0 0 0 0).isTransitionActive = true
      ∧ (updateThrustLimits libFlex ecFlex 150 0 15 1013 0 0 0 0 0).simVars.thrustLimitClimb
        = 78 := by
  have hclb : limitClb libFlex ecFlex 15 1013 0 0 0 = 80 := by
    norm_num [limitClb, libFlex, ecFlex, ecOver, svZero]
  have hflx : limitFlex libFlex ecFlex 15 1013 0 0 0 0 = 70 := by
    norm_num [limitFlex, machFactorLow, libFlex, ecFlex, ecOver, svZero]
  have hfa : flexActiveStep ecFlex = true := by
    norm_num [flexActiveStep, ecFlex, ecOver, svZero]
  have h140 := (climbAdapted_ramp ecFlex 140 80 70 rfl rfl hfa (by norm_num)).2.1
    (by norm_num [ecFlex]) (by norm_num [ecFlex])
  have h150 := (climbAdapted_ramp ecFlex 150 80 70 rfl rfl hfa (by norm_num)).2.1
    (by norm_num [ecFlex]) (by norm_num [ecFlex])
  have hr : flexReached ecFlex 140 80 70 = false := by
    by_contra hn
    rw [Bool.not_eq_false] at hn
    have := h140.2
    rw [hn] at this
    exact absurd this (by simp)
  obtain ⟨e1, e2, e3, -, -⟩ := updateThrustLimits_flex libFlex ecFlex 140 0 15 1013 0 0 0 0 0
  obtain ⟨f1, -, -, -, -⟩ := updateThrustLimits_flex libFlex ecFlex 150 0 15 1013 0 0 0 0 0
  refine ⟨hclb, hflx, rfl, ?_, ?_, ?_, ?_⟩
  · rw [e1, hclb, hflx, h140.1]; norm_num [ecFlex]
  · rw [e2, hclb, hflx, hr, hfa]; rfl
  · rw [e3, hclb, hflx]; exact h140.2
  · rw [f1, hclb, hflx, h150.1]; norm_num [ecFlex]

/-- C25 (amended): on a tick during an active flex-to-climb transition (transition
active on entry with the ramp factor at 0.2, flex not deactivated on this tick)
with `clb > flex` and `e` the simulation time elapsed since `transitionStartTime`:
for `e` up to the 10 seconds of wait the climb limit written is the flex value;
after the wait it is `flex + (e - 10) * 0.2`, a ramp of 0.2 per second, for as
long as that is below `clb`; once `(e - 10) * 0.2 >= clb - flex`, that is from
`e = 10 + (clb - flex) / 0.2` on, the climb limit written is `clb` and flex and
the transition are deactivated. The ramp lasts `(clb - flex) / 0.2` seconds, not
30 seconds: 40 seconds after the start the climb limit written is `clb` only if
`clb - flex <= 6`. -/
theorem c25_flex_transition_duration (lib : Library) (ec : EngineControl)
    (t alt amb p mach hi pk na wa : ℚ)
    (hact : ec.isTransitionActive = true) (hfac : ec.transitionFactor = 2 / 10)
    (hflex : flexActiveStep ec = true)
    (hc : limitFlex lib ec amb p mach pk na wa < limitClb lib ec amb p pk na wa) :
    let r := updateThrustLimits lib ec t alt amb p mach hi pk na wa
    let clb := limitClb lib ec amb p pk na wa
    let flex := limitFlex lib ec amb p mach pk na wa
    let e := t - ec.transitionStartTime
    (e ≤ 10 → r.simVars.thrustLimitClimb = flex ∧ r.isTransitionActive = true)
    ∧ (10 < e → (e - 10) * (2 / 10) < clb - flex →
        r.simVars.thrustLimitClimb = flex + (e - 10) * (2 / 10)
        ∧ r.simVars.thrustLimitClimb < clb ∧ r.isTransitionActive = true)
    ∧ (clb - flex ≤ (e - 10) * (2 / 10) →
        r.simVars.thrustLimitClimb = clb ∧ r.isFlexActive = false
        ∧ r.isTransitionActive = false)
    ∧ (e = 40 → (r.simVars.thrustLimitClimb = clb ↔ clb - flex ≤ 6)) := by
  intro r clb flex e
  obtain ⟨h1, h2, h3, -, -⟩ := updateThrustLimits_flex lib ec t alt amb p mach hi pk na wa
  obtain ⟨ha, hb, hd⟩ := climbAdapted_ramp ec t clb flex hact hfac hflex hc
  have r1 : r.simVars.thrustLimitClimb = climbAdapted ec t clb flex := h1
  have r2 : r.isFlexActive
      = (if flexReached ec t clb flex then false else flexActiveStep ec) := h2
  have r3 : r.isTransitionActive
      = (if flexReached ec t clb flex then false else transitionActiveStep ec) := h3
  rw [r1, r2, r3]
  refine ⟨ha, ?_, hd, ?_⟩
  · intro he hlt
    have hx := hb he hlt
    refine ⟨hx.1, ?_, hx.2⟩
    rw [hx.1]
    show flex + (t - ec.transitionStartTime - 10) * (2 / 10) < clb
    have : (t - ec.transitionStartTime - 10) * (2 / 10) < clb - flex := hlt
    linarith
  · intro he
    have he' : t - ec.transitionStartTime = 40 := he
    constructor
    · intro hq
      by_contra hn
      have hlt : (t - ec.transitionStartTime - 10) * (2 / 10) < clb - flex := by
        rw [he']; push_neg at hn; linarith
      have hx := hb (by rw [he']; norm_num) hlt
      rw [hx.1, he'] at hq
      linarith
    · intro hle
      exact (hd (by rw [he']; linarith)).1

/-- The amended C25 on `libFlex`, `ecFlex` (climb value 80, flex value 70,
transition started at 100): at simulation time 160, that is 10 + 10 / 0.2 seconds
after the start, the climb limit written is the climb value 80 and flex and the
transition are deactivated. -/
theorem c25_flex_transition_duration_witness :
    (updateThrustLimits libFlex ecFlex 160 0 15 1013 0 0 0 0 0).simVars.thrustLimitClimb
        = limitClb libFlex ecFlex 15 1013 0 0 0
      ∧ (updateThrustLimits libFlex ecFlex 160 0 15 1013 0 0 0 0 0).isFlexActive = false
      ∧ (updateThrustLimits libFlex ecFlex 160 0 15 1013 0 0 0 0 0).isTransitionActive
        = false :=
  (c25_flex_transition_duration libFlex ecFlex 160 0 15 1013 0 0 0 0 0 rfl rfl
    (by norm_num [flexActiveStep, ecFlex, ecOver, svZero])
    (by norm_num [limitClb, limitFlex, machFactorLow, libFlex, ecFlex, ecOver, svZero])).2.2.1
    (by norm_num [limitClb, limitFlex, machFactorLow, libFlex, ecFlex, ecOver, svZero])

/-! ### Claims about the steady-state fuel flow and EGT -/

/-- C26: with `c` the corrected fuel flow of the curve, `updateFF` returns `c`;
the fuel flow written for the engine is `0` when `c < 1` and otherwise
`max(0, c * LBS_TO_KGS * delta2 * sqrt(theta2) - offset)`, where `offset` is the
fuel-flow imbalance magnitude for the afflicted engine and `0` for the other; the
fuel flow written is never negative. -/
theorem c26_fuel_flow (lib : Library) (ec : EngineControl) (engine : ℤ)
    (imbalance simCN1 mach pressAltitude ambientTemp ambientPressure : ℚ) :
    let r := updateFF lib ec engine imbalance simCN1 mach pressAltitude ambientTemp
      ambientPressure
    let c := lib.correctedFuelFlow simCN1 mach pressAltitude
    let offset : ℚ :=
      if truncInt (lib.imbalanceExtractor imbalance 1) = engine then
        lib.imbalanceExtractor imbalance 3
      else 0
    r.2 = c
    ∧ (c < 1 → engineFFOf r.1.simVars engine = 0)
    ∧ (¬ c < 1 → engineFFOf r.1.simVars engine
        = max 0 (c * LBS_TO_KGS * lib.delta2 mach ambientPressure
            * lib.sqrt (lib.theta2 mach ambientTemp) - offset))
    ∧ 0 ≤ engineFFOf r.1.simVars engine := by
  intro r c offset
  have hff : engineFFOf r.1.simVars engine
      = if c < 1 then 0
        else max 0 (c * LBS_TO_KGS * lib.delta2 mach ambientPressure
          * lib.sqrt (lib.theta2 mach ambientTemp)
          - (if truncInt (lib.imbalanceExtractor imbalance 1) ≠ engine ∨ c < 1 then 0
             else lib.imbalanceExtractor imbalance 3)) := by
    by_cases he : engine = 1
    · simp only [r, c, updateFF, engineFFOf, he, if_true]
    · simp only [r, c, updateFF, engineFFOf, he, if_false]
  refine ⟨rfl, ?_, ?_, ?_⟩
  · intro hc
    rw [hff, if_pos hc]
  · intro hc
    rw [hff, if_neg hc]
    by_cases ha : truncInt (lib.imbalanceExtractor imbalance 1) = engine
    · simp only [offset, ha, hc, ne_eq, not_true_eq_false, or_self, if_false, if_true]
    · simp only [offset, ha, ne_eq, not_false_eq_true, true_or, if_true, if_false]
  · rw [hff]
    split_ifs
    · exact le_rfl
    · exact le_max_left _ _
    · exact le_max_left _ _

/-- C26 on `libSteady`: with the corrected fuel flow at 1000, engine 1 afflicted
with a fuel-flow imbalance of 20 is written `1000 * 0.4535934 - 20`, engine 2 the
full `1000 * 0.4535934`, and the call returns 1000. -/
theorem c26_fuel_flow_witness :
    (updateFF libSteady (ecOver svZero) 1 7 0 0 0 0 0).2 = 1000
      ∧ engineFFOf (updateFF libSteady (ecOver svZero) 1 7 0 0 0 0 0).1.simVars 1
        = 4335934 / 10000
      ∧ engineFFOf (updateFF libSteady (ecOver svZero) 2 7 0 0 0 0 0).1.simVars 2
        = 4535934 / 10000 := by
  have h1 := c26_fuel_flow libSteady (ecOver svZero) 1 7 0 0 0 0 0
  have h2 := c26_fuel_flow libSteady (ecOver svZero) 2 7 0 0 0 0 0
  refine ⟨h1.1, ?_, ?_⟩
  · rw [h1.2.2.1 (by norm_num [libSteady])]
    norm_num [libSteady, LBS_TO_KGS, truncInt]
  · rw [h2.2.2.1 (by norm_num [libSteady])]
    norm_num [libSteady, LBS_TO_KGS, truncInt]

/-- A value `target + (prev - target) * e` with `0 ≤ e ≤ 1` lies between `prev`
and `target`. -/
theorem lowPass_between (prev target e : ℚ) (h0 : 0 ≤ e) (h1 : e ≤ 1) :
    min prev target ≤ target + (prev - target) * e
      ∧ target + (prev - target) * e ≤ max prev target := by
  rcases le_total prev target with h | h
  · rw [min_eq_left h, max_eq_right h]
    constructor <;> nlinarith
  · rw [min_eq_right h, max_eq_left h]
    constructor <;> nlinarith

/-- C27: `updateEGT` writes the ambient temperature as the engine's EGT when
`simOnGround == 1` and the engine state is 0; otherwise, with
`target = correctedEGT * theta2 - offset` (`offset` the EGT imbalance magnitude for
the afflicted engine, `0` for the other) and `prev` the engine's EGT on the bus, it
writes `target + (prev - target) * expFBW(-0.1 * deltaTime)`. Taking of `expFBW`
(declared in `common.h`) that `expFBW(0) = 1` and `0 ≤ expFBW(x) ≤ 1` for `x ≤ 0`,
as for the exponential, for every delta time ≥ 0 the value written lies between
`prev` and `target`, and for a delta time of 0 it equals `prev`. -/
theorem c27_egt_low_pass (lib : Library) (ec : EngineControl) (engine : ℤ)
    (imbalance deltaTime simOnGround engineState simCN1 cFbwFF mach pressAltitude
      ambientTemp : ℚ)
    (hexp0 : lib.expFBW 0 = 1)
    (hexp : ∀ x : ℚ, x ≤ 0 → 0 ≤ lib.expFBW x ∧ lib.expFBW x ≤ 1)
    (hdt : 0 ≤ deltaTime) :
    let r := updateEGT lib ec engine imbalance deltaTime simOnGround engineState simCN1
      cFbwFF mach pressAltitude ambientTemp
    let offset : ℚ :=
      if truncInt (lib.imbalanceExtractor imbalance 1) = engine then
        lib.imbalanceExtractor imbalance 2
      else 0
    let target := lib.correctedEGT simCN1 cFbwFF mach pressAltitude * lib.theta2 mach ambientTemp
      - offset
    let prev := engineEGTOf ec.simVars engine
    (simOnGround = 1 ∧ engineState = 0 → engineEGTOf r.simVars engine = ambientTemp)
    ∧ (¬ (simOnGround = 1 ∧ engineState = 0) →
        engineEGTOf r.simVars engine
          = target + (prev - target) * lib.expFBW (-(1 / 10) * deltaTime)
        ∧ min prev target ≤ engineEGTOf r.simVars engine
        ∧ engineEGTOf r.simVars engine ≤ max prev target
        ∧ (deltaTime = 0 → engineEGTOf r.simVars engine = prev)) := by
  intro r offset target prev
  have hoff : (if truncInt (lib.imbalanceExtractor imbalance 1) ≠ engine then (0 : ℚ)
      else lib.imbalanceExtractor imbalance 2) = offset := by
    by_cases ha : truncInt (lib.imbalanceExtractor imbalance 1) = engine
    · simp only [offset, ha, ne_eq, not_true_eq_false, if_false, if_true]
    · simp only [offset, ha, ne_eq, not_false_eq_true, if_true, if_false]
  have hegt : engineEGTOf r.simVars engine
      = if simOnGround = 1 ∧ engineState = 0 then ambientTemp
        else target + (prev - target) * lib.expFBW (-(1 / 10) * deltaTime) := by
    by_cases he : engine = 1
    · by_cases hg : simOnGround = 1 ∧ engineState = 0
      · simp only [r, updateEGT, engineEGTOf, he, hg, and_self, if_true]
      · simp only [r, target, prev, ← hoff, updateEGT, engineEGTOf, he, hg, if_true, if_false]
    · by_cases hg : simOnGround = 1 ∧ engineState = 0
      · simp only [r, updateEGT, engineEGTOf, he, hg, and_self, if_true, if_false]
      · simp only [r, target, prev, ← hoff, updateEGT, engineEGTOf, he, hg, if_false]
  refine ⟨?_, ?_⟩
  · intro hg
    rw [hegt, if_pos hg]
  · intro hg
    rw [hegt, if_neg hg]
    have hx : -(1 / 10) * deltaTime ≤ 0 := by nlinarith
    obtain ⟨e0, e1⟩ := hexp _ hx
    obtain ⟨b1, b2⟩ := lowPass_between prev target _ e0 e1
    refine ⟨rfl, b1, b2, ?_⟩
    intro hz
    rw [hz, mul_zero, hexp0]
    ring

/-- C27 on `libSteady` (`expFBW x = 1 / (1 - x)`): engine 1, afflicted with an EGT
imbalance of 15, in flight with its EGT at 0 and a corrected EGT of 500: the target
is 485 and after a tick of 10 seconds the EGT written is `485 - 485 / 2`. -/
theorem c27_egt_low_pass_witness :
    libSteady.expFBW 0 = 1
      ∧ (∀ x : ℚ, x ≤ 0 → 0 ≤ libSteady.expFBW x ∧ libSteady.expFBW x ≤ 1)
      ∧ engineEGTOf (updateEGT libSteady (ecOver svZero) 1 7 10 0 1 0 0 0 0 15).simVars 1
        = 485 / 2 := by
  have hexp0 : libSteady.expFBW 0 = 1 := by norm_num [libSteady]
  have hexp : ∀ x : ℚ, x ≤ 0 → 0 ≤ libSteady.expFBW x ∧ libSteady.expFBW x ≤ 1 := by
    intro x hx
    have hpos : (0 : ℚ) < 1 - x := by linarith
    constructor
    · show 0 ≤ 1 / (1 - x)
      exact div_nonneg zero_le_one hpos.le
    · show 1 / (1 - x) ≤ 1
      rw [div_le_one hpos]
      linarith
  have h := (c27_egt_low_pass libSteady (ecOver svZero) 1 7 10 0 1 0 0 0 0 15 hexp0 hexp
    (by norm_num)).2 (by norm_num)
  refine ⟨hexp0, hexp, ?_⟩
  rw [h.1]
  norm_num [libSteady, truncInt, engineEGTOf, ecOver, svZero]

/-! ### Claims about the start procedure -/

/-- The bus after `engineStartProcedure` once the timer has reached 1.7: the
values written for the engine, with `P` the engine's EGT on the bus before the
call, `S` the start-curve EGT and `H` the shutdown-curve EGT; the engine's timer
and everything of the other engine are left as they were. -/
theorem engineStartProcedure_run (lib : Library) (ec : EngineControl) (engine : ℤ)
    (es imb dt timer simN3 alt amb : ℚ) (ht : ¬ timer < 17 / 10) :
    let r := engineStartProcedure lib ec engine es imb dt timer simN3 alt amb
    let idleN3 := ec.simVars.engineIdleN3
    let newN3 := lib.startN3 simN3 (engineN3Of ec.simVars engine) idleN3
    let P := engineEGTOf ec.simVars engine
    let S := lib.startEGT newN3 idleN3 amb ec.simVars.engineIdleEGT
    let H := lib.shutdownEGT P amb dt
    engineN3Of r.simVars engine = newN3
    ∧ engineN2Of r.simVars engine = newN3 + 7 / 10
    ∧ engineN1Of r.simVars engine = lib.startN1 newN3 idleN3 ec.simVars.engineIdleN1
    ∧ engineFFOf r.simVars engine = lib.startFF newN3 idleN3 ec.simVars.engineIdleFF
    ∧ engineEGTOf r.simVars engine
        = (if es = 3 then
            (if |S - P| ≤ 3 / 2 then S
             else if S > P then P + 3 / 4 * dt * (idleN3 - newN3) else H)
          else S)
    ∧ engineStateOf r.simVars engine
        = (if es = 3 ∧ |S - P| ≤ 3 / 2 then 2 else engineStateOf ec.simVars engine)
    ∧ (∀ e : ℤ, engineTimerOf r.simVars e = engineTimerOf ec.simVars e) := by
  intro r idleN3 newN3 P S H
  by_cases he : engine = 1
  · by_cases h3 : es = 3
    · by_cases ha : |S - P| ≤ 3 / 2
      · have ha' := ha
        simp only [S, P, newN3, idleN3, engineEGTOf, engineN3Of, he, if_true] at ha'
        simp only [r, S, P, H, newN3, idleN3, engineStartProcedure, engineN3Of, engineN2Of,
          engineN1Of, engineFFOf, engineEGTOf, engineStateOf, engineTimerOf, he, ht, h3, ha',
          if_true, if_false, and_self, implies_true]
      · have ha' := ha
        simp only [S, P, newN3, idleN3, engineEGTOf, engineN3Of, he, if_true] at ha'
        by_cases hg : S > P
        · have hg' := hg
          simp only [S, P, newN3, idleN3, engineEGTOf, engineN3Of, he, if_true] at hg'
          simp only [r, S, P, H, newN3, idleN3, engineStartProcedure, engineN3Of, engineN2Of,
            engineN1Of, engineFFOf, engineEGTOf, engineStateOf, engineTimerOf, he, ht, h3, ha',
            hg', if_true, if_false, and_self, and_false, implies_true]
        · have hg' := hg
          simp only [S, P, newN3, idleN3, engineEGTOf, engineN3Of, he, if_true] at hg'
          simp only [r, S, P, H, newN3, idleN3, engineStartProcedure, engineN3Of, engineN2Of,
            engineN1Of, engineFFOf, engineEGTOf, engineStateOf, engineTimerOf, he, ht, h3, ha',
            hg', if_true, if_false, and_self, and_false, implies_true]
    · simp only [r, S, P, H, newN3, idleN3, engineStartProcedure, engineN3Of, engineN2Of,
        engineN1Of, engineFFOf, engineEGTOf, engineStateOf, engineTimerOf, he, ht, h3,
        if_true, if_false, and_self, false_and, implies_true]
  · by_cases h3 : es = 3
    · by_cases ha : |S - P| ≤ 3 / 2
      · have ha' := ha
        simp only [S, P, newN3, idleN3, engineEGTOf, engineN3Of, he, if_false] at ha'
        simp only [r, S, P, H, newN3, idleN3, engineStartProcedure, engineN3Of, engineN2Of,
          engineN1Of, engineFFOf, engineEGTOf, engineStateOf, engineTimerOf, he, ht, h3, ha',
          if_true, if_false, and_self, implies_true]
      · have ha' := ha
        simp only [S, P, newN3, idleN3, engineEGTOf, engineN3Of, he, if_false] at ha'
        by_cases hg : S > P
        · have hg' := hg
          simp only [S, P, newN3, idleN3, engineEGTOf, engineN3Of, he, if_false] at hg'
          simp only [r, S, P, H, newN3, idleN3, engineStartProcedure, engineN3Of, engineN2Of,
            engineN1Of, engineFFOf, engineEGTOf, engineStateOf, engineTimerOf, he, ht, h3, ha',
            hg', if_true, if_false, and_self, and_false, implies_true]
        · have hg' := hg
          simp only [S, P, newN3, idleN3, engineEGTOf, engineN3Of, he, if_false] at hg'
          simp only [r, S, P, H, newN3, idleN3, engineStartProcedure, engineN3Of, engineN2Of,
            engineN1Of, engineFFOf, engineEGTOf, engineStateOf, engineTimerOf, he, ht, h3, ha',
            hg', if_true, if_false, and_self, and_false, implies_true]
    · simp only [r, S, P, H, newN3, idleN3, engineStartProcedure, engineN3Of, engineN2Of,
        engineN1Of, engineFFOf, engineEGTOf, engineStateOf, engineTimerOf, he, ht, h3,
        if_true, if_false, and_self, false_and, implies_true]

/-- C28: while the timer passed to `engineStartProcedure` is below 1.7 the
procedure sets the engine's timer to `timer + deltaTime`, pushes a start command of
0 for the engine, writes none of N1, N2, N3, fuel flow, EGT and state of either
engine, and sets the engine's fuel-used accumulator to 0 when `simOnGround == 1`
(leaving it as it was otherwise); once the timer is 1.7 or more the procedure no
longer modifies the timer. -/
theorem c28_start_delay (lib : Library) (ec : EngineControl) (engine : ℤ)
    (es imb dt timer simN3 alt amb : ℚ) :
    let r := engineStartProcedure lib ec engine es imb dt timer simN3 alt amb
    (timer < 17 / 10 →
      engineTimerOf r.simVars engine = timer + dt
      ∧ startCN3Of r.simObject engine = some 0
      ∧ (∀ e : ℤ, engineN1Of r.simVars e = engineN1Of ec.simVars e
          ∧ engineN2Of r.simVars e = engineN2Of ec.simVars e
          ∧ engineN3Of r.simVars e = engineN3Of ec.simVars e
          ∧ engineFFOf r.simVars e = engineFFOf ec.simVars e
          ∧ engineEGTOf r.simVars e = engineEGTOf ec.simVars e
          ∧ engineStateOf r.simVars e = engineStateOf ec.simVars e)
      ∧ (ec.simOnGround = 1 → fuelUsedOf r.simVars engine = 0)
      ∧ (ec.simOnGround ≠ 1 → fuelUsedOf r.simVars engine = fuelUsedOf ec.simVars engine))
    ∧ (¬ timer < 17 / 10 →
      engineTimerOf r.simVars engine = engineTimerOf ec.simVars engine) := by
  intro r
  constructor
  · intro ht
    by_cases he : engine = 1
    · by_cases hg : ec.simOnGround = 1
      · simp only [r, engineStartProcedure, engineTimerOf, startCN3Of, engineN1Of, engineN2Of,
          engineN3Of, engineFFOf, engineEGTOf, engineStateOf, fuelUsedOf, he, ht, hg, if_true,
          and_self, implies_true, not_true_eq_false, false_implies]
        exact ⟨trivial, trivial, trivial, trivial, fun h => absurd rfl h⟩
      · simp only [r, engineStartProcedure, engineTimerOf, startCN3Of, engineN1Of, engineN2Of,
          engineN3Of, engineFFOf, engineEGTOf, engineStateOf, fuelUsedOf, he, ht, hg, if_true,
          if_false, and_self, implies_true, not_false_eq_true, false_implies]
    · by_cases hg : ec.simOnGround = 1
      · simp only [r, engineStartProcedure, engineTimerOf, startCN3Of, engineN1Of, engineN2Of,
          engineN3Of, engineFFOf, engineEGTOf, engineStateOf, fuelUsedOf, he, ht, hg, if_true,
          if_false, and_self, implies_true, not_true_eq_false, false_implies]
        exact ⟨trivial, trivial, trivial, trivial, fun h => absurd rfl h⟩
      · simp only [r, engineStartProcedure, engineTimerOf, startCN3Of, engineN1Of, engineN2Of,
          engineN3Of, engineFFOf, engineEGTOf, engineStateOf, fuelUsedOf, he, ht, hg, if_true,
          if_false, and_self, implies_true, not_false_eq_true, false_implies]
  · intro ht
    exact (engineStartProcedure_run lib ec engine es imb dt timer simN3 alt amb ht).2.2.2.2.2.2
      engine

/-- C28 on `ecRestart` (on the ground) with the timer at 1 and a tick of half a
second: the timer of engine 1 becomes 3/2, a start command of 0 is pushed, the
fuel-used accumulator is 0 and the EGT stays at 101. -/
theorem c28_start_delay_witness :
    engineTimerOf (engineStartProcedure libSteady ecRestart 1 2 0 (1 / 2) 1 0 0 0).simVars 1
        = 3 / 2
      ∧ startCN3Of (engineStartProcedure libSteady ecRestart 1 2 0 (1 / 2) 1 0 0 0).simObject 1
        = some 0
      ∧ fuelUsedOf (engineStartProcedure libSteady ecRestart 1 2 0 (1 / 2) 1 0 0 0).simVars 1
        = 0
      ∧ engineEGTOf (engineStartProcedure libSteady ecRestart 1 2 0 (1 / 2) 1 0 0 0).simVars 1
        = 101 := by
  have h := (c28_start_delay libSteady ecRestart 1 2 0 (1 / 2) 1 0 0 0).1 (by norm_num)
  refine ⟨?_, h.2.1, h.2.2.2.1 rfl, ?_⟩
  · rw [h.1]; norm_num
  · rw [(h.2.2.1 1).2.2.2.2.1]; rfl

/-- C29 fails: on `ecRestart` with `libSteady` (engine 1 RESTARTING, previous EGT
101, start-curve EGT `S = 100`, shutdown-curve EGT `H = 50`, idle N3 60, new N3 20,
tick of one second, timer at 2) the two curve values differ by 50, more than 1.5,
and `S > H`, so the claim has the EGT written as `101 + 0.75 * 1 * (60 - 20) = 131`
with the state left at 3; the procedure writes the EGT 100 and the state 2. -/
theorem c29_restart_egt_counterexample :
    libSteady.startEGT 20 60 0 100 = 100
      ∧ libSteady.shutdownEGT 101 0 1 = 50
      ∧ ¬ (|(100 : ℚ) - 50| ≤ 3 / 2) ∧ (100 : ℚ) > 50
      ∧ engineEGTOf (engineStartProcedure libSteady ecRestart 1 3 0 1 2 0 0 0).simVars 1 = 100
      ∧ engineEGTOf (engineStartProcedure libSteady ecRestart 1 3 0 1 2 0 0 0).simVars 1
        ≠ 101 + 3 / 4 * 1 * (60 - 20)
      ∧ engineStateOf (engineStartProcedure libSteady ecRestart 1 3 0 1 2 0 0 0).simVars 1
        = 2 := by
  have h := engineStartProcedure_run libSteady ecRestart 1 3 0 1 2 0 0 0 (by norm_num)
  obtain ⟨-, -, -, -, hegt, hst, -⟩ := h
  have e1 : engineEGTOf (engineStartProcedure libSteady ecRestart 1 3 0 1 2 0 0 0).simVars 1
      = 100 := by
    rw [hegt]
    norm_num [libSteady, ecRestart, ecOver, svZero, engineEGTOf, engineN3Of]
  refine ⟨rfl, rfl, by norm_num, by norm_num, e1, ?_, ?_⟩
  · rw [e1]; norm_num
  · rw [hst]
    norm_num [libSteady, ecRestart, ecOver, svZero, engineEGTOf, engineN3Of, engineStateOf]

/-- C29 (amended): once the start delay has elapsed, with `P` the engine's EGT on
the bus before the call, `S` the start-curve EGT and `H` the shutdown-curve EGT
computed on this tick: in state RESTARTING (3), if `|S - P| ≤ 1.5` the EGT written
is `S` and the engine state is set to 2; otherwise, if `S > P`, the EGT written is
`P + 0.75 * deltaTime * (idleN3 - newN3)`; otherwise it is `H`; in the last two
cases the state is not written. The comparisons are with the previous EGT `P`, not
with `H`. In every state other than 3, STARTING (2) included, the EGT written is
`S` and the state is not written. -/
theorem c29_restart_egt (lib : Library) (ec : EngineControl) (engine : ℤ)
    (es imb dt timer simN3 alt amb : ℚ) (ht : ¬ timer < 17 / 10) :
    let r := engineStartProcedure lib ec engine es imb dt timer simN3 alt amb
    let idleN3 := ec.simVars.engineIdleN3
    let newN3 := lib.startN3 simN3 (engineN3Of ec.simVars engine) idleN3
    let P := engineEGTOf ec.simVars engine
    let S := lib.startEGT newN3 idleN3 amb ec.simVars.engineIdleEGT
    let H := lib.shutdownEGT P amb dt
    (es = 3 → |S - P| ≤ 3 / 2 →
        engineEGTOf r.simVars engine = S ∧ engineStateOf r.simVars engine = 2)
    ∧ (es = 3 → ¬ |S - P| ≤ 3 / 2 → S > P →
        engineEGTOf r.simVars engine = P + 3 / 4 * dt * (idleN3 - newN3)
        ∧ engineStateOf r.simVars engine = engineStateOf ec.simVars engine)
    ∧ (es = 3 → ¬ |S - P| ≤ 3 / 2 → ¬ S > P →
        engineEGTOf r.simVars engine = H
        ∧ engineStateOf r.simVars engine = engineStateOf ec.simVars engine)
    ∧ (es ≠ 3 →
        engineEGTOf r.simVars engine = S
        ∧ engineStateOf r.simVars engine = engineStateOf ec.simVars engine) := by
  intro r idleN3 newN3 P S H
  obtain ⟨-, -, -, -, hegt, hst, -⟩ :=
    engineStartProcedure_run lib ec engine es imb dt timer simN3 alt amb ht
  have hegt' : engineEGTOf r.simVars engine
      = (if es = 3 then
          (if |S - P| ≤ 3 / 2 then S
           else if S > P then P + 3 / 4 * dt * (idleN3 - newN3) else H)
        else S) := hegt
  have hst' : engineStateOf r.simVars engine
      = (if es = 3 ∧ |S - P| ≤ 3 / 2 then 2 else engineStateOf ec.simVars engine) := hst
  rw [hegt', hst']
  refine ⟨?_, ?_, ?_, ?_⟩
  · intro h3 ha
    rw [if_pos h3, if_pos ha, if_pos ⟨h3, ha⟩]
    exact ⟨rfl, rfl⟩
  · intro h3 ha hg
    rw [if_pos h3, if_neg ha, if_pos hg, if_neg (fun h => ha h.2)]
    exact ⟨rfl, rfl⟩
  · intro h3 ha hg
    rw [if_pos h3, if_neg ha, if_neg hg, if_neg (fun h => ha h.2)]
    exact ⟨rfl, rfl⟩
  · intro h3
    rw [if_neg h3, if_neg (fun h => h3 h.1)]
    exact ⟨rfl, rfl⟩

/-- The amended C29 on `ecRestart` with `libSteady`: the start-curve EGT 100 is
within 1.5 of the previous EGT 101, so the EGT written is 100 and the state 2. -/
theorem c29_restart_egt_witness :
    ¬ ((2 : ℚ) < 17 / 10)
      ∧ engineEGTOf (engineStartProcedure libSteady ecRestart 1 3 0 1 2 0 0 0).simVars 1
        = libSteady.startEGT
            (libSteady.startN3 0 (engineN3Of ecRestart.simVars 1) ecRestart.simVars.engineIdleN3)
            ecRestart.simVars.engineIdleN3 0 ecRestart.simVars.engineIdleEGT
      ∧ engineStateOf (engineStartProcedure libSteady ecRestart 1 3 0 1 2 0 0 0).simVars 1
        = 2 :=
  ⟨by norm_num,
    (c29_restart_egt libSteady ecRestart 1 3 0 1 2 0 0 0 (by norm_num)).1 rfl
      (by norm_num [libSteady, ecRestart, ecOver, svZero, engineEGTOf, engineN3Of])⟩

/-- The bus and the data pushed to the host after `engineStartProcedure` do not
depend on the imbalance word: the imbalance members are computed and never used in
what is written. -/
theorem engineStartProcedure_imbalance_free (lib : Library) (ec : EngineControl) (engine : ℤ)
    (es imb imb' dt timer simN3 alt amb : ℚ) :
    (engineStartProcedure lib ec engine es imb dt timer simN3 alt amb).simVars
        = (engineStartProcedure lib ec engine es imb' dt timer simN3 alt amb).simVars
    ∧ (engineStartProcedure lib ec engine es imb dt timer simN3 alt amb).simObject
        = (engineStartProcedure lib ec engine es imb' dt timer simN3 alt amb).simObject := by
  unfold engineStartProcedure
  by_cases he : engine = 1
  · by_cases ht : timer < 17 / 10
    · simp only [he, ht, if_true, and_self]
    · simp only [he, ht, if_true, if_false, and_self]
  · by_cases ht : timer < 17 / 10
    · simp only [he, ht, if_true, if_false, and_self]
    · simp only [he, ht, if_false, and_self]

/-- The imbalance members after `engineStartProcedure`: the afflicted engine
decoded from the word and, for that engine only, the three magnitudes. -/
theorem engineStartProcedure_members (lib : Library) (ec : EngineControl) (engine : ℤ)
    (es imb dt timer simN3 alt amb : ℚ) :
    let r := engineStartProcedure lib ec engine es imb dt timer simN3 alt amb
    r.engineImbalanced = truncInt (lib.imbalanceExtractor imb 1)
    ∧ r.egtImbalance
        = (if truncInt (lib.imbalanceExtractor imb 1) = engine then
            truncInt (lib.imbalanceExtractor imb 2) else 0)
    ∧ r.ffImbalance
        = (if truncInt (lib.imbalanceExtractor imb 1) = engine then
            truncInt (lib.imbalanceExtractor imb 3) else 0)
    ∧ r.n3Imbalance
        = (if truncInt (lib.imbalanceExtractor imb 1) = engine then
            truncInt (lib.imbalanceExtractor imb 4 / 100) else 0) := by
  intro r
  by_cases he : engine = 1
  · by_cases ht : timer < 17 / 10
    · simp only [r, engineStartProcedure, he, ht, if_true, decide_eq_true_eq, and_self]
    · simp only [r, engineStartProcedure, he, ht, if_true, if_false, decide_eq_true_eq, and_self]
  · by_cases ht : timer < 17 / 10
    · simp only [r, engineStartProcedure, he, ht, if_true, if_false, decide_eq_true_eq, and_self]
    · simp only [r, engineStartProcedure, he, ht, if_false, decide_eq_true_eq, and_self]

/-- C30, the code at the failing input: on `ecRestart` with `libSteady`, engine 1
STARTING past the start delay, the imbalance word 7 decodes to engine 1 afflicted
and the procedure computes the members `egtImbalance = 15`, `ffImbalance = 20` and
`n3Imbalance = 3`, while the word 0 decodes to no affliction; the N3, fuel flow and
EGT written for engine 1 are 20, 200 and 100 with either word. -/
theorem c30_start_imbalance_failing_input :
    (engineStartProcedure libSteady ecRestart 1 2 7 1 2 0 0 0).engineImbalanced = 1
      ∧ (engineStartProcedure libSteady ecRestart 1 2 7 1 2 0 0 0).egtImbalance = 15
      ∧ (engineStartProcedure libSteady ecRestart 1 2 7 1 2 0 0 0).ffImbalance = 20
      ∧ (engineStartProcedure libSteady ecRestart 1 2 7 1 2 0 0 0).n3Imbalance = 3
      ∧ (engineStartProcedure libSteady ecRestart 1 2 0 1 2 0 0 0).engineImbalanced = 0
      ∧ engineN3Of (engineStartProcedure libSteady ecRestart 1 2 7 1 2 0 0 0).simVars 1 = 20
      ∧ engineN3Of (engineStartProcedure libSteady ecRestart 1 2 0 1 2 0 0 0).simVars 1 = 20
      ∧ engineFFOf (engineStartProcedure libSteady ecRestart 1 2 7 1 2 0 0 0).simVars 1 = 200
      ∧ engineFFOf (engineStartProcedure libSteady ecRestart 1 2 0 1 2 0 0 0).simVars 1 = 200
      ∧ engineEGTOf (engineStartProcedure libSteady ecRestart 1 2 7 1 2 0 0 0).simVars 1 = 100
      ∧ engineEGTOf (engineStartProcedure libSteady ecRestart 1 2 0 1 2 0 0 0).simVars 1
        = 100 := by
  obtain ⟨m1, m2, m3, m4⟩ := engineStartProcedure_members libSteady ecRestart 1 2 7 1 2 0 0 0
  obtain ⟨z1, -, -, -⟩ := engineStartProcedure_members libSteady ecRestart 1 2 0 1 2 0 0 0
  obtain ⟨a1, -, -, a4, a5, -, -⟩ :=
    engineStartProcedure_run libSteady ecRestart 1 2 7 1 2 0 0 0 (by norm_num)
  obtain ⟨b1, -, -, b4, b5, -, -⟩ :=
    engineStartProcedure_run libSteady ecRestart 1 2 0 1 2 0 0 0 (by norm_num)
  have t1 : truncInt (libSteady.imbalanceExtractor 7 1) = 1 := by
    norm_num [libSteady, truncInt]
  refine ⟨?_, ?_, ?_, ?_, ?_, ?_, ?_, ?_, ?_, ?_, ?_⟩
  · rw [m1]; exact t1
  · rw [m2, t1]; norm_num [libSteady, truncInt]
  · rw [m3, t1]; norm_num [libSteady, truncInt]
  · rw [m4, t1]; norm_num [libSteady, truncInt]
  · rw [z1]; norm_num [libSteady, truncInt]
  · rw [a1]; rfl
  · rw [b1]; rfl
  · rw [a4]; rfl
  · rw [b4]; rfl
  · rw [a5]; norm_num [libSteady, ecRestart, ecOver, svZero]
  · rw [b5]; norm_num [libSteady, ecRestart, ecOver, svZero]

/-! ### Claims about the shutdown procedure and the state set -/

/-- C31: for engine 1 or 2, while the timer passed to `engineShutdownProcedure` is
below 1.8 the procedure only sets the engine's timer to `timer + deltaTime`: N1,
N2, N3, EGT (and fuel flow and state) of both engines keep their values. Once the
timer is 1.8 or more, with `d = shutdownN1(previous N1, deltaTime)`, the N1 written
is the measured N1 if measured N1 < 5 and measured N1 > `d`, and `d` otherwise, so
it is never below `d`; the N3 written is `shutdownN3(previous N3, deltaTime)`, the
N2 written is that N3 + 0.7 and the EGT written is
`shutdownEGT(previous EGT, ambient, deltaTime)`. -/
theorem c31_shutdown_procedure (lib : Library) (ec : EngineControl) (engine : ℤ)
    (ambientTemp simN1 deltaTime timer : ℚ) (he : engine = 1 ∨ engine = 2) :
    let r := engineShutdownProcedure lib ec engine ambientTemp simN1 deltaTime timer
    let d := lib.shutdownN1 (engineN1Of ec.simVars engine) deltaTime
    (timer < 18 / 10 →
      engineTimerOf r.simVars engine = timer + deltaTime
      ∧ (∀ e : ℤ, engineN1Of r.simVars e = engineN1Of ec.simVars e
          ∧ engineN2Of r.simVars e = engineN2Of ec.simVars e
          ∧ engineN3Of r.simVars e = engineN3Of ec.simVars e
          ∧ engineEGTOf r.simVars e = engineEGTOf ec.simVars e
          ∧ engineFFOf r.simVars e = engineFFOf ec.simVars e
          ∧ engineStateOf r.simVars e = engineStateOf ec.simVars e))
    ∧ (¬ timer < 18 / 10 →
      engineN1Of r.simVars engine = (if simN1 < 5 ∧ simN1 > d then simN1 else d)
      ∧ d ≤ engineN1Of r.simVars engine
      ∧ engineN3Of r.simVars engine = lib.shutdownN3 (engineN3Of ec.simVars engine) deltaTime
      ∧ engineN2Of r.simVars engine
          = lib.shutdownN3 (engineN3Of ec.simVars engine) deltaTime + 7 / 10
      ∧ engineEGTOf r.simVars engine
          = lib.shutdownEGT (engineEGTOf ec.simVars engine) ambientTemp deltaTime) := by
  intro r d
  constructor
  · intro ht
    rcases he with he | he
    · simp only [r, engineShutdownProcedure, engineTimerOf, engineN1Of, engineN2Of, engineN3Of,
        engineEGTOf, engineFFOf, engineStateOf, he, ht, if_true, and_self, implies_true]
    · have h1 : ¬ ((2 : ℤ) = 1) := by decide
      simp only [r, engineShutdownProcedure, engineTimerOf, engineN1Of, engineN2Of, engineN3Of,
        engineEGTOf, engineFFOf, engineStateOf, he, h1, ht, if_true, if_false, and_self,
        implies_true]
  · intro ht
    have hn1 : engineN1Of r.simVars engine = (if simN1 < 5 ∧ simN1 > d then simN1 else d) := by
      rcases he with he | he
      · simp only [r, d, engineShutdownProcedure, engineN1Of, he, ht, if_true, if_false]
      · have h1 : ¬ ((2 : ℤ) = 1) := by decide
        simp only [r, d, engineShutdownProcedure, engineN1Of, he, h1, ht, if_true, if_false]
    refine ⟨hn1, ?_, ?_, ?_, ?_⟩
    · rw [hn1]
      split_ifs with hw
      · exact hw.2.le
      · exact le_rfl
    · rcases he with he | he
      · simp only [r, engineShutdownProcedure, engineN3Of, he, ht, if_true, if_false]
      · have h1 : ¬ ((2 : ℤ) = 1) := by decide
        simp only [r, engineShutdownProcedure, engineN3Of, he, h1, ht, if_true, if_false]
    · rcases he with he | he
      · simp only [r, engineShutdownProcedure, engineN2Of, engineN3Of, he, ht, if_true, if_false]
      · have h1 : ¬ ((2 : ℤ) = 1) := by decide
        simp only [r, engineShutdownProcedure, engineN2Of, engineN3Of, he, h1, ht, if_true,
          if_false]
    · rcases he with he | he
      · simp only [r, engineShutdownProcedure, engineEGTOf, he, ht, if_true, if_false]
      · have h1 : ¬ ((2 : ℤ) = 1) := by decide
        simp only [r, engineShutdownProcedure, engineEGTOf, he, h1, ht, if_true, if_false]

/-- C31 on `ecRestart` with `libSteady` (shutdown curves: N1 0, N3 0, EGT 50):
with the timer at 1 and a tick of half a second the timer of engine 1 becomes 3/2
and its EGT stays at 101; with the timer at 2 and a measured N1 of 3 (windmilling)
the N1 written is 3, the N3 0, the N2 7/10 and the EGT 50. -/
theorem c31_shutdown_procedure_witness :
    engineTimerOf (engineShutdownProcedure libSteady ecRestart 1 15 3 (1 / 2) 1).simVars 1
        = 3 / 2
      ∧ engineEGTOf (engineShutdownProcedure libSteady ecRestart 1 15 3 (1 / 2) 1).simVars 1
        = 101
      ∧ engineN1Of (engineShutdownProcedure libSteady ecRestart 1 15 3 (1 / 2) 2).simVars 1 = 3
      ∧ engineN3Of (engineShutdownProcedure libSteady ecRestart 1 15 3 (1 / 2) 2).simVars 1 = 0
      ∧ engineN2Of (engineShutdownProcedure libSteady ecRestart 1 15 3 (1 / 2) 2).simVars 1
        = 7 / 10
      ∧ engineEGTOf (engineShutdownProcedure libSteady ecRestart 1 15 3 (1 / 2) 2).simVars 1
        = 50 := by
  have h1 := (c31_shutdown_procedure libSteady ecRestart 1 15 3 (1 / 2) 1 (Or.inl rfl)).1
    (by norm_num)
  have h2 := (c31_shutdown_procedure libSteady ecRestart 1 15 3 (1 / 2) 2 (Or.inl rfl)).2
    (by norm_num)
  refine ⟨?_, ?_, ?_, ?_, ?_, ?_⟩
  · rw [h1.1]; norm_num
  · rw [(h1.2 1).2.2.2.1]; rfl
  · rw [h2.1]; norm_num [libSteady, libZero]
  · rw [h2.2.2.1]; rfl
  · rw [h2.2.2.2.1]; norm_num [libSteady, libZero]
  · rw [h2.2.2.2.2]; rfl

/-- The body on an unpaused tick from a state outside the ten codes: no block
applies, the state and `resetTimer` stay as they were. -/
theorem esmBody_undefined (ig st n3 idle amb dtd egt : ℚ) (v : EsmVars) (hd : dtd ≠ 0)
    (hs : v.engineState ∉ definedStates) :
    esmBody ig st n3 idle amb dtd egt v
      = { engineState := v.engineState, resetTimer := v.resetTimer, simPaused := false } := by
  obtain ⟨s, r, p⟩ := v
  simp only [definedStates, List.mem_cons, List.mem_singleton, List.not_mem_nil, or_false,
    not_or] at hs
  obtain ⟨h0, h1, h2, h3, h4, h10, h11, h12, h13, h14⟩ := hs
  simp only [esmBody, presentStateOff, presentStateOn, presentStateStarting,
    presentStateRestarting, presentStateShutting, hd, h0, h1, h2, h3, h4, h10, h11, h12, h13,
    h14, false_and, or_self, if_false]

/-- C32 fails on a paused tick: engine 1 with the state 5, which is none of the
ten codes, and a delta-time difference of 0: the state written back is 15. -/
theorem c32_unexpected_state_counterexample :
    (5 : ℚ) ∉ definedStates
      ∧ engineStateOf (ecEngine1 5 0 0).simVars 1 = 5
      ∧ engineStateOf (engineStateMachine (ecEngine1 5 0 0) 1 0 0 0 0 0 0 0).simVars 1 = 15 := by
  refine ⟨by norm_num [definedStates], rfl, ?_⟩
  rw [esm_state_written _ 1 (Or.inl rfl), esmBody_paused]
  norm_num [engineStateOf, ecEngine1, ecOver, svZero]

/-- C32 (amended): for engine 1 or 2 and every state value outside the ten codes,
whatever the igniter, starter, N3 and EGT inputs: on an unpaused tick (delta-time
difference not 0) and on a paused tick with the state at 10 or more, the state
written back equals the state read; on a paused tick with the state below 10 the
state written back is the state read plus 10; on every tick the engine's timer is
not reset. -/
theorem c32_unexpected_state (ec : EngineControl) (engine : ℤ) (he : engine = 1 ∨ engine = 2)
    (ig st n3 idle alt amb dtd : ℚ)
    (hs : engineStateOf ec.simVars engine ∉ definedStates) :
    let r := engineStateMachine ec engine ig st n3 idle alt amb dtd
    (dtd ≠ 0 → engineStateOf r.simVars engine = engineStateOf ec.simVars engine)
    ∧ (dtd = 0 → engineStateOf ec.simVars engine ≥ 10 →
        engineStateOf r.simVars engine = engineStateOf ec.simVars engine)
    ∧ (dtd = 0 → engineStateOf ec.simVars engine < 10 →
        engineStateOf r.simVars engine = engineStateOf ec.simVars engine + 10)
    ∧ engineTimerOf r.simVars engine = engineTimerOf ec.simVars engine := by
  intro r
  have hw := esm_state_written ec engine he ig st n3 idle alt amb dtd
  have ht := esm_timer_written ec engine he ig st n3 idle alt amb dtd
  refine ⟨?_, ?_, ?_, ?_⟩
  · intro hd
    have hb := esmBody_undefined ig st n3 idle amb dtd (engineEGTOf ec.simVars engine)
      { engineState := engineStateOf ec.simVars engine, resetTimer := 0,
        simPaused := ec.simPaused } hd hs
    show engineStateOf (engineStateMachine ec engine ig st n3 idle alt amb dtd).simVars engine
      = _
    rw [hw, hb]
  · intro hd hge
    subst hd
    show engineStateOf (engineStateMachine ec engine ig st n3 idle alt amb 0).simVars engine = _
    rw [hw, esmBody_paused]
    exact if_neg (not_lt.mpr hge)
  · intro hd hlt
    subst hd
    show engineStateOf (engineStateMachine ec engine ig st n3 idle alt amb 0).simVars engine = _
    rw [hw, esmBody_paused]
    exact if_pos hlt
  · show engineTimerOf (engineStateMachine ec engine ig st n3 idle alt amb dtd).simVars engine
      = _
    rw [ht]
    by_cases hd : dtd = 0
    · subst hd
      rw [esmBody_paused]
      exact if_neg (show ¬ ((0 : ℤ) = 1) by decide)
    · have hb := esmBody_undefined ig st n3 idle amb dtd (engineEGTOf ec.simVars engine)
        { engineState := engineStateOf ec.simVars engine, resetTimer := 0,
          simPaused := ec.simPaused } hd hs
      rw [hb]
      exact if_neg (show ¬ ((0 : ℤ) = 1) by decide)

/-- The amended C32 on engine 1 with the state 5: on an unpaused tick
(delta-time difference 1) with igniter 2 and starter 1 the state written back
is 5. -/
theorem c32_unexpected_state_witness :
    engineStateOf (ecEngine1 5 0 0).simVars 1 ∉ definedStates
      ∧ engineStateOf (engineStateMachine (ecEngine1 5 0 0) 1 2 1 0 0 0 0 1).simVars 1 = 5 := by
  have hs : engineStateOf (ecEngine1 5 0 0).simVars 1 ∉ definedStates := by
    norm_num [definedStates, engineStateOf, ecEngine1, ecOver, svZero]
  exact ⟨hs, (c32_unexpected_state (ecEngine1 5 0 0) 1 (Or.inl rfl) 2 1 0 0 0 0 1 hs).1
    (by norm_num)⟩

/-- On an unpaused tick from one of the ten codes the body leaves one of the five
codes without the pause offset. -/
theorem esmBody_running (ig st n3 idle amb dtd egt : ℚ) (v : EsmVars) (hd : dtd ≠ 0)
    (hs : v.engineState ∈ definedStates) :
    (esmBody ig st n3 idle amb dtd egt v).engineState ∈ runningStates := by
  simp only [definedStates, List.mem_cons, List.mem_singleton, List.not_mem_nil, or_false] at hs
  have h0 := esmBody_off ig st n3 idle amb dtd egt v hd
  have h1 := esmBody_on ig st n3 idle amb dtd egt v hd
  have h2 := esmBody_starting ig st n3 idle amb dtd egt v hd
  have h3 := esmBody_restarting ig st n3 idle amb dtd egt v hd
  have h4 := esmBody_shutting ig st n3 idle amb dtd egt v hd
  rcases hs with h | h | h | h | h | h | h | h | h | h
  · rw [h0 (Or.inl h)]; split_ifs <;> simp [runningStates]
  · rw [h1 (Or.inl h)]; split_ifs <;> simp [runningStates]
  · rw [h2 (Or.inl h)]; split_ifs <;> simp [runningStates]
  · rw [h3 (Or.inl h)]; split_ifs <;> simp [runningStates]
  · rw [h4 (Or.inl h)]; split_ifs <;> simp [runningStates]
  · rw [h0 (Or.inr h)]; split_ifs <;> simp [runningStates]
  · rw [h1 (Or.inr h)]; split_ifs <;> simp [runningStates]
  · rw [h2 (Or.inr h)]; split_ifs <;> simp [runningStates]
  · rw [h3 (Or.inr h)]; split_ifs <;> simp [runningStates]
  · rw [h4 (Or.inr h)]; split_ifs <;> simp [runningStates]

/-- On an unpaused tick the body started from a code with the pause offset gives
what it gives started from the code without the offset. -/
theorem esmBody_shadow (ig st n3 idle amb dtd egt s : ℚ) (r : ℤ) (p : Bool) (hd : dtd ≠ 0)
    (hs : s ∈ definedStates) :
    esmBody ig st n3 idle amb dtd egt { engineState := s, resetTimer := r, simPaused := p }
      = esmBody ig st n3 idle amb dtd egt
          { engineState := if s ≥ 10 then s - 10 else s, resetTimer := r, simPaused := p } := by
  simp only [definedStates, List.mem_cons, List.mem_singleton, List.not_mem_nil, or_false] at hs
  have e0 : (if (10 : ℚ) ≥ 10 then (10 : ℚ) - 10 else 10) = 0 := by norm_num
  have e1 : (if (11 : ℚ) ≥ 10 then (11 : ℚ) - 10 else 11) = 1 := by norm_num
  have e2 : (if (12 : ℚ) ≥ 10 then (12 : ℚ) - 10 else 12) = 2 := by norm_num
  have e3 : (if (13 : ℚ) ≥ 10 then (13 : ℚ) - 10 else 13) = 3 := by norm_num
  have e4 : (if (14 : ℚ) ≥ 10 then (14 : ℚ) - 10 else 14) = 4 := by norm_num
  rcases hs with rfl | rfl | rfl | rfl | rfl | rfl | rfl | rfl | rfl | rfl
  · rw [if_neg (by norm_num)]
  · rw [if_neg (by norm_num)]
  · rw [if_neg (by norm_num)]
  · rw [if_neg (by norm_num)]
  · rw [if_neg (by norm_num)]
  · rw [e0, esmBody_off _ _ _ _ _ _ _ _ hd (Or.inr rfl), esmBody_off _ _ _ _ _ _ _ _ hd (Or.inl rfl)]
  · rw [e1, esmBody_on _ _ _ _ _ _ _ _ hd (Or.inr rfl), esmBody_on _ _ _ _ _ _ _ _ hd (Or.inl rfl)]
  · rw [e2, esmBody_starting _ _ _ _ _ _ _ _ hd (Or.inr rfl),
      esmBody_starting _ _ _ _ _ _ _ _ hd (Or.inl rfl)]
  · rw [e3, esmBody_restarting _ _ _ _ _ _ _ _ hd (Or.inr rfl),
      esmBody_restarting _ _ _ _ _ _ _ _ hd (Or.inl rfl)]
  · rw [e4, esmBody_shutting _ _ _ _ _ _ _ _ hd (Or.inr rfl),
      esmBody_shutting _ _ _ _ _ _ _ _ hd (Or.inl rfl)]

/-- What the state machine reads from the bus `withEngineState ec engine s`: the
state `s`, and the EGT and the pause flag of `ec`. -/
theorem withEngineState_read (ec : EngineControl) (engine : ℤ) (s : ℚ) :
    engineStateOf (withEngineState ec engine s).simVars engine = s
      ∧ engineEGTOf (withEngineState ec engine s).simVars engine = engineEGTOf ec.simVars engine
      ∧ (withEngineState ec engine s).simPaused = ec.simPaused := by
  by_cases he : engine = 1
  · simp only [withEngineState, engineStateOf, engineEGTOf, he, if_true, and_self]
  · simp only [withEngineState, engineStateOf, engineEGTOf, he, if_false, and_self]

/-- C33: for engine 1 or 2, every state among the ten codes and all inputs, the
state written back by `engineStateMachine` is again one of the ten codes; on an
unpaused tick it is one of 0, 1, 2, 3, 4 and equals the state written back when
the routine is started, with the same inputs, from the state without the pause
offset (the state minus 10 if it is 10 or more: the state mod 10). -/
theorem c33_state_set_closure (ec : EngineControl) (engine : ℤ) (he : engine = 1 ∨ engine = 2)
    (ig st n3 idle alt amb dtd : ℚ)
    (hs : engineStateOf ec.simVars engine ∈ definedStates) :
    let s := engineStateOf ec.simVars engine
    let r := engineStateMachine ec engine ig st n3 idle alt amb dtd
    engineStateOf r.simVars engine ∈ definedStates
    ∧ (dtd ≠ 0 →
        engineStateOf r.simVars engine ∈ runningStates
        ∧ engineStateOf r.simVars engine
          = engineStateOf (engineStateMachine
              (withEngineState ec engine (if s ≥ 10 then s - 10 else s)) engine ig st n3 idle alt
              amb dtd).simVars engine) := by
  intro s r
  have hw : engineStateOf r.simVars engine = _ :=
    esm_state_written ec engine he ig st n3 idle alt amb dtd
  have hrun : dtd ≠ 0 → engineStateOf r.simVars engine ∈ runningStates := by
    intro hd
    rw [hw]
    exact esmBody_running _ _ _ _ _ _ _ _ hd hs
  constructor
  · by_cases hd : dtd = 0
    · subst hd
      rw [hw, esmBody_paused]
      have hs' := hs
      simp only [definedStates, List.mem_cons, List.mem_singleton, List.not_mem_nil,
        or_false] at hs'
      show (if engineStateOf ec.simVars engine < 10 then engineStateOf ec.simVars engine + 10
        else engineStateOf ec.simVars engine) ∈ definedStates
      rcases hs' with h | h | h | h | h | h | h | h | h | h <;> rw [h] <;>
        norm_num [definedStates]
    · have h := hrun hd
      simp only [runningStates, List.mem_cons, List.mem_singleton, List.not_mem_nil,
        or_false] at h
      simp only [definedStates, List.mem_cons, List.mem_singleton, List.not_mem_nil, or_false]
      rcases h with h | h | h | h | h <;> simp [h]
  · intro hd
    refine ⟨hrun hd, ?_⟩
    obtain ⟨w1, w2, w3⟩ := withEngineState_read ec engine (if s ≥ 10 then s - 10 else s)
    rw [hw, esm_state_written _ engine he, w1, w2, w3]
    rw [esmBody_shadow _ _ _ _ _ _ _ _ _ _ hd hs]

/-- C33 on engine 1 in the paused shadow of STARTING (12) with igniter 2, starter 1
and N3 below idle, on an unpaused tick: the state written back is 2, as from
STARTING (2). -/
theorem c33_state_set_closure_witness :
    engineStateOf (ecEngine1 12 0 0).simVars 1 ∈ definedStates
      ∧ engineStateOf (engineStateMachine (ecEngine1 12 0 0) 1 2 1 0 60 0 0 1).simVars 1
        ∈ runningStates
      ∧ engineStateOf (engineStateMachine (ecEngine1 12 0 0) 1 2 1 0 60 0 0 1).simVars 1
        = engineStateOf (engineStateMachine
            (withEngineState (ecEngine1 12 0 0) 1
              (if engineStateOf (ecEngine1 12 0 0).simVars 1 ≥ 10 then
                engineStateOf (ecEngine1 12 0 0).simVars 1 - 10
               else engineStateOf (ecEngine1 12 0 0).simVars 1)) 1 2 1 0 60 0 0 1).simVars 1 := by
  have hs : engineStateOf (ecEngine1 12 0 0).simVars 1 ∈ definedStates := by
    norm_num [definedStates, engineStateOf, ecEngine1, ecOver, svZero]
  have h := (c33_state_set_closure (ecEngine1 12 0 0) 1 (Or.inl rfl) 2 1 0 60 0 0 1 hs).2
    (by norm_num)
  exact ⟨hs, h.1, h.2⟩

/-! ### Claims about the limit ordering and the flex state -/

/-- The max-continuous and TOGA limits written by `updateThrustLimits` are those of
the block `thrust transitions for MCT and TOGA` on the adapted climb limit, the raw
max-continuous value and the Mach-blended TOGA value. -/
theorem updateThrustLimits_mct_toga (lib : Library) (ec : EngineControl)
    (t alt amb p mach hi pk na wa : ℚ) :
    (updateThrustLimits lib ec t alt amb p mach hi pk na wa).simVars.thrustLimitMct
        = (adaptMctToga alt mach
            (climbAdapted ec t (limitClb lib ec amb p pk na wa)
              (limitFlex lib ec amb p mach pk na wa))
            (limitMct lib ec amb p pk na wa) (togaBlend lib ec amb p mach pk na wa)).1
    ∧ (updateThrustLimits lib ec t alt amb p mach hi pk na wa).simVars.thrustLimitToga
        = (adaptMctToga alt mach
            (climbAdapted ec t (limitClb lib ec amb p pk na wa)
              (limitFlex lib ec amb p mach pk na wa))
            (limitMct lib ec amb p pk na wa) (togaBlend lib ec amb p mach pk na wa)).2 := by
  constructor
  · by_cases h25 : alt ≥ 25000
    · simp only [updateThrustLimits, adaptMctToga, h25, if_true]; rfl
    · by_cases hm : limitMct lib ec amb p pk na wa > togaBlend lib ec amb p mach pk na wa
      · have hm' := hm
        simp only [limitMct, togaBlend, limitTo, limitGa, machFactorLow] at hm'
        simp only [updateThrustLimits, adaptMctToga, h25, hm, hm', if_true, if_false]; rfl
      · have hm' := hm
        simp only [limitMct, togaBlend, limitTo, limitGa, machFactorLow] at hm'
        simp only [updateThrustLimits, adaptMctToga, h25, hm, hm', if_false]; rfl
  · by_cases h25 : alt ≥ 25000
    · simp only [updateThrustLimits, adaptMctToga, h25, if_true]; rfl
    · by_cases hm : limitMct lib ec amb p pk na wa > togaBlend lib ec amb p mach pk na wa
      · have hm' := hm
        simp only [limitMct, togaBlend, limitTo, limitGa, machFactorLow] at hm'
        simp only [updateThrustLimits, adaptMctToga, h25, hm, hm', if_true, if_false]; rfl
      · have hm' := hm
        simp only [limitMct, togaBlend, limitTo, limitGa, machFactorLow] at hm'
        simp only [updateThrustLimits, adaptMctToga, h25, hm, hm', if_false]; rfl

/-- After the block `thrust transitions for MCT and TOGA` the max-continuous value
does not exceed the TOGA value, and the two are equal when the altitude is at
least 25000 or the max-continuous value was above the TOGA value. -/
theorem adaptMctToga_le (altitude mach clb mct toga : ℚ) :
    (adaptMctToga altitude mach clb mct toga).1 ≤ (adaptMctToga altitude mach clb mct toga).2
    ∧ (altitude ≥ 25000 ∨ mct > toga →
        (adaptMctToga altitude mach clb mct toga).1
          = (adaptMctToga altitude mach clb mct toga).2) := by
  have hf0 : 0 ≤ min 1 (max 0 (min 1 ((altitude - 16600) / 500))
      + max 0 (min 1 ((mach - 37 / 100) / (5 / 100)))) := by
    apply le_min zero_le_one
    exact add_nonneg (le_max_left _ _) (le_max_left _ _)
  have hf1 : min 1 (max 0 (min 1 ((altitude - 16600) / 500))
      + max 0 (min 1 ((mach - 37 / 100) / (5 / 100)))) ≤ 1 := min_le_left _ _
  by_cases h25 : altitude ≥ 25000
  · simp only [adaptMctToga, h25, if_true, le_refl, implies_true, and_self]
  · by_cases hm : mct > toga
    · simp only [adaptMctToga, h25, hm, if_true, if_false, le_refl, implies_true, and_self]
    · simp only [adaptMctToga, h25, hm, if_false, or_self, false_implies, and_true]
      have hle : mct ≤ toga := not_lt.mp hm
      nlinarith

/-- C34: for all inputs, the max-continuous limit written by `updateThrustLimits`
never exceeds the TOGA limit written, and the two are equal whenever the altitude
is at least 25000 or the raw max-continuous value exceeds the Mach-blended TOGA
value. -/
theorem c34_limit_ordering (lib : Library) (ec : EngineControl)
    (t alt amb p mach hi pk na wa : ℚ) :
    (updateThrustLimits lib ec t alt amb p mach hi pk na wa).simVars.thrustLimitMct
        ≤ (updateThrustLimits lib ec t alt amb p mach hi pk na wa).simVars.thrustLimitToga
    ∧ (alt ≥ 25000 ∨ limitMct lib ec amb p pk na wa > togaBlend lib ec amb p mach pk na wa →
        (updateThrustLimits lib ec t alt amb p mach hi pk na wa).simVars.thrustLimitMct
          = (updateThrustLimits lib ec t alt amb p mach hi pk na wa).simVars.thrustLimitToga) := by
  obtain ⟨h1, h2⟩ := updateThrustLimits_mct_toga lib ec t alt amb p mach hi pk na wa
  rw [h1, h2]
  exact adaptMctToga_le _ _ _ _ _

/-- C34 on `libLimits` (takeoff 90, go-around 95, climb 80, max-continuous 85) at
Mach 0: at sea level the limits written are 85 and 90; at 30000 ft both are 85. -/
theorem c34_limit_ordering_witness :
    (updateThrustLimits libLimits (ecAltitude 0) 0 0 15 1013 0 0 0 0 0).simVars.thrustLimitMct
        = 85
      ∧ (updateThrustLimits libLimits (ecAltitude 0) 0 0 15 1013 0 0 0 0 0).simVars.thrustLimitToga
        = 90
      ∧ (updateThrustLimits libLimits (ecAltitude 30000) 0 30000 15 1013 0 0 0 0
          0).simVars.thrustLimitMct
        = (updateThrustLimits libLimits (ecAltitude 30000) 0 30000 15 1013 0 0 0 0
          0).simVars.thrustLimitToga := by
  obtain ⟨h1, h2⟩ := updateThrustLimits_mct_toga libLimits (ecAltitude 0) 0 0 15 1013 0 0 0 0 0
  refine ⟨?_, ?_,
    (c34_limit_ordering libLimits (ecAltitude 30000) 0 30000 15 1013 0 0 0 0 0).2
      (Or.inl (by norm_num))⟩
  · rw [h1]
    norm_num [adaptMctToga, limitMct, togaBlend, limitTo, limitGa, machFactorLow, libLimits,
      ecAltitude, ecOver, svZero]
  · rw [h2]
    norm_num [adaptMctToga, limitMct, togaBlend, limitTo, limitGa, machFactorLow, libLimits,
      ecAltitude, ecOver, svZero]

/-- After every call of `updateThrustLimits`, whatever the state before it, an
active transition implies that flex is active. -/
theorem updateThrustLimits_transition_flex (lib : Library) (ec : EngineControl)
    (t alt amb p mach hi pk na wa : ℚ) :
    (updateThrustLimits lib ec t alt amb p mach hi pk na wa).isTransitionActive = true →
      (updateThrustLimits lib ec t alt amb p mach hi pk na wa).isFlexActive = true := by
  obtain ⟨-, h2, h3, -, -⟩ := updateThrustLimits_flex lib ec t alt amb p mach hi pk na wa
  rw [h2, h3]
  cases hr : flexReached ec t (limitClb lib ec amb p pk na wa)
      (limitFlex lib ec amb p mach pk na wa) with
  | true => simp
  | false =>
    simp only [Bool.false_eq_true, if_false]
    unfold transitionActiveStep transitionStarts
    cases hfa : flexActiveStep ec with
    | true => simp
    | false => simp

/-- The start time of the transition after a call of `updateThrustLimits` that
leaves the transition active: the start time before the call if the transition was
active before it, the simulation time of the call if it was not. -/
theorem updateThrustLimits_startTime (lib : Library) (ec : EngineControl)
    (t alt amb p mach hi pk na wa : ℚ)
    (ha : (updateThrustLimits lib ec t alt amb p mach hi pk na wa).isTransitionActive = true) :
    (updateThrustLimits lib ec t alt amb p mach hi pk na wa).transitionStartTime
      = if ec.isTransitionActive then ec.transitionStartTime else t := by
  obtain ⟨-, -, h3, h4, -⟩ := updateThrustLimits_flex lib ec t alt amb p mach hi pk na wa
  rw [h3] at ha
  rw [h4]
  have hta : transitionActiveStep ec = true := by
    split_ifs at ha with hr
    exact ha
  unfold transitionStartStep
  unfold transitionActiveStep at hta
  cases hs : transitionStarts ec with
  | true =>
    have hna : ec.isTransitionActive = false := by
      unfold transitionStarts at hs
      cases hx : ec.isTransitionActive with
      | true => simp [hx] at hs
      | false => rfl
    simp [hna]
  | false =>
    rw [hs] at hta
    cases hfa : flexActiveStep ec with
    | false => simp [hfa] at hta
    | true =>
      simp only [hfa, Bool.not_true, Bool.false_eq_true, if_false] at hta
      simp [hta]

/-- While the transition stays active after each call of a sequence that begins
with the transition active, the start time of the transition does not change. -/
theorem limitsRun_startTime (lib : Library) (cs : List LimitsCall) :
    ∀ ec : EngineControl, ec.isTransitionActive = true → staysActive lib ec cs = true →
      (limitsRun lib ec cs).transitionStartTime = ec.transitionStartTime := by
  induction cs with
  | nil => intro ec _ _; rfl
  | cons c cs ih =>
    intro ec ha hs
    simp only [staysActive, Bool.and_eq_true] at hs
    obtain ⟨h1, h2⟩ := hs
    have hstep : (limitsCall lib ec c).transitionStartTime = ec.transitionStartTime := by
      have h := updateThrustLimits_startTime lib
        { ec with simVars := c.simVars, pressAltitude := c.pressAltitude } c.simulationTime
        c.altitude c.ambientTemp c.ambientPressure c.mach c.simN1highest c.packs c.nai c.wai h1
      have h' : (limitsCall lib ec c).transitionStartTime
          = if ec.isTransitionActive then ec.transitionStartTime else c.simulationTime := h
      rw [h', ha]
      rfl
    show (limitsRun lib (limitsCall lib ec c) cs).transitionStartTime = _
    rw [ih (limitsCall lib ec c) h1 h2, hstep]

/-- C35: starting from the initial flex state (`isFlexActive = false`,
`isTransitionActive = false`), after every sequence of calls of
`updateThrustLimits`, whatever the bus, the altitude member and the arguments of
each call, `isTransitionActive` implies `isFlexActive`; and if a call activates
the transition (inactive before it, active after it) and the transition is active
after each of the calls that follow, `transitionStartTime` after them is the
simulation time of the activating call. -/
theorem c35_flex_state_invariant (lib : Library) (ec : EngineControl)
    (hf : ec.isFlexActive = false) (ht : ec.isTransitionActive = false) :
    (∀ cs : List LimitsCall,
        (limitsRun lib ec cs).isTransitionActive = true →
          (limitsRun lib ec cs).isFlexActive = true)
    ∧ (∀ (cs : List LimitsCall) (c : LimitsCall) (ds : List LimitsCall),
        (limitsRun lib ec cs).isTransitionActive = false →
        (limitsCall lib (limitsRun lib ec cs) c).isTransitionActive = true →
        staysActive lib (limitsCall lib (limitsRun lib ec cs) c) ds = true →
        (limitsRun lib (limitsCall lib (limitsRun lib ec cs) c) ds).transitionStartTime
          = c.simulationTime) := by
  constructor
  · have key : ∀ (cs : List LimitsCall) (e : EngineControl),
        (e.isTransitionActive = true → e.isFlexActive = true) →
        (limitsRun lib e cs).isTransitionActive = true →
          (limitsRun lib e cs).isFlexActive = true := by
      intro cs
      induction cs with
      | nil => intro e he; exact he
      | cons c cs ih =>
        intro e _
        exact ih (limitsCall lib e c) (updateThrustLimits_transition_flex lib _ _ _ _ _ _ _ _ _ _)
    intro cs
    exact key cs ec (fun h => by rw [ht] at h; exact absurd h (by decide))
  · intro cs c ds hoff hon hstay
    rw [limitsRun_startTime lib ds _ hon hstay]
    have h := updateThrustLimits_startTime lib
      { limitsRun lib ec cs with simVars := c.simVars, pressAltitude := c.pressAltitude }
      c.simulationTime c.altitude c.ambientTemp c.ambientPressure c.mach c.simN1highest c.packs
      c.nai c.wai hon
    have h' : (limitsCall lib (limitsRun lib ec cs) c).transitionStartTime
        = if (limitsRun lib ec cs).isTransitionActive then
            (limitsRun lib ec cs).transitionStartTime
          else c.simulationTime := h
    rw [h', hoff]
    rfl

/-- C35 on `libFlex` from the object over the all-zero bus: the call `callFlex 100`
activates flex and the transition; after the calls at 105 and 109 that follow, the
transition is still active, flex is active and the start time is 100. -/
theorem c35_flex_state_invariant_witness :
    (ecOver svZero).isFlexActive = false ∧ (ecOver svZero).isTransitionActive = false
      ∧ (limitsRun libFlex (ecOver svZero)
          [callFlex 100, callFlex 105, callFlex 109]).isTransitionActive = true
      ∧ (limitsRun libFlex (ecOver svZero)
          [callFlex 100, callFlex 105, callFlex 109]).isFlexActive = true
      ∧ (limitsRun libFlex (ecOver svZero)
          [callFlex 100, callFlex 105, callFlex 109]).transitionStartTime = 100 := by
  have h := c35_flex_state_invariant libFlex (ecOver svZero) rfl rfl
  have e1 : (limitsCall libFlex (ecOver svZero) (callFlex 100)).isTransitionActive = true := by
    norm_num [limitsCall, updateThrustLimits, callFlex, libFlex, libZero, ecOver, svZero,
      waitTime]
  have e2 : staysActive libFlex (limitsCall libFlex (ecOver svZero) (callFlex 100))
      [callFlex 105, callFlex 109] = true := by
    norm_num [staysActive, limitsCall, updateThrustLimits, callFlex, libFlex, libZero, ecOver,
      svZero, waitTime]
  have e3 : (limitsRun libFlex (ecOver svZero)
      [callFlex 100, callFlex 105, callFlex 109]).isTransitionActive = true := by
    norm_num [limitsRun, limitsCall, updateThrustLimits, callFlex, libFlex, libZero, ecOver,
      svZero, waitTime]
  exact ⟨rfl, rfl, e3, h.1 _ e3, h.2 [] (callFlex 100) [callFlex 105, callFlex 109] rfl e1 e2⟩

/-! ### Claims about the trim tank and the EGT filter -/

/-- The EGT written by `updateEGT` outside the case on the ground with the engine
OFF: the target of the call plus the distance of the previous EGT from it times
`expFBW(-0.1 * deltaTime)`. The target does not depend on the object. -/
theorem updateEGT_written (lib : Library) (ec : EngineControl) (engine : ℤ)
    (imbalance deltaTime simOnGround engineState simCN1 cFbwFF mach pressAltitude
      ambientTemp : ℚ)
    (hg : ¬ (simOnGround = 1 ∧ engineState = 0)) :
    engineEGTOf (updateEGT lib ec engine imbalance deltaTime simOnGround engineState simCN1
        cFbwFF mach pressAltitude ambientTemp).simVars engine
      = (lib.correctedEGT simCN1 cFbwFF mach pressAltitude * lib.theta2 mach ambientTemp
          - (if truncInt (lib.imbalanceExtractor imbalance 1) ≠ engine then 0
             else lib.imbalanceExtractor imbalance 2))
        + (engineEGTOf ec.simVars engine
            - (lib.correctedEGT simCN1 cFbwFF mach pressAltitude * lib.theta2 mach ambientTemp
              - (if truncInt (lib.imbalanceExtractor imbalance 1) ≠ engine then 0
                 else lib.imbalanceExtractor imbalance 2)))
          * lib.expFBW (-(1 / 10) * deltaTime) := by
  by_cases he : engine = 1
  · simp only [updateEGT, engineEGTOf, he, hg, if_true, if_false]
  · simp only [updateEGT, engineEGTOf, he, hg, if_false]

/-- The EGT written by `updateEGT` outside the case on the ground with the engine
OFF is the filter step `egtFilter` over `ℚ`, from the EGT on the bus towards the
target of the call. -/
theorem updateEGT_filter (lib : Library) (ec : EngineControl) (engine : ℤ)
    (imbalance deltaTime simOnGround engineState simCN1 cFbwFF mach pressAltitude
      ambientTemp : ℚ)
    (hg : ¬ (simOnGround = 1 ∧ engineState = 0)) :
    engineEGTOf (updateEGT lib ec engine imbalance deltaTime simOnGround engineState simCN1
        cFbwFF mach pressAltitude ambientTemp).simVars engine
      = egtFilter lib.expFBW
          (lib.correctedEGT simCN1 cFbwFF mach pressAltitude * lib.theta2 mach ambientTemp
            - (if truncInt (lib.imbalanceExtractor imbalance 1) = engine then
                lib.imbalanceExtractor imbalance 2 else 0))
          (engineEGTOf ec.simVars engine) deltaTime := by
  have htar : (if truncInt (lib.imbalanceExtractor imbalance 1) ≠ engine then (0 : ℚ)
      else lib.imbalanceExtractor imbalance 2)
      = (if truncInt (lib.imbalanceExtractor imbalance 1) = engine then
          lib.imbalanceExtractor imbalance 2 else 0) := by
    by_cases ha : truncInt (lib.imbalanceExtractor imbalance 1) = engine
    · simp only [ha, ne_eq, not_true_eq_false, if_false, if_true]
    · simp only [ha, ne_eq, not_false_eq_true, if_true, if_false]
  rw [updateEGT_written lib ec engine imbalance deltaTime simOnGround engineState simCN1 cFbwFF
    mach pressAltitude ambientTemp hg, htar]
  rfl

/-- Consecutive calls of `updateEGT` with fixed inputs, outside the case on the
ground with the engine OFF, write the EGT of the consecutive filter steps. -/
theorem egtRun_filter (lib : Library) (engine : ℤ)
    (imbalance simOnGround engineState simCN1 cFbwFF mach pressAltitude ambientTemp : ℚ)
    (hg : ¬ (simOnGround = 1 ∧ engineState = 0)) (dts : List ℚ) :
    ∀ ec : EngineControl,
      engineEGTOf (egtRun lib engine imbalance simOnGround engineState simCN1 cFbwFF mach
          pressAltitude ambientTemp ec dts).simVars engine
        = egtFilterRun lib.expFBW
            (lib.correctedEGT simCN1 cFbwFF mach pressAltitude * lib.theta2 mach ambientTemp
              - (if truncInt (lib.imbalanceExtractor imbalance 1) = engine then
                  lib.imbalanceExtractor imbalance 2 else 0))
            (engineEGTOf ec.simVars engine) dts := by
  induction dts with
  | nil => intro ec; rfl
  | cons d ds ih =>
    intro ec
    show engineEGTOf (egtRun lib engine imbalance simOnGround engineState simCN1 cFbwFF mach
        pressAltitude ambientTemp
        (updateEGT lib ec engine imbalance d simOnGround engineState simCN1 cFbwFF mach
          pressAltitude ambientTemp) ds).simVars engine = _
    rw [ih, updateEGT_filter lib ec engine imbalance d simOnGround engineState simCN1 cFbwFF
      mach pressAltitude ambientTemp hg]
    rfl

/-- Two filter steps are one step of the summed delta time whenever `expFBW`
satisfies the equation of the exponential at the two delta times. -/
theorem egtFilter_add {K : Type} [Field K] (expFBW : K → K) (target prev dt1 dt2 : K)
    (h : expFBW (-(1 / 10) * (dt1 + dt2))
      = expFBW (-(1 / 10) * dt1) * expFBW (-(1 / 10) * dt2)) :
    egtFilter expFBW target (egtFilter expFBW target prev dt1) dt2
      = egtFilter expFBW target prev (dt1 + dt2) := by
  unfold egtFilter
  rw [h]
  ring

/-- With the exponential function for `expFBW`, the error left by consecutive
filter steps is the initial error times the exponential of `-0.1` times the sum of
the delta times. -/
theorem egtFilterRun_exp (target : ℝ) (dts : List ℝ) :
    ∀ prev : ℝ, egtFilterRun Real.exp target prev dts - target
      = Real.exp (-(1 / 10) * dts.sum) * (prev - target) := by
  induction dts with
  | nil =>
    intro prev
    show prev - target = _
    rw [List.sum_nil, mul_zero, Real.exp_zero, one_mul]
  | cons d ds ih =>
    intro prev
    show egtFilterRun Real.exp target (egtFilter Real.exp target prev d) ds - target = _
    rw [ih, List.sum_cons]
    have he : Real.exp (-(1 / 10) * (d + ds.sum))
        = Real.exp (-(1 / 10) * d) * Real.exp (-(1 / 10) * ds.sum) := by
      rw [mul_add, Real.exp_add]
    rw [he]
    unfold egtFilter
    ring

/-- C37: outside the case on the ground with the engine OFF, `updateEGT` writes
the filter step `egtFilter` from the engine's EGT on the bus towards the target of
the call, and consecutive calls with fixed inputs (hence a fixed target) write the
consecutive filter steps. Taking `expFBW` as the exponential function, for every
target, every previous EGT and all delta times `dt1`, `dt2` (in particular all
`dt1, dt2 ≥ 0`), the filter step with `dt1` followed by the filter step with `dt2`
gives the same EGT as one step with `dt1 + dt2`; and after the steps of any list of
delta times of sum `T` the remaining error `EGT - target` is exactly
`exp(-0.1 * T)` times the initial error, however `T` is split into ticks. -/
theorem c37_egt_frame_rate (lib : Library) (ec : EngineControl) (engine : ℤ)
    (imbalance simOnGround engineState simCN1 cFbwFF mach pressAltitude ambientTemp : ℚ)
    (hg : ¬ (simOnGround = 1 ∧ engineState = 0)) :
    (∀ dt : ℚ,
      engineEGTOf (updateEGT lib ec engine imbalance dt simOnGround engineState simCN1 cFbwFF mach
          pressAltitude ambientTemp).simVars engine
        = egtFilter lib.expFBW
            (lib.correctedEGT simCN1 cFbwFF mach pressAltitude * lib.theta2 mach ambientTemp
              - (if truncInt (lib.imbalanceExtractor imbalance 1) = engine then
                  lib.imbalanceExtractor imbalance 2 else 0))
            (engineEGTOf ec.simVars engine) dt)
    ∧ (∀ dts : List ℚ,
      engineEGTOf (egtRun lib engine imbalance simOnGround engineState simCN1 cFbwFF mach
          pressAltitude ambientTemp ec dts).simVars engine
        = egtFilterRun lib.expFBW
            (lib.correctedEGT simCN1 cFbwFF mach pressAltitude * lib.theta2 mach ambientTemp
              - (if truncInt (lib.imbalanceExtractor imbalance 1) = engine then
                  lib.imbalanceExtractor imbalance 2 else 0))
            (engineEGTOf ec.simVars engine) dts)
    ∧ (∀ target prev dt1 dt2 : ℝ,
      egtFilter Real.exp target (egtFilter Real.exp target prev dt1) dt2
        = egtFilter Real.exp target prev (dt1 + dt2))
    ∧ (∀ (target prev : ℝ) (dts : List ℝ),
      egtFilterRun Real.exp target prev dts - target
        = Real.exp (-(1 / 10) * dts.sum) * (prev - target)) := by
  refine ⟨?_, ?_, ?_, ?_⟩
  · intro dt
    exact updateEGT_filter lib ec engine imbalance dt simOnGround engineState simCN1 cFbwFF mach
      pressAltitude ambientTemp hg
  · intro dts
    exact egtRun_filter lib engine imbalance simOnGround engineState simCN1 cFbwFF mach
      pressAltitude ambientTemp hg dts ec
  · intro target prev dt1 dt2
    apply egtFilter_add
    rw [mul_add, Real.exp_add]
  · intro target prev dts
    exact egtFilterRun_exp target dts prev

/-- C37 on `libSteady` for engine 1 in flight with its EGT at 100 and a target of
500: a call of `updateEGT` with a delta time of 30 writes the filter step from 100
towards 500; with the exponential function a step of 10 s followed by a step of
20 s gives the EGT of one step of 30 s, and after the two steps the remaining error
is `exp(-3)` times the initial error of -400. -/
theorem c37_egt_frame_rate_witness :
    ¬ ((0 : ℚ) = 1 ∧ (1 : ℚ) = 0)
      ∧ engineEGTOf (updateEGT libSteady (ecEngine1 1 0 100) 1 0 30 0 1 0 0 0 0 15).simVars 1
        = egtFilter libSteady.expFBW 500 100 30
      ∧ egtFilter Real.exp 500 (egtFilter Real.exp 500 100 10) 20 = egtFilter Real.exp 500 100 30
      ∧ egtFilterRun Real.exp 500 100 [10, 20] - 500 = Real.exp (-3) * (100 - 500) := by
  have hg : ¬ ((0 : ℚ) = 1 ∧ (1 : ℚ) = 0) := by norm_num
  have h := c37_egt_frame_rate libSteady (ecEngine1 1 0 100) 1 0 0 1 0 0 0 0 15 hg
  have htar : libSteady.correctedEGT 0 0 0 0 * libSteady.theta2 0 15
      - (if truncInt (libSteady.imbalanceExtractor 0 1) = 1 then
          libSteady.imbalanceExtractor 0 2 else 0) = 500 := by
    norm_num [libSteady, truncInt]
  have hprev : engineEGTOf (ecEngine1 1 0 100).simVars 1 = 100 := rfl
  have h1 := h.1 30
  rw [htar, hprev] at h1
  have h3 := h.2.2.2 500 100 [10, 20]
  have hs : (-(1 / 10) * ([10, 20] : List ℝ).sum) = -3 := by norm_num
  rw [hs] at h3
  have h2 := h.2.2.1 500 100 10 20
  have h10 : (10 : ℝ) + 20 = 30 := by norm_num
  rw [h10] at h2
  exact ⟨hg, h1, h2, h3⟩

end A339x
